import Mathlib

/-!
# ci-operator-prowgen: job generation and pruning

A shallow embedding of `cmd/ci-operator-prowgen/main.go`: the pod-spec
synthesizer, the job builder, `generateJobs`, `makeBranchExplicit` and
`prune`, followed by theorems about them.

Go strings are embedded as `String`, slices as `List`, pointers that may be
nil as `Option`, and Go maps as insertion-ordered association lists with
in-place replacement (`GoMap`).  A panic is the `Except.error` result.
-/

namespace Prowgen

/-! ## Go strings and maps -/

/-- Go `strings.HasPrefix(s, pre)`. -/
def stringsHasPrefix (s pre : String) : Bool :=
  pre.data.isPrefixOf s.data

/-- Go `strings.Replace(s, old, new, -1)` for a one-character `old` and `new`,
the only way the program calls it. -/
def stringsReplaceChar (s : String) (old new : Char) : String :=
  String.mk (s.data.map fun c => if c = old then new else c)

/-- Go map with string keys, as an association list. -/
abbrev GoMap (α : Type) := List (String × α)

/-- Go `v, ok := m[k]`. -/
def GoMap.get? {α : Type} (m : GoMap α) (k : String) : Option α :=
  match m with
  | [] => none
  | (k', v) :: rest => if k' = k then some v else GoMap.get? rest k

/-- Go `m[k]` for a map of slices: the nil slice when the key is absent. -/
def GoMap.index {α : Type} (m : GoMap (List α)) (k : String) : List α :=
  (m.get? k).getD []

/-- Go `m[k] = v`: replaces the value of an existing key, adds a new key otherwise. -/
def GoMap.set {α : Type} (m : GoMap α) (k : String) (v : α) : GoMap α :=
  match m with
  | [] => [(k, v)]
  | (k', v') :: rest => if k' = k then (k', v) :: rest else (k', v') :: GoMap.set rest k v

/-- The keys of a Go map. -/
def GoMap.keys {α : Type} (m : GoMap α) : List String :=
  m.map Prod.fst

/-- A Go map holds each key once. -/
def GoMap.WF {α : Type} (m : GoMap α) : Prop :=
  (GoMap.keys m).Nodup

instance {α : Type} (m : GoMap α) : Decidable (GoMap.WF m) := by
  unfold GoMap.WF; infer_instance

/-! ## Constants -/

def prowJobLabelVariant : String := "ci-operator.openshift.io/variant"

def sentryDsnMountName : String := "sentry-dsn"
def sentryDsnSecretName : String := "sentry-dsn"
def sentryDsnMountPath : String := "/etc/sentry-dsn"
def sentryDsnSecretPath : String := "/etc/sentry-dsn/ci-operator"

def presubmitPrefix : String := "pull"
def postsubmitPrefix : String := "branch"

/-- Modelled from the spec: the label key `jc.ProwJobLabelGenerated` (the
"generation marker key"); package `jobconfig` is not among the sources. -/
def ProwJobLabelGenerated : String := "ci-operator.openshift.io/prowgen-controlled"

/-- Modelled from the spec: `jc.New`, the transient marker value "new". -/
def New : String := "new"

/-- Modelled from the spec: `jc.Generated`, the stable marker value "generated". -/
def Generated : String := "generated"

/-! ## Configuration (package `api`, declarations not among the sources) -/

abbrev ClusterProfile := String

/-- Modelled from the spec: the cluster profile identifier `aws` of package `api`. -/
def ClusterProfileAWS : ClusterProfile := "aws"

/-- Modelled from the spec: the cluster profile identifier `aws-atomic`. -/
def ClusterProfileAWSAtomic : ClusterProfile := "aws-atomic"

/-- Modelled from the spec: the cluster profile identifier `aws-centos`. -/
def ClusterProfileAWSCentos : ClusterProfile := "aws-centos"

/-- Modelled from the spec: the cluster profile identifier `aws-centos-40`. -/
def ClusterProfileAWSCentos40 : ClusterProfile := "aws-centos-40"

/-- Modelled from the spec: the cluster profile identifier `aws-gluster`. -/
def ClusterProfileAWSGluster : ClusterProfile := "aws-gluster"

/-- Modelled from the spec: the cluster profile identifier `azure4`. -/
def ClusterProfileAzure4 : ClusterProfile := "azure4"

/-- Modelled from the spec: the cluster profile identifier `gcp`. -/
def ClusterProfileGCP : ClusterProfile := "gcp"

/-- Modelled from the spec: the 4.0 variant of the `gcp` profile; the spec names the
variants of `gcp` without spelling their identifiers. -/
def ClusterProfileGCP40 : ClusterProfile := "gcp-40"

/-- Modelled from the spec: the HA variant of the `gcp` profile. -/
def ClusterProfileGCPHA : ClusterProfile := "gcp-ha"

/-- Modelled from the spec: the crio variant of the `gcp` profile. -/
def ClusterProfileGCPCRIO : ClusterProfile := "gcp-crio"

/-- Modelled from the spec: the logging variant of the `gcp` profile. -/
def ClusterProfileGCPLogging : ClusterProfile := "gcp-logging"

/-- Modelled from the spec: the logging-journald variant of the `gcp` profile. -/
def ClusterProfileGCPLoggingJournald : ClusterProfile := "gcp-logging-journald"

/-- Modelled from the spec: the logging-json-file variant of the `gcp` profile. -/
def ClusterProfileGCPLoggingJSONFile : ClusterProfile := "gcp-logging-json-file"

/-- Modelled from the spec: the logging-crio variant of the `gcp` profile. -/
def ClusterProfileGCPLoggingCRIO : ClusterProfile := "gcp-logging-crio"

/-- Modelled from the spec: the cluster profile identifier `openstack`. -/
def ClusterProfileOpenStack : ClusterProfile := "openstack"

/-- Modelled from the spec: the cluster profile identifier `vsphere`. -/
def ClusterProfileVSphere : ClusterProfile := "vsphere"

structure ContainerTestConfiguration where
  From : String
  deriving DecidableEq, Repr

structure ClusterTestConfiguration where
  ClusterProfile : String
  deriving DecidableEq, Repr

structure OpenshiftAnsibleUpgradeClusterTestConfiguration where
  ClusterProfile : String
  PreviousVersion : String
  PreviousRPMDeps : String
  deriving DecidableEq, Repr

structure OpenshiftInstallerClusterTestConfiguration where
  ClusterProfile : String
  Upgrade : Bool
  deriving DecidableEq, Repr

structure OpenshiftInstallerCustomTestImageClusterTestConfiguration where
  ClusterProfile : String
  From : String
  deriving DecidableEq, Repr

structure OpenshiftInstallerRandomClusterTestConfiguration where
  deriving DecidableEq, Repr

/-- The fields of `api.TestStepConfiguration` the generator reads: a name, a
command and one optional (pointer) field per test shape. -/
structure TestStepConfiguration where
  As : String
  Commands : String
  ContainerTestConfiguration : Option ContainerTestConfiguration := none
  OpenshiftAnsibleClusterTestConfiguration : Option ClusterTestConfiguration := none
  OpenshiftAnsibleSrcClusterTestConfiguration : Option ClusterTestConfiguration := none
  OpenshiftAnsibleCustomClusterTestConfiguration : Option ClusterTestConfiguration := none
  OpenshiftAnsibleUpgradeClusterTestConfiguration :
    Option OpenshiftAnsibleUpgradeClusterTestConfiguration := none
  OpenshiftAnsible40ClusterTestConfiguration : Option ClusterTestConfiguration := none
  OpenshiftInstallerClusterTestConfiguration :
    Option OpenshiftInstallerClusterTestConfiguration := none
  OpenshiftInstallerSrcClusterTestConfiguration : Option ClusterTestConfiguration := none
  OpenshiftInstallerUPIClusterTestConfiguration : Option ClusterTestConfiguration := none
  OpenshiftInstallerConsoleClusterTestConfiguration : Option ClusterTestConfiguration := none
  OpenshiftInstallerCustomTestImageClusterTestConfiguration :
    Option OpenshiftInstallerCustomTestImageClusterTestConfiguration := none
  OpenshiftInstallerRandomClusterTestConfiguration :
    Option OpenshiftInstallerRandomClusterTestConfiguration := none
  deriving DecidableEq, Repr

structure ReleaseTagConfiguration where
  Name : String
  deriving DecidableEq, Repr

/-- Modelled from the spec: a promotion configuration declares an ordered
sequence of additional image names; the declaration of
`api.PromotionConfiguration` is not among the sources. -/
structure PromotionConfiguration where
  AdditionalImages : List String
  deriving DecidableEq, Repr

/-- The fields of `api.ReleaseBuildConfiguration` the generator reads.  Of
`Images` only the length is used; an image is represented by its name. -/
structure ReleaseBuildConfiguration where
  Tests : List TestStepConfiguration
  Images : List String
  PromotionConfiguration : Option PromotionConfiguration
  ReleaseTagConfiguration : Option ReleaseTagConfiguration
  deriving DecidableEq, Repr

/-- The identifying info of package `config`: org, repo, branch, variant, and
the results of its methods `ConfigMapName()` and `Basename()`, whose bodies
are not among the sources. -/
structure Info where
  Org : String
  Repo : String
  Branch : String
  Variant : String
  ConfigMapName : String
  Basename : String
  deriving DecidableEq, Repr

/-! ## Pod specification (package `k8s.io/api/core/v1`) -/

structure ConfigMapKeySelector where
  Name : String
  Key : String
  deriving DecidableEq, Repr

structure EnvVar where
  Name : String
  Value : String := ""
  ValueFrom : Option ConfigMapKeySelector := none
  deriving DecidableEq, Repr

structure VolumeMount where
  Name : String
  MountPath : String
  SubPath : String := ""
  ReadOnly : Bool := false
  deriving DecidableEq, Repr

/-- One source of a projected volume: a secret or a config map, by name. -/
structure VolumeProjection where
  Secret : Option String := none
  ConfigMap : Option String := none
  deriving DecidableEq, Repr

structure VolumeSource where
  Secret : Option String := none
  ConfigMap : Option String := none
  Projected : Option (List VolumeProjection) := none
  deriving DecidableEq, Repr

structure Volume where
  Name : String
  VolumeSource : VolumeSource := {}
  deriving DecidableEq, Repr

structure Container where
  Image : String
  ImagePullPolicy : String
  Command : List String := []
  Args : List String := []
  Env : List EnvVar := []
  Requests : List (String × String) := []
  VolumeMounts : List VolumeMount := []
  deriving DecidableEq, Repr

structure PodSpec where
  ServiceAccountName : String
  Containers : List Container
  Volumes : List Volume
  deriving DecidableEq, Repr

/-- Go `f(&podSpec.Containers[0])`: update the first container in place. -/
def PodSpec.modifyContainer0 (p : PodSpec) (f : Container → Container) : PodSpec :=
  match p.Containers with
  | [] => p
  | c :: rest => { p with Containers := f c :: rest }

/-! ## Jobs (package `k8s.io/test-infra/prow/config`) -/

structure DecorationConfig where
  SkipCloning : Option Bool
  deriving DecidableEq, Repr

structure UtilityConfig where
  Decorate : Bool
  DecorationConfig : Option DecorationConfig
  deriving DecidableEq, Repr

structure JobBase where
  Name : String
  Labels : GoMap String
  Agent : String
  Spec : Option PodSpec
  UtilityConfig : UtilityConfig
  deriving DecidableEq, Repr

structure Brancher where
  Branches : List String
  deriving DecidableEq, Repr

structure Reporter where
  Context : String
  deriving DecidableEq, Repr

structure Presubmit extends JobBase where
  AlwaysRun : Bool
  Brancher : Brancher
  Reporter : Reporter
  RerunCommand : String
  Trigger : String
  deriving DecidableEq, Repr

structure Postsubmit extends JobBase where
  Brancher : Brancher
  deriving DecidableEq, Repr

structure Periodic extends JobBase where
  deriving DecidableEq, Repr

structure JobConfig where
  Presubmits : GoMap (List Presubmit) := []
  Postsubmits : GoMap (List Postsubmit) := []
  Periodics : List Periodic := []
  deriving DecidableEq, Repr

/-- Library `prowconfig.DefaultRerunCommandFor`. -/
def DefaultRerunCommandFor (name : String) : String :=
  "/test " ++ name

/-- Library `prowconfig.DefaultTriggerFor`. -/
def DefaultTriggerFor (name : String) : String :=
  "(?m)^/test( | .* )" ++ name ++ ",?($|\\s.*)"

/-- Library `(*JobConfig).AllPeriodics`: the periodic jobs of the config. -/
def JobConfig.AllPeriodics (c : JobConfig) : List Periodic :=
  c.Periodics

/-! ## Pod-spec synthesizer -/

/-- The shell script of the random-cloud job, `fmt.Sprintf(openshiftInstallerRandomCmd, name)`:
every `%[1]s` of the constant is the test name. -/
def openshiftInstallerRandomCmd (name : String) : String :=
  "set -eux\n" ++
  "target=$(awk < /usr/local/e2e-targets \x5c\n" ++
  "    --assign \x22r=$RANDOM\x22 \x5c\n" ++
  "    \x27BEGIN \x7b r /= 32767 \x7d (r -= $1) <= 0 \x7b print $2; exit \x7d\x27)\n" ++
  "case \x22$target\x22 in\n" ++
  "    aws) template=e2e; CLUSTER_TYPE=aws;;\n" ++
  "    azure) template=e2e; CLUSTER_TYPE=azure4;;\n" ++
  "    aws-upi) template=upi-e2e; CLUSTER_TYPE=aws;;\n" ++
  "    vsphere) template=upi-e2e; CLUSTER_TYPE=vsphere;;\n" ++
  "    *) echo >&2 \x22invalid target $target\x22; exit 1 ;;\n" ++
  "esac\n" ++
  "ln -s \x22/usr/local/job-definition/cluster-launch-installer-$template.yaml\x22 /tmp/" ++ name ++ "\n" ++
  "ln -s \x22/usr/local/cluster-profiles/$CLUSTER_TYPE\x22 /tmp/" ++ name ++ "-cluster-profile\n" ++
  "export CLUSTER_TYPE\n" ++
  "exec ci-operator \x5c\n" ++
  "    --artifact-dir=$(ARTIFACTS) \x5c\n" ++
  "    --give-pr-author-access-to-namespace=true \x5c\n" ++
  "    --secret-dir=/tmp/" ++ name ++ "-cluster-profile \x5c\n" ++
  "    --sentry-dsn-path=/etc/sentry-dsn/ci-operator \x5c\n" ++
  "    --target=" ++ name ++ " \x5c\n" ++
  "    --template=/tmp/" ++ name ++ "\n"

def openshiftInstallerRandomProfiles : List ClusterProfile :=
  [ClusterProfileAWS, ClusterProfileAzure4, ClusterProfileVSphere]

def generatePodSpec (info : Info) : PodSpec :=
  { ServiceAccountName := "ci-operator"
    Containers := [
      { Image := "ci-operator:latest"
        ImagePullPolicy := "Always"
        Env := [{ Name := "CONFIG_SPEC",
                  ValueFrom := some { Name := info.ConfigMapName, Key := info.Basename } }]
        Requests := [("cpu", "10m")]
        VolumeMounts := [{ Name := sentryDsnMountName, MountPath := sentryDsnMountPath,
                           ReadOnly := true }] }]
    Volumes := [{ Name := sentryDsnMountName,
                  VolumeSource := { Secret := some sentryDsnSecretName } }] }

/-- The panic of `generateCiOperatorPodSpec` is the `error` result: it is raised at
the first additional argument that does not start with `--`. -/
def generateCiOperatorPodSpec (info : Info) (target : String) (additionalArgs : List String) :
    Except String PodSpec :=
  match additionalArgs.find? (fun arg => !stringsHasPrefix arg "--") with
  | some arg =>
    Except.error ("all args to ci-operator must be in the form --flag=value, not " ++ arg)
  | none =>
    Except.ok ((generatePodSpec info).modifyContainer0 fun c =>
      { c with
        Command := ["ci-operator"]
        Args := [ "--give-pr-author-access-to-namespace=true",
                  "--artifact-dir=$(ARTIFACTS)",
                  "--target=" ++ target,
                  "--sentry-dsn-path=" ++ sentryDsnSecretPath ] ++ additionalArgs })

def generateClusterProfileVolume (name profile : String) : Volume :=
  { Name := name
    VolumeSource := { Projected := some [{ Secret := some profile }] } }

def generateConfigMapVolume (name : String) (templates : List String) : Volume :=
  match templates with
  | [] => { Name := name }
  | [t] => { Name := name, VolumeSource := { ConfigMap := some t } }
  | ts =>
    { Name := name
      VolumeSource := { Projected := some (ts.map fun t => { ConfigMap := some t }) } }

/-- The local variables `template`, `clusterProfile`, `needsReleaseRpms` and
`testImageStreamTag` of `generatePodSpecTemplate`. -/
structure TemplateSelection where
  template : String := ""
  clusterProfile : ClusterProfile := ""
  needsReleaseRpms : Bool := false
  testImageStreamTag : String := ""
  deriving DecidableEq, Repr

/-- The `if … else if …` chain at the head of `generatePodSpecTemplate`. -/
def selectTemplate (test : TestStepConfiguration) : TemplateSelection :=
  if let some conf := test.OpenshiftAnsibleClusterTestConfiguration then
    { template := "cluster-launch-e2e", clusterProfile := conf.ClusterProfile,
      needsReleaseRpms := true }
  else if let some conf := test.OpenshiftAnsibleSrcClusterTestConfiguration then
    { template := "cluster-launch-src", clusterProfile := conf.ClusterProfile,
      needsReleaseRpms := true }
  else if let some conf := test.OpenshiftAnsibleCustomClusterTestConfiguration then
    { template := "cluster-launch-e2e-openshift-ansible", clusterProfile := conf.ClusterProfile,
      needsReleaseRpms := true }
  else if let some conf := test.OpenshiftAnsibleUpgradeClusterTestConfiguration then
    { template := "cluster-launch-e2e-upgrade", clusterProfile := conf.ClusterProfile,
      needsReleaseRpms := true }
  else if let some conf := test.OpenshiftAnsible40ClusterTestConfiguration then
    { template := "cluster-scaleup-e2e-40", clusterProfile := conf.ClusterProfile,
      needsReleaseRpms := true }
  else if let some conf := test.OpenshiftInstallerClusterTestConfiguration then
    { template := if !conf.Upgrade then "cluster-launch-installer-e2e" else "",
      clusterProfile := conf.ClusterProfile }
  else if let some conf := test.OpenshiftInstallerSrcClusterTestConfiguration then
    { template := "cluster-launch-installer-src", clusterProfile := conf.ClusterProfile }
  else if let some conf := test.OpenshiftInstallerUPIClusterTestConfiguration then
    { template := "cluster-launch-installer-upi-e2e", clusterProfile := conf.ClusterProfile }
  else if let some conf := test.OpenshiftInstallerConsoleClusterTestConfiguration then
    { template := "cluster-launch-installer-console", clusterProfile := conf.ClusterProfile }
  else if let some conf := test.OpenshiftInstallerCustomTestImageClusterTestConfiguration then
    { template := "cluster-launch-installer-custom-test-image",
      clusterProfile := conf.ClusterProfile, testImageStreamTag := conf.From }
  else
    {}

/-- The first `switch clusterProfile` of `generatePodSpecTemplate`: the target cloud. -/
def targetCloudOf (clusterProfile : ClusterProfile) : String :=
  if clusterProfile ∈ [ClusterProfileAWS, ClusterProfileAWSAtomic, ClusterProfileAWSCentos,
      ClusterProfileAWSCentos40, ClusterProfileAWSGluster] then "aws"
  else if clusterProfile = ClusterProfileAzure4 then "azure4"
  else if clusterProfile ∈ [ClusterProfileGCP, ClusterProfileGCP40, ClusterProfileGCPHA,
      ClusterProfileGCPCRIO, ClusterProfileGCPLogging, ClusterProfileGCPLoggingJournald,
      ClusterProfileGCPLoggingJSONFile, ClusterProfileGCPLoggingCRIO] then "gcp"
  else if clusterProfile = ClusterProfileOpenStack then "openstack"
  else if clusterProfile = ClusterProfileVSphere then "vsphere"
  else ""

/-- Go `append(v.VolumeSource.Projected.Sources, p)` on a projected volume. -/
def Volume.appendProjection (v : Volume) (p : VolumeProjection) : Volume :=
  match v.VolumeSource.Projected with
  | some sources => { v with VolumeSource := { v.VolumeSource with Projected := some (sources ++ [p]) } }
  | none => v

def generatePodSpecTemplate (info : Info) (release : String) (test : TestStepConfiguration) :
    Except String PodSpec := do
  let sel := selectTemplate test
  let template := sel.template
  let clusterProfile := sel.clusterProfile
  let targetCloud := targetCloudOf clusterProfile
  let clusterProfilePath := "/usr/local/" ++ test.As ++ "-cluster-profile"
  let templatePath := "/usr/local/" ++ test.As
  let podSpec ← generateCiOperatorPodSpec info test.As []
  let clusterProfileVolume :=
    generateClusterProfileVolume "cluster-profile" ("cluster-secrets-" ++ targetCloud)
  let clusterProfileVolume :=
    if clusterProfile ∈ [ClusterProfileAWS, ClusterProfileAzure4, ClusterProfileOpenStack,
        ClusterProfileVSphere] then clusterProfileVolume
    else clusterProfileVolume.appendProjection
      { ConfigMap := some ("cluster-profile-" ++ clusterProfile) }
  let podSpec :=
    if template.length > 0 then
      { podSpec with Volumes := podSpec.Volumes ++
          [generateConfigMapVolume "job-definition" ["prow-job-" ++ template]] }
    else podSpec
  let podSpec := { podSpec with Volumes := podSpec.Volumes ++ [clusterProfileVolume] }
  let podSpec := podSpec.modifyContainer0 fun container =>
    let container := { container with Args := container.Args ++ ["--secret-dir=" ++ clusterProfilePath] }
    let container :=
      if template.length > 0 then
        { container with Args := container.Args ++ ["--template=" ++ templatePath] }
      else container
    let container := { container with VolumeMounts := container.VolumeMounts ++
      [{ Name := "cluster-profile", MountPath := clusterProfilePath }] }
    let container :=
      if template.length > 0 then
        let container := { container with
          VolumeMounts := container.VolumeMounts ++
            [{ Name := "job-definition", MountPath := templatePath, SubPath := template ++ ".yaml" }]
          Env := container.Env ++
            [ { Name := "CLUSTER_TYPE", Value := targetCloud },
              { Name := "JOB_NAME_SAFE", Value := stringsReplaceChar test.As '_' '-' },
              { Name := "TEST_COMMAND", Value := test.Commands } ] }
        if sel.testImageStreamTag.length > 0 then
          { container with Env := container.Env ++
            [{ Name := "TEST_IMAGESTREAM_TAG", Value := sel.testImageStreamTag }] }
        else container
      else container
    let container :=
      if sel.needsReleaseRpms && (info.Org != "openshift" || info.Repo != "origin") then
        let repoPath :=
          if stringsHasPrefix release "origin-v" then
            "https://rpms.svc.ci.openshift.org/openshift-" ++ release ++ "/"
          else "https://rpms.svc.ci.openshift.org/openshift-origin-v" ++ release ++ "/"
        { container with Env := container.Env ++
          [{ Name := "RPM_REPO_OPENSHIFT_ORIGIN", Value := repoPath }] }
      else container
    let container :=
      if test.OpenshiftAnsible40ClusterTestConfiguration.isSome then
        { container with Env := container.Env ++
          [{ Name := "RPM_REPO_CRIO_DIR", Value := release ++ "-rhel-7" }] }
      else container
    match test.OpenshiftAnsibleUpgradeClusterTestConfiguration with
    | some conf =>
      { container with Env := container.Env ++
        [ { Name := "PREVIOUS_ANSIBLE_VERSION", Value := conf.PreviousVersion },
          { Name := "PREVIOUS_IMAGE_ANSIBLE",
            Value := "docker.io/openshift/origin-ansible:v" ++ conf.PreviousVersion },
          { Name := "PREVIOUS_RPM_DEPENDENCIES_REPO", Value := conf.PreviousRPMDeps },
          { Name := "PREVIOUS_RPM_REPO",
            Value := "https://rpms.svc.ci.openshift.org/openshift-origin-v" ++
              conf.PreviousVersion ++ "/" } ] }
    | none => container
  return podSpec

def generatePodSpecRandom (info : Info) (test : TestStepConfiguration) : PodSpec :=
  let podSpec := generatePodSpec info
  let podSpec := { podSpec with Volumes := podSpec.Volumes ++
    openshiftInstallerRandomProfiles.map (fun p =>
      generateClusterProfileVolume ("cluster-profile-" ++ p) ("cluster-secrets-" ++ p)) }
  let podSpec := { podSpec with Volumes := podSpec.Volumes ++
    [generateConfigMapVolume "job-definition"
      ["prow-job-cluster-launch-installer-e2e", "prow-job-cluster-launch-installer-upi-e2e"]] }
  let podSpec := { podSpec with Volumes := podSpec.Volumes ++
    [generateConfigMapVolume "e2e-targets" ["e2e-targets"]] }
  podSpec.modifyContainer0 fun container =>
    let container : Container := { container with
      Command := ["bash"]
      Args := ["-c", openshiftInstallerRandomCmd test.As]
      Env := container.Env ++
        [ ({ Name := "JOB_NAME_SAFE", Value := stringsReplaceChar test.As '_' '-' } : EnvVar),
          ({ Name := "TEST_COMMAND", Value := test.Commands } : EnvVar) ] }
    let container : Container := { container with
      VolumeMounts := container.VolumeMounts ++
        openshiftInstallerRandomProfiles.map (fun p =>
          ({ Name := "cluster-profile-" ++ p,
             MountPath := "/usr/local/cluster-profiles/" ++ p } : VolumeMount)) }
    { container with VolumeMounts := container.VolumeMounts ++
      [ ({ Name := "e2e-targets", MountPath := "/usr/local/e2e-targets",
           SubPath := "e2e-targets" } : VolumeMount),
        ({ Name := "job-definition", MountPath := "/usr/local/job-definition" } : VolumeMount) ] }

/-! ## Job builder -/

/-- The condition under which `generateJobBase` logs its warning; `len` counts bytes. -/
def generateJobBaseWarns (name pfx : String) (info : Info) : Bool :=
  let jobPrefix := pfx ++ "-ci-" ++ info.Org ++ "-" ++ info.Repo ++ "-" ++ info.Branch ++ "-"
  let jobName := jobPrefix ++ name
  decide (jobName.utf8ByteSize > 63) && decide (jobPrefix.utf8ByteSize < 53)

def generateJobBase (name pfx : String) (info : Info) (label : String) (podSpec : PodSpec) :
    JobBase :=
  let labels : GoMap String := [(ProwJobLabelGenerated, label)]
  let jobPrefix := pfx ++ "-ci-" ++ info.Org ++ "-" ++ info.Repo ++ "-" ++ info.Branch ++ "-"
  let labels := if info.Variant.length > 0 then labels.set prowJobLabelVariant info.Variant else labels
  let jobName := jobPrefix ++ name
  { Agent := "kubernetes"
    Labels := labels
    Name := jobName
    Spec := some podSpec
    UtilityConfig := { DecorationConfig := some { SkipCloning := some true }, Decorate := true } }

def generatePresubmitForTest (name : String) (info : Info) (label : String) (podSpec : PodSpec) :
    Presubmit :=
  let name := if info.Variant.length > 0 then info.Variant ++ "-" ++ name else name
  let base := generateJobBase name presubmitPrefix info label podSpec
  { toJobBase := base
    AlwaysRun := true
    Brancher := { Branches := [info.Branch] }
    Reporter := { Context := "ci/prow/" ++ name }
    RerunCommand := DefaultRerunCommandFor name
    Trigger := DefaultTriggerFor name }

/-- Library `regexp.QuoteMeta`: a backslash before each regular expression metacharacter. -/
def regexpQuoteMeta (s : String) : String :=
  String.mk (s.data.flatMap fun c =>
    if c ∈ ['\x5c', '.', '+', '*', '?', '(', ')', '|', '[', ']', '\x7b', '\x7d', '^', '$']
    then ['\x5c', c] else [c])

/-- The character class `[\w\-.]` of `simpleBranchRegexp`; `\w` is `[0-9A-Za-z_]`. -/
def simpleBranchChar (c : Char) : Bool :=
  c.isAlphanum || c = '_' || c = '-' || c = '.'

/-- The match of `simpleBranchRegexp`, the anchored one-or-more repetition of the class:
`simpleBranchRegexp.MatchString(branch)`. -/
def simpleBranchRegexp (branch : String) : Bool :=
  !branch.data.isEmpty && branch.data.all simpleBranchChar

def makeBranchExplicit (branch : String) : String :=
  if !simpleBranchRegexp branch then branch
  else "^" ++ regexpQuoteMeta branch ++ "$"

def generatePostsubmitForTest (name : String) (info : Info) (label : String) (podSpec : PodSpec) :
    Postsubmit :=
  let name := if info.Variant.length > 0 then info.Variant ++ "-" ++ name else name
  let base := generateJobBase name postsubmitPrefix info label podSpec
  { toJobBase := base
    Brancher := { Branches := [makeBranchExplicit info.Branch] } }

/-! ## Job-set generator -/

/-- The pod spec `generateJobs` builds for one test, the body of its loop up to the append. -/
def elementPodSpec (configSpec : ReleaseBuildConfiguration) (info : Info)
    (element : TestStepConfiguration) : Except String PodSpec :=
  if element.ContainerTestConfiguration.isSome then
    generateCiOperatorPodSpec info element.As []
  else
    let release :=
      match configSpec.ReleaseTagConfiguration with
      | some c => c.Name
      | none => ""
    if element.OpenshiftInstallerRandomClusterTestConfiguration.isSome then
      Except.ok (generatePodSpecRandom info element)
    else
      generatePodSpecTemplate info release element

/-- The function `promotion.PromotesOfficialImages` is not among the sources and is a
parameter of `generateJobs`. -/
def generateJobs (PromotesOfficialImages : ReleaseBuildConfiguration → Bool)
    (configSpec : ReleaseBuildConfiguration) (info : Info) (label : String) :
    Except String JobConfig := do
  let orgrepo := info.Org ++ "/" ++ info.Repo
  let presubmits : GoMap (List Presubmit) := []
  let postsubmits : GoMap (List Postsubmit) := []
  let presubmits ← configSpec.Tests.foldlM (fun presubmits element => do
    let podSpec ← elementPodSpec configSpec info element
    pure (presubmits.set orgrepo
      (presubmits.index orgrepo ++ [generatePresubmitForTest element.As info label podSpec])))
    presubmits
  if configSpec.Images.length > 0 then
    let additionalPresubmitArgs :=
      if PromotesOfficialImages configSpec then ["--target=[release:latest]"] else []
    let podSpec ← generateCiOperatorPodSpec info "[images]" additionalPresubmitArgs
    let presubmits := presubmits.set orgrepo
      (presubmits.index orgrepo ++ [generatePresubmitForTest "images" info label podSpec])
    match configSpec.PromotionConfiguration with
    | some promotionConfiguration =>
      let additionalPostsubmitArgs :=
        promotionConfiguration.AdditionalImages.foldl
          (fun args additionalImage => args ++ ["--target=" ++ additionalImage]) ["--promote"]
      let podSpec ← generateCiOperatorPodSpec info "[images]" additionalPostsubmitArgs
      let postsubmits := postsubmits.set orgrepo
        (postsubmits.index orgrepo ++ [generatePostsubmitForTest "images" info label podSpec])
      pure { Presubmits := presubmits, Postsubmits := postsubmits }
    | none => pure { Presubmits := presubmits, Postsubmits := postsubmits }
  else
    pure { Presubmits := presubmits, Postsubmits := postsubmits }

/-! ## Reconciler -/

def isStale (job : JobBase) : Bool :=
  match job.Labels.get? ProwJobLabelGenerated with
  | some genLabel => genLabel != New
  | none => false

def isGenerated (job : JobBase) : Bool :=
  (job.Labels.get? ProwJobLabelGenerated).isSome

/-- One of the two loops of `prune`, the same for presubmits (`J := Presubmit`) and
postsubmits (`J := Postsubmit`): `base` is the embedded `JobBase` of a job and
`setLabels` stores a label map in it. -/
def pruneJobs {J : Type} (base : J → JobBase) (setLabels : J → GoMap String → J)
    (jobsByRepo : GoMap (List J)) : GoMap (List J) :=
  jobsByRepo.foldl (fun pruned entry =>
    entry.2.foldl (fun pruned job =>
      if isStale (base job) then pruned
      else
        let job :=
          if isGenerated (base job) then
            setLabels job ((base job).Labels.set ProwJobLabelGenerated Generated)
          else job
        pruned.set entry.1 (pruned.index entry.1 ++ [job])) pruned) []

def Presubmit.setLabels (job : Presubmit) (labels : GoMap String) : Presubmit :=
  { job with Labels := labels }

def Postsubmit.setLabels (job : Postsubmit) (labels : GoMap String) : Postsubmit :=
  { job with Labels := labels }

def prune (jobConfig : JobConfig) : JobConfig :=
  { Presubmits := pruneJobs Presubmit.toJobBase Presubmit.setLabels jobConfig.Presubmits
    Postsubmits := pruneJobs Postsubmit.toJobBase Postsubmit.setLabels jobConfig.Postsubmits
    Periodics := [] ++ jobConfig.AllPeriodics }

/-- The fields of `jc.Info` the callback of `pruneStaleJobs` reads; `JobType` is its
field `Type`. -/
structure JobFileInfo where
  JobType : String
  Filename : String
  deriving DecidableEq, Repr

/-- A call the callback of `pruneStaleJobs` makes on the job file:
`os.Remove(filename)` or `jc.WriteToFile(filename, jobConfig)`. -/
inductive FileOp where
  | remove (filename : String)
  | write (filename : String) (jobConfig : JobConfig)
  deriving DecidableEq, Repr

/-- The callback `pruneStaleJobs` hands to `jc.OperateOnJobConfigSubdir`, as the call it
makes on the file (none for a periodics file). -/
def pruneStaleJobsCallback (jobConfig : JobConfig) (info : JobFileInfo) : Option FileOp :=
  if info.JobType = "periodics" then none
  else
    let pruned := prune jobConfig
    if pruned.Presubmits.length = 0 && pruned.Postsubmits.length = 0 then
      some (FileOp.remove info.Filename)
    else
      some (FileOp.write info.Filename pruned)

/-- An error of `os.Remove` or `jc.WriteToFile`; `IsNotExist` is what `os.IsNotExist`
reports of it. -/
structure OSError where
  Message : String
  IsNotExist : Bool
  deriving DecidableEq, Repr

/-- The error the callback of `pruneStaleJobs` returns (none for `nil`); `perform` gives
the error of the file operation the callback calls. -/
def pruneStaleJobsCallbackError (perform : FileOp → Option OSError) (jobConfig : JobConfig)
    (info : JobFileInfo) : Option OSError :=
  if info.JobType = "periodics" then none
  else
    let pruned := prune jobConfig
    if pruned.Presubmits.length = 0 && pruned.Postsubmits.length = 0 then
      match perform (FileOp.remove info.Filename) with
      | some err => if !err.IsNotExist then some err else none
      | none => none
    else
      match perform (FileOp.write info.Filename pruned) with
      | some err => some err
      | none => none

/-! ## Job-file store

Package `jobconfig` (`jc.WriteToDir`, `jc.OperateOnJobConfigSubdir`) is not among the
sources.  The job file of one unit is `none` when absent and `some jobConfig` otherwise. -/

/-- Modelled from the spec: the store operation `write(directory, org, repo, JobConfigFile)`
(`jc.WriteToDir`).  The file read from the store (absent ⇒ empty) keeps the jobs it holds
and receives the freshly generated presubmits and postsubmits after them, under their
`org/repo` key; periodics are untouched.  Which of the jobs survive is left to `prune`. -/
def storeWrite (file : Option JobConfig) (generated : JobConfig) : Option JobConfig :=
  let existing := file.getD {}
  some
    { Presubmits := generated.Presubmits.foldl
        (fun jobs entry => jobs.set entry.1 (jobs.index entry.1 ++ entry.2)) existing.Presubmits
      Postsubmits := generated.Postsubmits.foldl
        (fun jobs entry => jobs.set entry.1 (jobs.index entry.1 ++ entry.2)) existing.Postsubmits
      Periodics := existing.Periodics }

/-- Modelled from the spec: the store operation `read-and-rewrite`
(`jc.OperateOnJobConfigSubdir`) with the callback of `pruneStaleJobs`, the file operations
succeeding: an absent file is not visited, a removed file is absent afterwards, a written
file holds the pruned config. -/
def storePrune (file : Option JobConfig) (info : JobFileInfo) : Option JobConfig :=
  match file with
  | none => none
  | some jobConfig =>
    match pruneStaleJobsCallback jobConfig info with
    | none => some jobConfig
    | some (FileOp.remove _) => none
    | some (FileOp.write _ pruned) => some pruned

/-- One pass of the loop of `main` for one configuration and its job file: generate with
label `jc.New`, write to the store, prune. -/
def regenerate (PromotesOfficialImages : ReleaseBuildConfiguration → Bool)
    (configSpec : ReleaseBuildConfiguration) (info : Info) (fileInfo : JobFileInfo)
    (file : Option JobConfig) : Except String (Option JobConfig) := do
  let generated ← generateJobs PromotesOfficialImages configSpec info New
  pure (storePrune (storeWrite file generated) fileInfo)

/-! ## Migrated repositories (package `migrate`) -/

/-- One element of a compiled pattern: a literal character, `.` (any character but a
newline) or `.*`. -/
inductive RegexpItem where
  | char (c : Char)
  | any
  | anyStar
  deriving DecidableEq, Repr

/-- Library `regexp.MustCompile`, for the syntax the patterns of `migratedRepos` are written
in: `.*`, `.`, and characters that stand for themselves (letters, digits, `-`, `_`, `/`). -/
def regexpMustCompile : List Char → List RegexpItem
  | '.' :: '*' :: rest => RegexpItem.anyStar :: regexpMustCompile rest
  | '.' :: rest => RegexpItem.any :: regexpMustCompile rest
  | c :: rest => RegexpItem.char c :: regexpMustCompile rest
  | [] => []

/-- The repetition `.*` before the rest of a pattern: the rest, matched by `k`, starts here
or after one more character other than a newline. -/
def regexpMatchStar (k : List Char → Bool) : List Char → Bool
  | [] => k []
  | c :: rest => k (c :: rest) || (c != '\n' && regexpMatchStar k rest)

/-- The compiled pattern matches at the start of the text. -/
def regexpMatchPrefix : List RegexpItem → List Char → Bool
  | [], _ => true
  | RegexpItem.char c :: items, text =>
    match text with
    | d :: rest => c == d && regexpMatchPrefix items rest
    | [] => false
  | RegexpItem.any :: items, text =>
    match text with
    | d :: rest => d != '\n' && regexpMatchPrefix items rest
    | [] => false
  | RegexpItem.anyStar :: items, text => regexpMatchStar (regexpMatchPrefix items) text

/-- Library `(*Regexp).MatchString`: the pattern matches somewhere in the text; a pattern
without `^` is not tied to the start of the text. -/
def regexpMatchString (regex : List RegexpItem) : List Char → Bool
  | [] => regexpMatchPrefix regex []
  | c :: rest => regexpMatchPrefix regex (c :: rest) || regexpMatchString regex rest

/-- The arguments of `sets.NewString` in the source, in the order written; the set holds
each once.  The commented-out `integr8ly/ansible-tower-configuration/.*` is not among
them. -/
def migratedRepos : List String :=
  [ "ostreedev/ostree/.*",
    "openshift-priv/csi-external-attacher/.*",
    "openshift-priv/cluster-api-provider-azure/.*",
    "openshift-priv/cluster-update-keys/.*",
    "openshift-priv/vertical-pod-autoscaler-operator/.*",
    "openshift-priv/multus-cni/.*",
    "openshift-priv/oauth-server/.*",
    "openshift-priv/template-service-broker-operator/.*",
    "openshift-priv/ci-experiment-origin/.*",
    "openshift-priv/kubernetes-kube-storage-version-migrator/.*",
    "openshift-priv/openshift-state-metrics/.*",
    "openshift-priv/cluster-api-provider-baremetal/.*",
    "openshift-priv/kube-state-metrics/.*",
    "openshift-priv/dedicated-admin-operator/.*",
    "openshift-priv/loki/.*",
    "openshift-priv/cluster-capacity/.*",
    "openshift-priv/cluster-version-operator/.*",
    "openshift-priv/windows-machine-config-operator/.*",
    "openshift-priv/operator-lifecycle-manager/.*",
    "openshift-priv/presto/.*",
    "openshift-priv/cluster-dns-operator/.*",
    "openshift-priv/crd-schema-gen/.*",
    "openshift-priv/operator-registry/.*",
    "openshift-priv/oauth-proxy/.*",
    "openshift-priv/cluster-nfd-operator/.*",
    "openshift-priv/pagerduty-operator/.*",
    "openshift-priv/descheduler/.*",
    "openshift-priv/client-go/.*",
    "openshift-priv/leader-elector/.*",
    "openshift-priv/openshift-tuned/.*",
    "openshift-priv/cluster-autoscaler-operator/.*",
    "openshift-priv/service-ca-operator/.*",
    "openshift-priv/jenkins-client-plugin/.*",
    "openshift-priv/ocs-operator/.*",
    "openshift-priv/rbac-permissions-operator/.*",
    "openshift-priv/cluster-config-operator/.*",
    "openshift-priv/kubecsr/.*",
    "openshift-priv/kuryr-kubernetes/.*",
    "openshift-priv/cluster-bootstrap/.*",
    "openshift-priv/whereabouts-cni/.*",
    "openshift-priv/service-catalog/.*",
    "openshift-priv/cluster-api/.*",
    "openshift-priv/cluster-api-provider-gcp/.*",
    "openshift-priv/compliance-operator/.*",
    "openshift-priv/sdn/.*",
    "openshift-priv/hyperconverged-cluster-operator/.*",
    "openshift-priv/kubefed/.*",
    "openshift-priv/machine-api-operator/.*",
    "openshift-priv/images/.*",
    "openshift-priv/node-feature-discovery/.*",
    "openshift-priv/route-override-cni/.*",
    "openshift-priv/cluster-svcat-controller-manager-operator/.*",
    "openshift-priv/elasticsearch-operator/.*",
    "openshift-priv/ghostunnel/.*",
    "openshift-priv/containernetworking-plugins/.*",
    "openshift-priv/configure-alertmanager-operator/.*",
    "openshift-priv/cluster-api-provider-libvirt/.*",
    "openshift-priv/apiserver-library-go/.*",
    "openshift-priv/must-gather/.*",
    "openshift-priv/operator-marketplace/.*",
    "openshift-priv/csi-node-driver-registrar/.*",
    "openshift-priv/csi-driver-nfs/.*",
    "openshift-priv/prometheus-operator/.*",
    "openshift-priv/oc/.*",
    "openshift-priv/csi-external-resizer/.*",
    "openshift-priv/template-service-broker/.*",
    "openshift-priv/ovn-kubernetes/.*",
    "openshift-priv/cluster-api-actuator-pkg/.*",
    "openshift-priv/cluster-kube-controller-manager-operator/.*",
    "openshift-priv/multus-admission-controller/.*",
    "openshift-priv/library-go/.*",
    "openshift-priv/baremetal-operator/.*",
    "openshift-priv/cluster-api-provider-openstack/.*",
    "openshift-priv/cluster-openshift-controller-manager-operator/.*",
    "openshift-priv/ironic-static-ip-manager/.*",
    "openshift-priv/cluster-kube-descheduler-operator/.*",
    "openshift-priv/node_exporter/.*",
    "openshift-priv/sriov-network-device-plugin/.*",
    "openshift-priv/cluster-image-registry-operator/.*",
    "openshift-priv/cluster-ingress-operator/.*",
    "openshift-priv/sriov-dp-admission-controller/.*",
    "openshift-priv/elasticsearch-proxy/.*",
    "openshift-priv/openshift-apiserver/.*",
    "openshift-priv/grafana/.*",
    "openshift-priv/operator-metering/.*",
    "openshift-priv/kubefed-operator/.*",
    "openshift-priv/cluster-machine-approver/.*",
    "openshift-priv/kube-rbac-proxy/.*",
    "openshift-priv/aws-account-operator/.*",
    "openshift-priv/ironic-rhcos-downloader/.*",
    "openshift-priv/cluster-etcd-operator/.*",
    "openshift-priv/build-machinery-go/.*",
    "openshift-priv/runtime-utils/.*",
    "openshift-priv/cluster-policy-controller/.*",
    "openshift-priv/cluster-kube-scheduler-operator/.*",
    "openshift-priv/cluster-node-tuning-operator/.*",
    "openshift-priv/origin-aggregated-logging/.*",
    "openshift-priv/cluster-csi-snapshot-controller-operator/.*",
    "openshift-priv/federation-v2-operator/.*",
    "openshift-priv/ovirt-csi-driver/.*",
    "openshift-priv/certman-operator/.*",
    "openshift-priv/oauth-apiserver/.*",
    "openshift-priv/deadmanssnitch-operator/.*",
    "openshift-priv/cluster-api-provider-aws/.*",
    "openshift-priv/metal3-smart-exporter/.*",
    "openshift-priv/csi-external-snapshotter/.*",
    "openshift-priv/cluster-resource-override-admission-operator/.*",
    "openshift-priv/windows-machine-config-bootstrapper/.*",
    "openshift-priv/sriov-network-operator/.*",
    "openshift-priv/machine-config-operator/.*",
    "openshift-priv/console-operator/.*",
    "openshift-priv/csi-operator/.*",
    "openshift-priv/k8s-prometheus-adapter/.*",
    "openshift-priv/cluster-resource-override-admission/.*",
    "openshift-priv/ironic-hardware-inventory-recorder-image/.*",
    "openshift-priv/configmap-reload/.*",
    "openshift-priv/ansible-service-broker/.*",
    "openshift-priv/insights-operator/.*",
    "openshift-priv/hadoop/.*",
    "openshift-priv/csi-cluster-driver-registrar/.*",
    "openshift-priv/sig-storage-local-static-provisioner/.*",
    "openshift-priv/jenkins-sync-plugin/.*",
    "openshift-priv/image-registry/.*",
    "openshift-priv/cloud-credential-operator/.*",
    "openshift-priv/etcd/.*",
    "openshift-priv/thanos/.*",
    "openshift-priv/linuxptp-daemon/.*",
    "openshift-priv/ptp-operator/.*",
    "openshift-priv/cluster-kube-storage-version-migrator-operator/.*",
    "openshift-priv/node-problem-detector/.*",
    "openshift-priv/openshift-ansible/.*",
    "openshift-priv/hive/.*",
    "openshift-priv/api/.*",
    "openshift-priv/cluster-svcat-apiserver-operator/.*",
    "openshift-priv/node-problem-detector-operator/.*",
    "openshift-priv/ironic-inspector-image/.*",
    "openshift-priv/ironic-image/.*",
    "openshift-priv/cloud-provider-openstack/.*",
    "openshift-priv/jenkins-openshift-login-plugin/.*",
    "openshift-priv/ironic-ipa-downloader/.*",
    "openshift-priv/prometheus/.*",
    "openshift-priv/origin/.*",
    "openshift-priv/cluster-openshift-apiserver-operator/.*",
    "openshift-priv/cluster-samples-operator/.*",
    "openshift-priv/jenkins/.*",
    "openshift-priv/prom-label-proxy/.*",
    "openshift-priv/coredns/.*",
    "openshift-priv/csi-driver-registrar/.*",
    "openshift-priv/ocp-release-operator-sdk/.*",
    "openshift-priv/installer/.*",
    "openshift-priv/cluster-api-provider-ovirt/.*",
    "openshift-priv/cluster-kube-apiserver-operator/.*",
    "openshift-priv/local-storage-operator/.*",
    "openshift-priv/builder/.*",
    "openshift-priv/baremetal-runtimecfg/.*",
    "openshift-priv/csi-livenessprobe/.*",
    "openshift-priv/openshift-controller-manager/.*",
    "openshift-priv/cluster-network-operator/.*",
    "openshift-priv/kubernetes-autoscaler/.*",
    "openshift-priv/cluster-logging-operator/.*",
    "openshift-priv/cluster-storage-operator/.*",
    "openshift-priv/mdns-publisher/.*",
    "openshift-priv/external-storage/.*",
    "openshift-priv/csi-external-provisioner/.*",
    "openshift-priv/helm/.*",
    "openshift-priv/telemeter/.*",
    "openshift-priv/cluster-authentication-operator/.*",
    "openshift-priv/managed-cluster-config/.*",
    "openshift-priv/prometheus-alertmanager/.*",
    "openshift-priv/openshift-tests/.*",
    "openshift-priv/file-integrity-operator/.*",
    "openshift-priv/sriov-cni/.*",
    "openshift-priv/console/.*",
    "openshift-priv/cluster-monitoring-operator/.*",
    "openshift-priv/cluster-api-provider-kubemark/.*",
    "openshift-priv/router/.*",
    "heketi/heketi/.*",
    "cri-o/cri-o/.*",
    "monstorak/monstorak-operator/.*",
    "openshift-cnv/cnv-ci/.*",
    "openshift-knative/serving-operator/.*",
    "openshift-knative/eventing-operator/.*",
    "openshift-knative/serverless-operator/.*",
    "openshift-knative/kourier/.*",
    "openshift-kni/cnf-features-deploy/.*",
    "openshift-kni/baremetal-deploy/.*",
    "openshift-kni/performance-addon-operators/.*",
    "integr8ly/cloud-resource-operator/.*",
    "integr8ly/integreatly-operator/.*",
    "integr8ly/installation/.*",
    "integr8ly/heimdall/.*",
    "fabric8-services/toolchain-operator/.*",
    "openshift/csi-external-attacher/.*",
    "openshift/cluster-api-provider-azure/.*",
    "openshift/knative-serving/.*",
    "openshift/cluster-update-keys/.*",
    "openshift/vertical-pod-autoscaler-operator/.*",
    "openshift/csi-driver-manila-operator/.*",
    "openshift/multus-cni/.*",
    "openshift/oauth-server/.*",
    "openshift/template-service-broker-operator/.*",
    "openshift/kubernetes-kube-storage-version-migrator/.*",
    "openshift/openshift-state-metrics/.*",
    "openshift/cluster-api-provider-baremetal/.*",
    "openshift/kube-state-metrics/.*",
    "openshift/dedicated-admin-operator/.*",
    "openshift/loki/.*",
    "openshift/cluster-capacity/.*",
    "openshift/cluster-version-operator/.*",
    "openshift/windows-machine-config-operator/.*",
    "openshift/odo/.*",
    "openshift/cluster-dns-operator/.*",
    "openshift/crd-schema-gen/.*",
    "openshift/oauth-proxy/.*",
    "openshift/cluster-nfd-operator/.*",
    "openshift/pagerduty-operator/.*",
    "openshift/descheduler/.*",
    "openshift/client-go/.*",
    "openshift/leader-elector/.*",
    "openshift/openshift-tuned/.*",
    "openshift/managed-cluster-validating-webhooks/.*",
    "openshift/cluster-autoscaler-operator/.*",
    "openshift/service-ca-operator/.*",
    "openshift/jenkins-client-plugin/.*",
    "openshift/ocs-operator/.*",
    "openshift/rbac-permissions-operator/.*",
    "openshift/cluster-config-operator/.*",
    "openshift/kubecsr/.*",
    "openshift/kuryr-kubernetes/.*",
    "openshift/cluster-bootstrap/.*",
    "openshift/whereabouts-cni/.*",
    "openshift/origin-web-console-server/.*",
    "openshift/service-catalog/.*",
    "openshift/cluster-api/.*",
    "openshift/cluster-api-provider-gcp/.*",
    "openshift/compliance-operator/.*",
    "openshift/sdn/.*",
    "openshift/kubefed/.*",
    "openshift/ci-ns-ttl-controller/.*",
    "openshift/machine-api-operator/.*",
    "openshift/images/.*",
    "openshift/node-feature-discovery/.*",
    "openshift/origin-metrics/.*",
    "openshift/route-override-cni/.*",
    "openshift/cluster-svcat-controller-manager-operator/.*",
    "openshift/elasticsearch-operator/.*",
    "openshift/containernetworking-plugins/.*",
    "openshift/configure-alertmanager-operator/.*",
    "openshift/osde2e/.*",
    "openshift/cluster-api-provider-libvirt/.*",
    "openshift/kubernetes-metrics-server/.*",
    "openshift/tektoncd-cli/.*",
    "openshift/apiserver-library-go/.*",
    "openshift/must-gather/.*",
    "openshift/coredns-mdns/.*",
    "openshift/csi-node-driver-registrar/.*",
    "openshift/knative-eventing/.*",
    "openshift/csi-driver-nfs/.*",
    "openshift/external-dns/.*",
    "openshift/prometheus-operator/.*",
    "openshift/origin-web-console/.*",
    "openshift/oc/.*",
    "openshift/csi-external-resizer/.*",
    "openshift/origin-branding/.*",
    "openshift/template-service-broker/.*",
    "openshift/ovn-kubernetes/.*",
    "openshift/cluster-api-actuator-pkg/.*",
    "openshift/cincinnati-graph-data/.*",
    "openshift/cluster-kube-controller-manager-operator/.*",
    "openshift/multus-admission-controller/.*",
    "openshift/library-go/.*",
    "openshift/baremetal-operator/.*",
    "openshift/cluster-api-provider-openstack/.*",
    "openshift/imagebuilder/.*",
    "openshift/cluster-openshift-controller-manager-operator/.*",
    "openshift/ironic-static-ip-manager/.*",
    "openshift/cluster-kube-descheduler-operator/.*",
    "openshift/ci-chat-bot/.*",
    "openshift/node_exporter/.*",
    "openshift/tektoncd-catalog/.*",
    "openshift/sriov-network-device-plugin/.*",
    "openshift/cluster-image-registry-operator/.*",
    "openshift/cluster-ingress-operator/.*",
    "openshift/sriov-dp-admission-controller/.*",
    "openshift/elasticsearch-proxy/.*",
    "openshift/openshift-apiserver/.*",
    "openshift/grafana/.*",
    "openshift/library/.*",
    "openshift/kubefed-operator/.*",
    "openshift/release/.*",
    "openshift/cluster-machine-approver/.*",
    "openshift/source-to-image/.*",
    "openshift/kube-rbac-proxy/.*",
    "openshift/aws-account-operator/.*",
    "openshift/ironic-rhcos-downloader/.*",
    "openshift/cluster-etcd-operator/.*",
    "openshift/build-machinery-go/.*",
    "openshift/runtime-utils/.*",
    "openshift/cluster-policy-controller/.*",
    "openshift/cluster-kube-scheduler-operator/.*",
    "openshift/cluster-node-tuning-operator/.*",
    "openshift/origin-aggregated-logging/.*",
    "openshift/hypershift-toolkit/.*",
    "openshift/cluster-csi-snapshot-controller-operator/.*",
    "openshift/federation-v2-operator/.*",
    "openshift/ovirt-csi-driver/.*",
    "openshift/static-config-operator/.*",
    "openshift/private-ci-testing/.*",
    "openshift/certman-operator/.*",
    "openshift/rhcos-tools/.*",
    "openshift/oauth-apiserver/.*",
    "openshift/deadmanssnitch-operator/.*",
    "openshift/cluster-api-provider-aws/.*",
    "openshift/metal3-smart-exporter/.*",
    "openshift/tektoncd-pipeline-operator/.*",
    "openshift/openshift-azure/.*",
    "openshift/csi-external-snapshotter/.*",
    "openshift/cluster-resource-override-admission-operator/.*",
    "openshift/windows-machine-config-bootstrapper/.*",
    "openshift/verification-tests/.*",
    "openshift/sriov-network-operator/.*",
    "openshift/machine-config-operator/.*",
    "openshift/console-operator/.*",
    "openshift/csi-operator/.*",
    "openshift/k8s-prometheus-adapter/.*",
    "openshift/knative-client/.*",
    "openshift/cluster-resource-override-admission/.*",
    "openshift/ironic-hardware-inventory-recorder-image/.*",
    "openshift/knative-build/.*",
    "openshift/configmap-reload/.*",
    "openshift/ansible-service-broker/.*",
    "openshift/insights-operator/.*",
    "openshift/ci-tools/.*",
    "openshift/csi-cluster-driver-registrar/.*",
    "openshift/sig-storage-local-static-provisioner/.*",
    "openshift/jenkins-sync-plugin/.*",
    "openshift/managed-velero-operator/.*",
    "openshift/cincinnati/.*",
    "openshift/image-registry/.*",
    "openshift/cloud-credential-operator/.*",
    "openshift/etcd/.*",
    "openshift/thanos/.*",
    "openshift/linuxptp-daemon/.*",
    "openshift/ptp-operator/.*",
    "openshift/cluster-kube-storage-version-migrator-operator/.*",
    "openshift/splunk-forwarder-operator/.*",
    "openshift/node-problem-detector/.*",
    "openshift/openshift-ansible/.*",
    "openshift/hive/.*",
    "openshift/api/.*",
    "openshift/cluster-svcat-apiserver-operator/.*",
    "openshift/tektoncd-triggers/.*",
    "openshift/node-problem-detector-operator/.*",
    "openshift/ironic-inspector-image/.*",
    "openshift/ironic-image/.*",
    "openshift/cloud-provider-openstack/.*",
    "openshift/jenkins-openshift-login-plugin/.*",
    "openshift/ironic-ipa-downloader/.*",
    "openshift/prometheus/.*",
    "openshift/origin/.*",
    "openshift/cluster-openshift-apiserver-operator/.*",
    "openshift/ci-secret-mirroring-controller/.*",
    "openshift/cluster-samples-operator/.*",
    "openshift/jenkins/.*",
    "openshift/prom-label-proxy/.*",
    "openshift/kubernetes/.*",
    "openshift/coredns/.*",
    "openshift/csi-driver-registrar/.*",
    "openshift/ocp-release-operator-sdk/.*",
    "openshift/ci-search/.*",
    "openshift/installer/.*",
    "openshift/cluster-api-provider-ovirt/.*",
    "openshift/cluster-kube-apiserver-operator/.*",
    "openshift/local-storage-operator/.*",
    "openshift/builder/.*",
    "openshift/baremetal-runtimecfg/.*",
    "openshift/csi-livenessprobe/.*",
    "openshift/openshift-controller-manager/.*",
    "openshift/cluster-network-operator/.*",
    "openshift/kubernetes-autoscaler/.*",
    "openshift/cluster-logging-operator/.*",
    "openshift/cluster-storage-operator/.*",
    "openshift/mdns-publisher/.*",
    "openshift/external-storage/.*",
    "openshift/csi-external-provisioner/.*",
    "openshift/telemeter/.*",
    "openshift/cluster-authentication-operator/.*",
    "openshift/tektoncd-pipeline/.*",
    "openshift/knative-eventing-contrib/.*",
    "openshift/release-controller/.*",
    "openshift/managed-cluster-config/.*",
    "openshift/prometheus-alertmanager/.*",
    "openshift/openshift-tests/.*",
    "openshift/file-integrity-operator/.*",
    "openshift/sriov-cni/.*",
    "openshift/console/.*",
    "openshift/custom-resource-status/.*",
    "openshift/cluster-monitoring-operator/.*",
    "openshift/cluster-api-provider-kubemark/.*",
    "openshift/router/.*",
    "cloud-bulldozer/plow/.*",
    "kubevirt/hyperconverged-cluster-operator/.*",
    "kubevirt/kubevirt/.*",
    "tnozicka/openshift-acme/.*",
    "operator-framework/operator-lifecycle-manager/.*",
    "operator-framework/presto/.*",
    "operator-framework/operator-registry/.*",
    "operator-framework/ghostunnel/.*",
    "operator-framework/operator-marketplace/.*",
    "operator-framework/operator-courier/.*",
    "operator-framework/operator-metering/.*",
    "operator-framework/hadoop/.*",
    "operator-framework/hive/.*",
    "operator-framework/helm/.*",
    "kiegroup/kie-cloud-operator/.*",
    "containers/libpod/.*",
    "codeready-toolchain/toolchain-e2e/.*",
    "codeready-toolchain/member-operator/.*",
    "codeready-toolchain/toolchain-common/.*",
    "codeready-toolchain/toolchain-operator/.*",
    "codeready-toolchain/api/.*",
    "codeready-toolchain/registration-service/.*",
    "codeready-toolchain/host-operator/.*",
    "coreos/coreos-assembler/.*",
    "coreos/rpm-ostree/.*",
    "redhat-developer/service-binding-operator/.*",
    "redhat-developer/openshift-jenkins-operator/.*",
    "redhat-developer/devconsole-api/.*",
    "redhat-developer/devconsole-git/.*",
    "redhat-developer/build/.*",
    "redhat-developer/jenkins-operator/.*",
    "redhat-developer/helm/.*" ]

/-- The patterns `init` compiles from `migratedRepos.List()`.  `List()` sorts the set;
`Migrated` asks whether some pattern matches, which does not depend on the order. -/
def migratedRegexes : List (List RegexpItem) :=
  migratedRepos.map fun migratedRepo => regexpMustCompile migratedRepo.data

def Migrated (org repo branch : String) : Bool :=
  migratedRegexes.any fun regex =>
    regexpMatchString regex (org ++ "/" ++ repo ++ "/" ++ branch).data

/-! ## Specification-side definitions -/

/-- A word character (ASCII letter, digit or underscore), a dash or a dot. -/
def isWordDashDot (c : Char) : Prop :=
  ('a' ≤ c ∧ c ≤ 'z') ∨ ('A' ≤ c ∧ c ≤ 'Z') ∨ ('0' ≤ c ∧ c ≤ '9') ∨ c = '_' ∨ c = '-' ∨ c = '.'

instance (c : Char) : Decidable (isWordDashDot c) := by
  unfold isWordDashDot; infer_instance

/-- The branch with a backslash before every dot and every other character unchanged. -/
def escapeDots (s : String) : String :=
  String.mk (s.data.flatMap fun c => if c = '.' then ['\x5c', '.'] else [c])

/-- The jobs of one list that a loop of `prune` appends, in order: the jobs that are not
stale, each marked `Generated` when it carries the marker. -/
def pruneList {J : Type} (base : J → JobBase) (setLabels : J → GoMap String → J)
    (jobs : List J) : List J :=
  (jobs.filter fun job => !isStale (base job)).map fun job =>
    if isGenerated (base job) then
      setLabels job ((base job).Labels.set ProwJobLabelGenerated Generated)
    else job

/-- The entries `prune` keeps of a map: each list pruned by `f`, entries left empty dropped. -/
def pruneEntries {J : Type} (f : List J → List J) (m : GoMap (List J)) : GoMap (List J) :=
  m.filterMap fun entry => if (f entry.2).isEmpty then none else some (entry.1, f entry.2)

/-- No presubmit and no postsubmit of the job file carries the marker value `New`. -/
def JobConfig.NoNewMarker (c : JobConfig) : Prop :=
  (∀ entry ∈ c.Presubmits, ∀ job ∈ entry.2, job.Labels.get? ProwJobLabelGenerated ≠ some New) ∧
  (∀ entry ∈ c.Postsubmits, ∀ job ∈ entry.2, job.Labels.get? ProwJobLabelGenerated ≠ some New)

instance (c : JobConfig) : Decidable (JobConfig.NoNewMarker c) := by
  unfold JobConfig.NoNewMarker; infer_instance

/-- The job name `<prefix>-ci-<org>-<repo>-<branch>-[<variant>-]<name>` of the specification. -/
def jobNameSpec (pfx : String) (info : Info) (name : String) : String :=
  pfx ++ "-ci-" ++ info.Org ++ "-" ++ info.Repo ++ "-" ++ info.Branch ++ "-" ++
    (if info.Variant = "" then name else info.Variant ++ "-" ++ name)

/-- Every presubmit and every postsubmit of the file carries the generation marker with a
value other than `New`. -/
def JobConfig.AllStale (c : JobConfig) : Prop :=
  (∀ entry ∈ c.Presubmits, ∀ job ∈ entry.2,
    ∃ v, job.Labels.get? ProwJobLabelGenerated = some v ∧ v ≠ New) ∧
  (∀ entry ∈ c.Postsubmits, ∀ job ∈ entry.2,
    ∃ v, job.Labels.get? ProwJobLabelGenerated = some v ∧ v ≠ New)

/-- One of the five openshift-ansible fields of the test is set. -/
def isOpenshiftAnsibleShape (test : TestStepConfiguration) : Bool :=
  test.OpenshiftAnsibleClusterTestConfiguration.isSome ||
  test.OpenshiftAnsibleSrcClusterTestConfiguration.isSome ||
  test.OpenshiftAnsibleCustomClusterTestConfiguration.isSome ||
  test.OpenshiftAnsibleUpgradeClusterTestConfiguration.isSome ||
  test.OpenshiftAnsible40ClusterTestConfiguration.isSome

/-- The argument starts with `--`; it contains `=` unless it is the bare flag `--promote`. -/
def flagShaped (arg : String) : Prop :=
  stringsHasPrefix arg "--" = true ∧ ('=' ∈ arg.data ∨ arg = "--promote")

/-- Every argument of every container of the pod spec that runs `ci-operator` is
`flagShaped`. -/
def PodSpec.FlagShapedArgs (podSpec : PodSpec) : Prop :=
  ∀ container ∈ podSpec.Containers, container.Command = ["ci-operator"] →
    ∀ arg ∈ container.Args, flagShaped arg

/-- The test is of the installer custom-test-image shape: that field is set and none of the
nine shape fields `generatePodSpecTemplate` examines before it. -/
def isInstallerCustomTestImageShape (test : TestStepConfiguration) : Bool :=
  test.OpenshiftInstallerCustomTestImageClusterTestConfiguration.isSome &&
  !(isOpenshiftAnsibleShape test ||
    test.OpenshiftInstallerClusterTestConfiguration.isSome ||
    test.OpenshiftInstallerSrcClusterTestConfiguration.isSome ||
    test.OpenshiftInstallerUPIClusterTestConfiguration.isSome ||
    test.OpenshiftInstallerConsoleClusterTestConfiguration.isSome)

/-- The string `s` contains `sub` as a contiguous part. -/
def stringsContains (s sub : String) : Prop :=
  ∃ pre post, s = pre ++ sub ++ post

/-- The names of the volumes the pod spec declares. -/
def PodSpec.volumeNames (podSpec : PodSpec) : List String :=
  podSpec.Volumes.map fun volume => volume.Name

/-- The names of the volumes the containers of the pod spec mount. -/
def PodSpec.mountedNames (podSpec : PodSpec) : List String :=
  podSpec.Containers.flatMap fun container => container.VolumeMounts.map fun mount => mount.Name

/-- The pod spec is closed under volume references: every mounted volume is declared, every
declared volume is mounted, and no volume name is declared twice. -/
def PodSpec.VolumesClosed (podSpec : PodSpec) : Prop :=
  (∀ name ∈ podSpec.mountedNames, name ∈ podSpec.volumeNames) ∧
  (∀ name ∈ podSpec.volumeNames, name ∈ podSpec.mountedNames) ∧
  podSpec.volumeNames.Nodup

instance (podSpec : PodSpec) : Decidable (PodSpec.VolumesClosed podSpec) := by
  unfold PodSpec.VolumesClosed; infer_instance

/-- The pattern is text without `.` followed by `.*`. -/
def plainPattern (p : String) : Bool :=
  p.data.take (p.data.length - 2) ++ ['.', '*'] == p.data &&
  !(p.data.take (p.data.length - 2)).contains '.'

/-! ### Example values -/

def exampleJobBase (name : String) (labels : GoMap String) : JobBase :=
  { Name := name
    Labels := labels
    Agent := "kubernetes"
    Spec := none
    UtilityConfig := { Decorate := false, DecorationConfig := none } }

def examplePresubmit (name : String) (labels : GoMap String) : Presubmit :=
  { toJobBase := exampleJobBase name labels
    AlwaysRun := false
    Brancher := { Branches := ["master"] }
    Reporter := { Context := "ci/prow/" ++ name }
    RerunCommand := "/test " ++ name
    Trigger := "" }

def examplePostsubmit (name : String) (labels : GoMap String) : Postsubmit :=
  { toJobBase := exampleJobBase name labels
    Brancher := { Branches := ["^master$"] } }

/-- A job file with a hand-authored job, a job marked `New` and a job marked `Generated`. -/
def exampleJobConfig : JobConfig :=
  { Presubmits := [("org/repo",
      [ examplePresubmit "hand" [("team", "infra")],
        examplePresubmit "current" [(ProwJobLabelGenerated, New)],
        examplePresubmit "stale" [(ProwJobLabelGenerated, Generated)] ])]
    Postsubmits := [("org/repo",
      [ examplePostsubmit "stale" [(ProwJobLabelGenerated, Generated)],
        examplePostsubmit "hand" [] ])]
    Periodics := [] }

def exampleInfo : Info :=
  { Org := "org", Repo := "repo", Branch := "master", Variant := "",
    ConfigMapName := "ci-operator-master-configs", Basename := "org-repo-master.yaml" }

/-- A configuration with one container test and one image, without promotion. -/
def exampleConfigSpec : ReleaseBuildConfiguration :=
  { Tests := [{ As := "unit", Commands := "make test",
                ContainerTestConfiguration := some { From := "src" } }]
    Images := ["component"]
    PromotionConfiguration := none
    ReleaseTagConfiguration := none }

def exampleFileInfo : JobFileInfo :=
  { JobType := "presubmits", Filename := "org/repo/org-repo-master-presubmits.yaml" }

/-- A job file left with a job still marked `New` whose test is no longer configured. -/
def exampleLeftoverFile : JobConfig :=
  { Presubmits := [("org/repo",
      [examplePresubmit "removed-test" [(ProwJobLabelGenerated, New)]])] }

/-- A job file with a hand-authored job and a job marked `Generated`. -/
def exampleSettledFile : JobConfig :=
  { Presubmits := [("org/repo",
      [ examplePresubmit "hand" [("team", "infra")],
        examplePresubmit "removed-test" [(ProwJobLabelGenerated, Generated)] ])] }

/-- A test of the upgrade shape whose previous version is written with the `origin-v` prefix. -/
def examplePrefixedUpgradeTest : TestStepConfiguration :=
  { As := "e2e-upgrade", Commands := "run-tests",
    OpenshiftAnsibleUpgradeClusterTestConfiguration :=
      some { ClusterProfile := "gcp", PreviousVersion := "origin-v3.10",
             PreviousRPMDeps := "https://example.test/deps" } }

/-- A configuration with an image and a promotion configuration. -/
def examplePromotingConfigSpec : ReleaseBuildConfiguration :=
  { Tests := []
    Images := ["component"]
    PromotionConfiguration := some { AdditionalImages := ["artifacts"] }
    ReleaseTagConfiguration := none }

/-- A test of the container shape. -/
def exampleContainerTest : TestStepConfiguration :=
  { As := "unit", Commands := "make test", ContainerTestConfiguration := some { From := "src" } }

/-- An installer test on the `aws` profile. -/
def exampleInstallerTest : TestStepConfiguration :=
  { As := "e2e-aws", Commands := "run-tests",
    OpenshiftInstallerClusterTestConfiguration :=
      some { ClusterProfile := ClusterProfileAWS, Upgrade := false } }

/-- An openshift-ansible test on the `gcp` profile. -/
def exampleAnsibleTest : TestStepConfiguration :=
  { As := "e2e-gcp", Commands := "run-tests",
    OpenshiftAnsibleClusterTestConfiguration := some { ClusterProfile := ClusterProfileGCP } }

/-- An error of a file operation on a file that does not exist. -/
def exampleNotExist : OSError :=
  { Message := "no such file or directory", IsNotExist := true }

/-- An installer UPI test on the `aws` profile. -/
def exampleUPITest : TestStepConfiguration :=
  { As := "e2e-upi", Commands := "run-tests",
    OpenshiftInstallerUPIClusterTestConfiguration := some { ClusterProfile := ClusterProfileAWS } }

/-- An installer custom-test-image test on the `aws` profile. -/
def exampleCustomTestImageTest : TestStepConfiguration :=
  { As := "e2e-custom", Commands := "run-tests",
    OpenshiftInstallerCustomTestImageClusterTestConfiguration :=
      some { ClusterProfile := ClusterProfileAWS, From := "pipeline:tests" } }

/-- A random-cloud installer test. -/
def exampleRandomTest : TestStepConfiguration :=
  { As := "e2e-random", Commands := "run-tests",
    OpenshiftInstallerRandomClusterTestConfiguration := some {} }

/-- A configuration with two tests, an image and a promotion configuration. -/
def exampleFullConfigSpec : ReleaseBuildConfiguration :=
  { Tests := [exampleContainerTest, exampleInstallerTest]
    Images := ["component"]
    PromotionConfiguration := some { AdditionalImages := ["artifacts"] }
    ReleaseTagConfiguration := some { Name := "4.2" } }

/-! ### Closed forms of the generator -/

/-- Go `m[k] = append(m[k], xs...)`, skipped when there is nothing to append. -/
def GoMap.appendAt {α : Type} (m : GoMap (List α)) (k : String) (xs : List α) : GoMap (List α) :=
  if xs.isEmpty then m else m.set k (m.index k ++ xs)

/-- The pod spec `generateCiOperatorPodSpec` returns when it does not panic. -/
def ciOperatorPodSpec (info : Info) (target : String) (additionalArgs : List String) : PodSpec :=
  { ServiceAccountName := "ci-operator"
    Containers := [
      { Image := "ci-operator:latest"
        ImagePullPolicy := "Always"
        Command := ["ci-operator"]
        Args := [ "--give-pr-author-access-to-namespace=true",
                  "--artifact-dir=$(ARTIFACTS)",
                  "--target=" ++ target,
                  "--sentry-dsn-path=/etc/sentry-dsn/ci-operator" ] ++ additionalArgs
        Env := [{ Name := "CONFIG_SPEC",
                  ValueFrom := some { Name := info.ConfigMapName, Key := info.Basename } }]
        Requests := [("cpu", "10m")]
        VolumeMounts := [{ Name := "sentry-dsn", MountPath := "/etc/sentry-dsn",
                           ReadOnly := true }] }]
    Volumes := [{ Name := "sentry-dsn", VolumeSource := { Secret := some "sentry-dsn" } }] }

/-- The pod spec of `elementPodSpec`, which never panics (`elementPodSpec_ok`). -/
def podSpecOf (configSpec : ReleaseBuildConfiguration) (info : Info)
    (element : TestStepConfiguration) : PodSpec :=
  match elementPodSpec configSpec info element with
  | Except.ok podSpec => podSpec
  | Except.error _ => generatePodSpec info

/-- The presubmits of `generateJobs`: one per test, then the `images` one. -/
def expectedPresubmits (PromotesOfficialImages : ReleaseBuildConfiguration → Bool)
    (configSpec : ReleaseBuildConfiguration) (info : Info) (label : String) : List Presubmit :=
  (configSpec.Tests.map fun element =>
    generatePresubmitForTest element.As info label (podSpecOf configSpec info element)) ++
  if configSpec.Images.length > 0 then
    [generatePresubmitForTest "images" info label (ciOperatorPodSpec info "[images]"
      (if PromotesOfficialImages configSpec then ["--target=[release:latest]"] else []))]
  else []

/-- The postsubmits of `generateJobs`: at most the `images` one. -/
def expectedPostsubmits (configSpec : ReleaseBuildConfiguration) (info : Info) (label : String) :
    List Postsubmit :=
  if configSpec.Images.length > 0 then
    match configSpec.PromotionConfiguration with
    | some promotionConfiguration =>
      [generatePostsubmitForTest "images" info label (ciOperatorPodSpec info "[images]"
        ("--promote" :: promotionConfiguration.AdditionalImages.map fun additionalImage =>
          "--target=" ++ additionalImage))]
    | none => []
  else []

/-- The environment `generatePodSpecTemplate` builds. -/
def templateEnv (info : Info) (release : String) (test : TestStepConfiguration) : List EnvVar :=
  let sel := selectTemplate test
  [{ Name := "CONFIG_SPEC",
     ValueFrom := some { Name := info.ConfigMapName, Key := info.Basename } }] ++
  (if sel.template = "" then []
   else
    [ { Name := "CLUSTER_TYPE", Value := targetCloudOf sel.clusterProfile },
      { Name := "JOB_NAME_SAFE", Value := stringsReplaceChar test.As '_' '-' },
      { Name := "TEST_COMMAND", Value := test.Commands } ] ++
    (if sel.testImageStreamTag = "" then []
     else [{ Name := "TEST_IMAGESTREAM_TAG", Value := sel.testImageStreamTag }])) ++
  (if sel.needsReleaseRpms = true ∧ (info.Org ≠ "openshift" ∨ info.Repo ≠ "origin") then
    [{ Name := "RPM_REPO_OPENSHIFT_ORIGIN",
       Value :=
        if stringsHasPrefix release "origin-v" then
          "https://rpms.svc.ci.openshift.org/openshift-" ++ release ++ "/"
        else "https://rpms.svc.ci.openshift.org/openshift-origin-v" ++ release ++ "/" }]
   else []) ++
  (if test.OpenshiftAnsible40ClusterTestConfiguration.isSome then
    [{ Name := "RPM_REPO_CRIO_DIR", Value := release ++ "-rhel-7" }]
   else []) ++
  (match test.OpenshiftAnsibleUpgradeClusterTestConfiguration with
   | some conf =>
     [ { Name := "PREVIOUS_ANSIBLE_VERSION", Value := conf.PreviousVersion },
       { Name := "PREVIOUS_IMAGE_ANSIBLE",
         Value := "docker.io/openshift/origin-ansible:v" ++ conf.PreviousVersion },
       { Name := "PREVIOUS_RPM_DEPENDENCIES_REPO", Value := conf.PreviousRPMDeps },
       { Name := "PREVIOUS_RPM_REPO",
         Value := "https://rpms.svc.ci.openshift.org/openshift-origin-v" ++
           conf.PreviousVersion ++ "/" } ]
   | none => [])

/-- The pod spec `generatePodSpecTemplate` returns. -/
def templatePodSpec (info : Info) (release : String) (test : TestStepConfiguration) : PodSpec :=
  let sel := selectTemplate test
  { ServiceAccountName := "ci-operator"
    Containers := [
      { Image := "ci-operator:latest"
        ImagePullPolicy := "Always"
        Command := ["ci-operator"]
        Args :=
          [ "--give-pr-author-access-to-namespace=true",
            "--artifact-dir=$(ARTIFACTS)",
            "--target=" ++ test.As,
            "--sentry-dsn-path=/etc/sentry-dsn/ci-operator",
            "--secret-dir=/usr/local/" ++ test.As ++ "-cluster-profile" ] ++
          (if sel.template = "" then [] else ["--template=/usr/local/" ++ test.As])
        Env := templateEnv info release test
        Requests := [("cpu", "10m")]
        VolumeMounts :=
          [ { Name := "sentry-dsn", MountPath := "/etc/sentry-dsn", ReadOnly := true },
            { Name := "cluster-profile",
              MountPath := "/usr/local/" ++ test.As ++ "-cluster-profile" } ] ++
          (if sel.template = "" then []
           else [{ Name := "job-definition", MountPath := "/usr/local/" ++ test.As,
                   SubPath := sel.template ++ ".yaml" }]) }]
    Volumes :=
      [{ Name := "sentry-dsn", VolumeSource := { Secret := some "sentry-dsn" } }] ++
      (if sel.template = "" then []
       else [{ Name := "job-definition",
               VolumeSource := { ConfigMap := some ("prow-job-" ++ sel.template) } }]) ++
      [{ Name := "cluster-profile",
         VolumeSource := { Projected := some (
           [{ Secret := some ("cluster-secrets-" ++ targetCloudOf sel.clusterProfile) }] ++
           (if sel.clusterProfile ∈ [ClusterProfileAWS, ClusterProfileAzure4,
               ClusterProfileOpenStack, ClusterProfileVSphere] then []
            else [{ ConfigMap := some ("cluster-profile-" ++ sel.clusterProfile) }])) } }] }

/-- The job file after one pass, for the jobs `pre` and `post` generated under key `k`. -/
def passResult (k : String) (pre : List Presubmit) (post : List Postsubmit)
    (existing : JobConfig) : Option JobConfig :=
  let pruned : JobConfig :=
    { Presubmits := pruneEntries (pruneList Presubmit.toJobBase Presubmit.setLabels)
        (GoMap.appendAt existing.Presubmits k pre)
      Postsubmits := pruneEntries (pruneList Postsubmit.toJobBase Postsubmit.setLabels)
        (GoMap.appendAt existing.Postsubmits k post)
      Periodics := existing.Periodics }
  if pruned.Presubmits.length = 0 && pruned.Postsubmits.length = 0 then none else some pruned

/-! ## Strings -/

theorem string_length_pos_iff (s : String) : s.length > 0 ↔ s ≠ "" := by
  constructor
  · intro h hs
    subst hs
    simp at h
  · intro h
    rcases s with ⟨l⟩
    cases l with
    | nil => exact absurd rfl h
    | cons a t => simp [String.length]

/-! ## Go maps -/

section GoMapLemmas
variable {α : Type}

theorem GoMap.get?_set_self (m : GoMap α) (k : String) (v : α) :
    (m.set k v).get? k = some v := by
  induction m with
  | nil => simp [GoMap.set, GoMap.get?]
  | cons e t ih =>
    rcases e with ⟨k', v'⟩
    by_cases h : k' = k
    · simp [GoMap.set, GoMap.get?, h]
    · simp [GoMap.set, GoMap.get?, h, ih]

theorem GoMap.get?_set_ne (m : GoMap α) (k k2 : String) (v : α) (hne : k2 ≠ k) :
    (m.set k v).get? k2 = m.get? k2 := by
  induction m with
  | nil =>
    have : ¬ k = k2 := fun h => hne h.symm
    simp [GoMap.set, GoMap.get?, this]
  | cons e t ih =>
    rcases e with ⟨k', v'⟩
    by_cases h : k' = k
    · subst h
      have : ¬ k' = k2 := fun h => hne h.symm
      simp [GoMap.set, GoMap.get?, this]
    · by_cases h2 : k' = k2
      · subst h2
        simp [GoMap.set, GoMap.get?, h]
      · simp [GoMap.set, GoMap.get?, h, h2, ih]

theorem GoMap.set_set (m : GoMap α) (k : String) (v w : α) :
    (m.set k v).set k w = m.set k w := by
  induction m with
  | nil => simp [GoMap.set]
  | cons e t ih =>
    rcases e with ⟨k', v'⟩
    by_cases h : k' = k
    · simp [GoMap.set, h]
    · simp [GoMap.set, h, ih]

theorem GoMap.get?_eq_none (m : GoMap α) (k : String) (h : k ∉ GoMap.keys m) :
    m.get? k = none := by
  induction m with
  | nil => rfl
  | cons e t ih =>
    rcases e with ⟨k', v'⟩
    simp only [GoMap.keys, List.map_cons, List.mem_cons, not_or] at h
    have h1 : ¬ k' = k := fun hh => h.1 hh.symm
    simp only [GoMap.get?, h1, if_false]
    exact ih h.2

theorem GoMap.set_of_not_mem (m : GoMap α) (k : String) (v : α) (h : k ∉ GoMap.keys m) :
    m.set k v = m ++ [(k, v)] := by
  induction m with
  | nil => rfl
  | cons e t ih =>
    rcases e with ⟨k', v'⟩
    simp only [GoMap.keys, List.map_cons, List.mem_cons, not_or] at h
    have h1 : ¬ k' = k := fun hh => h.1 hh.symm
    simp only [GoMap.set, h1, if_false, List.cons_append]
    rw [ih h.2]

theorem GoMap.index_set_self {β : Type} (m : GoMap (List β)) (k : String) (v : List β) :
    GoMap.index (m.set k v) k = v := by
  simp [GoMap.index, GoMap.get?_set_self]

end GoMapLemmas

theorem pruneJobs_inner {J : Type} (base : J → JobBase) (setLabels : J → GoMap String → J)
    (repo : String) (jobs : List J) (pruned : GoMap (List J)) :
    jobs.foldl (fun pruned job =>
      if isStale (base job) then pruned
      else
        let job :=
          if isGenerated (base job) then
            setLabels job ((base job).Labels.set ProwJobLabelGenerated Generated)
          else job
        pruned.set repo (pruned.index repo ++ [job])) pruned =
    if (pruneList base setLabels jobs).isEmpty then pruned
    else pruned.set repo (pruned.index repo ++ pruneList base setLabels jobs) := by
  induction jobs generalizing pruned with
  | nil => simp [pruneList]
  | cons job rest ih =>
    simp only [List.foldl_cons]
    rw [ih]
    by_cases hs : isStale (base job) = true
    · simp [pruneList, hs]
    · simp only [Bool.not_eq_true] at hs
      cases hr : pruneList base setLabels rest with
      | nil =>
        simp only [pruneList] at hr
        simp [pruneList, hs, hr]
      | cons a t =>
        simp only [pruneList] at hr
        simp [pruneList, hs, hr, GoMap.index_set_self, GoMap.set_set]

theorem pruneJobs_outer {J : Type} (base : J → JobBase) (setLabels : J → GoMap String → J)
    (entries : GoMap (List J)) (acc : GoMap (List J))
    (hnd : (GoMap.keys entries).Nodup)
    (hdis : ∀ k ∈ GoMap.keys entries, k ∉ GoMap.keys acc) :
    entries.foldl (fun pruned entry =>
      entry.2.foldl (fun pruned job =>
        if isStale (base job) then pruned
        else
          let job :=
            if isGenerated (base job) then
              setLabels job ((base job).Labels.set ProwJobLabelGenerated Generated)
            else job
          pruned.set entry.1 (pruned.index entry.1 ++ [job])) pruned) acc =
    acc ++ entries.filterMap fun entry =>
      if (pruneList base setLabels entry.2).isEmpty then none
      else some (entry.1, pruneList base setLabels entry.2) := by
  induction entries generalizing acc with
  | nil => simp
  | cons e rest ih =>
    rcases e with ⟨repo, jobs⟩
    simp only [GoMap.keys, List.map_cons, List.nodup_cons] at hnd
    have hrepo : repo ∉ GoMap.keys acc := hdis repo (by simp [GoMap.keys])
    simp only [List.foldl_cons]
    rw [pruneJobs_inner]
    cases hp : (pruneList base setLabels jobs).isEmpty with
    | true =>
      simp only [if_true]
      rw [ih acc hnd.2 (fun k hk => hdis k (by simp [GoMap.keys] at hk ⊢; exact Or.inr hk))]
      simp [List.filterMap_cons, hp]
    | false =>
      simp only [Bool.false_eq_true, if_false]
      have hidx : GoMap.index acc repo = [] := by
        simp [GoMap.index, GoMap.get?_eq_none acc repo hrepo]
      rw [hidx, List.nil_append, GoMap.set_of_not_mem acc repo _ hrepo]
      rw [ih _ hnd.2]
      · simp [List.filterMap_cons, hp]
      · intro k hk hmem
        simp only [GoMap.keys, List.map_append, List.map_cons, List.map_nil, List.mem_append,
          List.mem_singleton] at hmem
        rcases hmem with hmem | hmem
        · exact hdis k (by simp [GoMap.keys] at hk ⊢; exact Or.inr hk) hmem
        · subst hmem
          exact hnd.1 hk

theorem pruneJobs_eq_filterMap {J : Type} (base : J → JobBase)
    (setLabels : J → GoMap String → J) (m : GoMap (List J)) (hwf : GoMap.WF m) :
    pruneJobs base setLabels m =
    m.filterMap fun entry =>
      if (pruneList base setLabels entry.2).isEmpty then none
      else some (entry.1, pruneList base setLabels entry.2) := by
  unfold pruneJobs
  rw [pruneJobs_outer base setLabels m [] hwf (fun k _ h => by simp [GoMap.keys] at h)]
  simp

theorem index_filterMap_prune {J : Type} (f : List J → List J) (hf : f [] = [])
    (m : GoMap (List J)) (hwf : GoMap.WF m) (k : String) :
    GoMap.index (m.filterMap fun entry =>
      if (f entry.2).isEmpty then none else some (entry.1, f entry.2)) k =
    f (GoMap.index m k) := by
  induction m with
  | nil => simp [GoMap.index, GoMap.get?, hf]
  | cons e rest ih =>
    rcases e with ⟨repo, jobs⟩
    simp only [GoMap.WF, GoMap.keys, List.map_cons, List.nodup_cons] at hwf
    have ih' := ih hwf.2
    by_cases hk : repo = k
    · subst hk
      have hnone : GoMap.get? rest repo = none := GoMap.get?_eq_none rest repo hwf.1
      cases hp : (f jobs).isEmpty with
      | true =>
        simp only [List.filterMap_cons, hp, if_true]
        rw [ih']
        simp only [GoMap.index, hnone, GoMap.get?, if_true, Option.getD_none, Option.getD_some, hf]
        exact (List.isEmpty_iff.1 hp).symm
      | false =>
        simp [List.filterMap_cons, hp, GoMap.index, GoMap.get?]
    · cases hp : (f jobs).isEmpty with
      | true =>
        simp only [List.filterMap_cons, hp, if_true]
        rw [ih']
        simp [GoMap.index, GoMap.get?, hk]
      | false =>
        simp only [List.filterMap_cons, hp, Bool.false_eq_true, if_false]
        simp only [GoMap.index, GoMap.get?, hk, if_false] at ih' ⊢
        exact ih'

theorem pruneJobs_index {J : Type} (base : J → JobBase)
    (setLabels : J → GoMap String → J) (m : GoMap (List J)) (hwf : GoMap.WF m) (k : String) :
    GoMap.index (pruneJobs base setLabels m) k = pruneList base setLabels (GoMap.index m k) := by
  rw [pruneJobs_eq_filterMap base setLabels m hwf]
  exact index_filterMap_prune (pruneList base setLabels) (by simp [pruneList]) m hwf k


/-! ## Branch explicit-ization -/

theorem simpleBranchChar_iff (c : Char) : simpleBranchChar c = true ↔ isWordDashDot c := by
  simp only [simpleBranchChar, isWordDashDot, Char.isAlphanum, Char.isAlpha, Char.isUpper,
    Char.isLower, Char.isDigit, Bool.or_eq_true, Bool.and_eq_true, decide_eq_true_eq,
    Char.le_def]
  have hA : 'A'.val = 65 := by decide
  have hZ : 'Z'.val = 90 := by decide
  have ha : 'a'.val = 97 := by decide
  have hz : 'z'.val = 122 := by decide
  have h0 : '0'.val = 48 := by decide
  have h9 : '9'.val = 57 := by decide
  simp only [hA, hZ, ha, hz, h0, h9, ge_iff_le]
  tauto


theorem quoteMeta_char (c : Char) (hc : isWordDashDot c) :
    (if c ∈ ['\x5c', '.', '+', '*', '?', '(', ')', '|', '[', ']', '\x7b', '\x7d', '^', '$']
      then ['\x5c', c] else [c]) = (if c = '.' then ['\x5c', '.'] else [c]) := by
  by_cases hd : c = '.'
  · subst hd; rfl
  · have hn : c ∉ ['\x5c', '.', '+', '*', '?', '(', ')', '|', '[', ']', '\x7b', '\x7d', '^', '$'] := by
      intro hmem
      simp only [List.mem_cons, List.mem_singleton, List.mem_nil_iff, or_false] at hmem
      rcases hmem with h|h|h|h|h|h|h|h|h|h|h|h|h|h <;> first
        | exact hd h
        | (subst h; revert hc; decide)
    simp [hn, hd]

theorem quoteMeta_simple (l : List Char) (h : ∀ c ∈ l, isWordDashDot c) :
    (l.flatMap fun c =>
      if c ∈ ['\x5c', '.', '+', '*', '?', '(', ')', '|', '[', ']', '\x7b', '\x7d', '^', '$']
      then ['\x5c', c] else [c]) =
    l.flatMap fun c => if c = '.' then ['\x5c', '.'] else [c] := by
  induction l with
  | nil => rfl
  | cons a t ih =>
    simp only [List.flatMap_cons]
    rw [quoteMeta_char a (h a (List.mem_cons_self a t)),
      ih (fun c hc => h c (List.mem_cons_of_mem a hc))]


/-! ## Pruning one list -/

theorem isStale_eq_false_iff (job : JobBase) :
    isStale job = false ↔
      (job.Labels.get? ProwJobLabelGenerated = none ∨
        job.Labels.get? ProwJobLabelGenerated = some New) := by
  unfold isStale
  cases h : job.Labels.get? ProwJobLabelGenerated with
  | none => simp
  | some v => simp

theorem pruneList_eq_spec {J : Type} (base : J → JobBase) (setLabels : J → GoMap String → J)
    (jobs : List J) :
    pruneList base setLabels jobs =
    (jobs.filter fun job =>
      decide ((base job).Labels.get? ProwJobLabelGenerated = none ∨
        (base job).Labels.get? ProwJobLabelGenerated = some New)).map fun job =>
      if (base job).Labels.get? ProwJobLabelGenerated = some New then
        setLabels job ((base job).Labels.set ProwJobLabelGenerated Generated)
      else job := by
  unfold pruneList
  have hfilter : (fun job => !isStale (base job)) =
      (fun job => decide ((base job).Labels.get? ProwJobLabelGenerated = none ∨
        (base job).Labels.get? ProwJobLabelGenerated = some New)) := by
    funext job
    cases hst : isStale (base job) with
    | false =>
      have := (isStale_eq_false_iff (base job)).1 hst
      simp [this]
    | true =>
      have hn : ¬ ((base job).Labels.get? ProwJobLabelGenerated = none ∨
          (base job).Labels.get? ProwJobLabelGenerated = some New) := by
        intro hh
        rw [(isStale_eq_false_iff (base job)).2 hh] at hst
        cases hst
      simp [hn]
  rw [hfilter]
  apply List.map_congr_left
  intro job hmem
  have hk := (List.mem_filter.1 hmem).2
  simp only [decide_eq_true_eq] at hk
  rcases hk with hk | hk
  · simp [isGenerated, hk]
  · simp [isGenerated, hk]

theorem pruneList_unlabelled {J : Type} (base : J → JobBase) (setLabels : J → GoMap String → J)
    (hset : ∀ job labels, (base (setLabels job labels)).Labels = labels)
    (jobs : List J) :
    (pruneList base setLabels jobs).filter
      (fun job => decide ((base job).Labels.get? ProwJobLabelGenerated = none)) =
    jobs.filter (fun job => decide ((base job).Labels.get? ProwJobLabelGenerated = none)) := by
  rw [pruneList_eq_spec]
  induction jobs with
  | nil => rfl
  | cons job rest ih =>
    simp only [Bool.decide_or] at ih ⊢
    simp only [List.filter_cons]
    cases h : (base job).Labels.get? ProwJobLabelGenerated with
    | none => simp [h, ih]
    | some v =>
      by_cases hv : v = New
      · subst hv
        simp [h, ih, hset, GoMap.get?_set_self]
      · simp [hv, ih]

/-! ## The generator never panics -/

theorem generateCiOperatorPodSpec_ok (info : Info) (target : String) (args : List String)
    (h : ∀ a ∈ args, stringsHasPrefix a "--" = true) :
    generateCiOperatorPodSpec info target args = Except.ok (ciOperatorPodSpec info target args) := by
  have hfind : args.find? (fun arg => !stringsHasPrefix arg "--") = none := by
    rw [List.find?_eq_none]
    intro a ha
    simp [h a ha]
  simp only [generateCiOperatorPodSpec, hfind]
  rfl

theorem generatePodSpecTemplate_ok (info : Info) (release : String)
    (test : TestStepConfiguration) :
    ∃ podSpec, generatePodSpecTemplate info release test = Except.ok podSpec := by
  unfold generatePodSpecTemplate
  rw [generateCiOperatorPodSpec_ok info test.As [] (by simp)]
  exact ⟨_, rfl⟩

theorem elementPodSpec_ok (configSpec : ReleaseBuildConfiguration) (info : Info)
    (element : TestStepConfiguration) :
    elementPodSpec configSpec info element = Except.ok (podSpecOf configSpec info element) := by
  have h : ∃ podSpec, elementPodSpec configSpec info element = Except.ok podSpec := by
    unfold elementPodSpec
    by_cases hc : element.ContainerTestConfiguration.isSome = true
    · rw [if_pos hc]
      exact ⟨_, generateCiOperatorPodSpec_ok info element.As [] (by simp)⟩
    · rw [if_neg hc]
      by_cases hr : element.OpenshiftInstallerRandomClusterTestConfiguration.isSome = true
      · simp only [hr, if_true]
        exact ⟨_, rfl⟩
      · simp only [hr]
        exact generatePodSpecTemplate_ok _ _ _
  obtain ⟨p, hp⟩ := h
  simp [podSpecOf, hp]


theorem GoMap.appendAt_nil {α : Type} (m : GoMap (List α)) (k : String) :
    GoMap.appendAt m k [] = m := by
  simp [GoMap.appendAt]

theorem GoMap.appendAt_cons {α : Type} (m : GoMap (List α)) (k : String) (x : α) (xs : List α) :
    GoMap.appendAt (m.set k (m.index k ++ [x])) k xs = GoMap.appendAt m k (x :: xs) := by
  cases xs with
  | nil => simp [GoMap.appendAt]
  | cons y ys => simp [GoMap.appendAt, GoMap.index_set_self, GoMap.set_set]

theorem generateJobs_loop (configSpec : ReleaseBuildConfiguration) (info : Info) (label : String)
    (orgrepo : String) (tests : List TestStepConfiguration) (acc : GoMap (List Presubmit)) :
    tests.foldlM (fun presubmits element => do
      let podSpec ← elementPodSpec configSpec info element
      pure (presubmits.set orgrepo
        (presubmits.index orgrepo ++ [generatePresubmitForTest element.As info label podSpec])))
      acc =
    Except.ok (GoMap.appendAt acc orgrepo (tests.map fun element =>
      generatePresubmitForTest element.As info label (podSpecOf configSpec info element))) := by
  have hf : (fun (presubmits : GoMap (List Presubmit)) (element : TestStepConfiguration) => do
      let podSpec ← elementPodSpec configSpec info element
      pure (f := Except String) (presubmits.set orgrepo
        (presubmits.index orgrepo ++ [generatePresubmitForTest element.As info label podSpec]))) =
      (fun presubmits element => Except.ok (presubmits.set orgrepo
        (presubmits.index orgrepo ++
          [generatePresubmitForTest element.As info label (podSpecOf configSpec info element)]))) := by
    funext presubmits element
    simp only [elementPodSpec_ok, bind, Except.bind, pure, Except.pure]
  rw [hf]
  induction tests generalizing acc with
  | nil => simp [GoMap.appendAt_nil, pure, Except.pure]
  | cons t rest ih =>
    simp only [List.foldlM_cons, List.map_cons]
    simp only [bind, Except.bind]
    rw [← GoMap.appendAt_cons]
    exact ih _


theorem GoMap.appendAt_snoc {α : Type} (m : GoMap (List α)) (k : String) (xs : List α) (y : α) :
    (GoMap.appendAt m k xs).set k (GoMap.index (GoMap.appendAt m k xs) k ++ [y]) =
      GoMap.appendAt m k (xs ++ [y]) := by
  cases xs with
  | nil => simp [GoMap.appendAt]
  | cons x t => simp [GoMap.appendAt, GoMap.index_set_self, GoMap.set_set]

theorem stringsHasPrefix_append (pre s : String) : stringsHasPrefix (pre ++ s) pre = true := by
  simp [stringsHasPrefix, String.data_append]

theorem stringsHasPrefix_target (s : String) : stringsHasPrefix ("--target=" ++ s) "--" = true := by
  have h : ("--target=" : String) = "--" ++ "target=" := by decide
  rw [h, String.append_assoc]
  exact stringsHasPrefix_append _ _

theorem additionalPostsubmitArgs_eq (images : List String) (init : List String) :
    images.foldl (fun args additionalImage => args ++ ["--target=" ++ additionalImage]) init =
      init ++ images.map fun additionalImage => "--target=" ++ additionalImage := by
  induction images generalizing init with
  | nil => simp
  | cons i rest ih => simp [ih]

theorem generateJobs_eq (PromotesOfficialImages : ReleaseBuildConfiguration → Bool)
    (configSpec : ReleaseBuildConfiguration) (info : Info) (label : String) :
    generateJobs PromotesOfficialImages configSpec info label =
      Except.ok
        { Presubmits := GoMap.appendAt [] (info.Org ++ "/" ++ info.Repo)
            (expectedPresubmits PromotesOfficialImages configSpec info label)
          Postsubmits := GoMap.appendAt [] (info.Org ++ "/" ++ info.Repo)
            (expectedPostsubmits configSpec info label)
          Periodics := [] } := by
  unfold generateJobs expectedPresubmits expectedPostsubmits
  simp only [generateJobs_loop]
  simp only [bind, Except.bind, pure, Except.pure]
  by_cases himg : configSpec.Images.length > 0
  · simp only [himg, if_true]
    have hpre : ∀ a ∈ (if PromotesOfficialImages configSpec = true
        then ["--target=[release:latest]"] else []), stringsHasPrefix a "--" = true := by
      intro a ha
      split at ha
      · simp only [List.mem_singleton] at ha
        subst ha
        decide
      · simp at ha
    rw [generateCiOperatorPodSpec_ok _ _ _ hpre]
    simp only [GoMap.appendAt_snoc]
    cases hprom : configSpec.PromotionConfiguration with
    | none => simp [GoMap.appendAt]
    | some promotionConfiguration =>
      simp only [additionalPostsubmitArgs_eq]
      have hpost : ∀ a ∈ (["--promote"] ++ promotionConfiguration.AdditionalImages.map
          fun additionalImage => "--target=" ++ additionalImage),
          stringsHasPrefix a "--" = true := by
        intro a ha
        simp only [List.singleton_append, List.mem_cons, List.mem_map] at ha
        rcases ha with ha | ⟨i, _, hi⟩
        · subst ha
          decide
        · subst hi
          exact stringsHasPrefix_target i
      rw [generateCiOperatorPodSpec_ok _ _ _ hpost]
      simp [GoMap.appendAt, GoMap.set, GoMap.index, GoMap.get?]
  · simp [himg, GoMap.appendAt]

/-! ## Job builder and generator lemmas -/

theorem generateJobBase_name (name pfx : String) (info : Info) (label : String)
    (podSpec : PodSpec) :
    (generateJobBase name pfx info label podSpec).Name =
      pfx ++ "-ci-" ++ info.Org ++ "-" ++ info.Repo ++ "-" ++ info.Branch ++ "-" ++ name := by
  simp [generateJobBase]

theorem generatePresubmitForTest_name (name : String) (info : Info) (label : String)
    (podSpec : PodSpec) :
    (generatePresubmitForTest name info label podSpec).Name = jobNameSpec "pull" info name := by
  simp only [generatePresubmitForTest, generateJobBase_name, presubmitPrefix, jobNameSpec]
  by_cases h : info.Variant = ""
  · simp [h]
  · simp [h, (string_length_pos_iff _).2 h]

theorem generatePostsubmitForTest_name (name : String) (info : Info) (label : String)
    (podSpec : PodSpec) :
    (generatePostsubmitForTest name info label podSpec).Name = jobNameSpec "branch" info name := by
  simp only [generatePostsubmitForTest, generateJobBase_name, postsubmitPrefix, jobNameSpec]
  by_cases h : info.Variant = ""
  · simp [h]
  · simp [h, (string_length_pos_iff _).2 h]

theorem generateJobBase_labels (name pfx : String) (info : Info) (label : String)
    (podSpec : PodSpec) (k : String) :
    (generateJobBase name pfx info label podSpec).Labels.get? k =
      if k = ProwJobLabelGenerated then some label
      else if k = prowJobLabelVariant ∧ info.Variant ≠ "" then some info.Variant
      else none := by
  have hGV : ProwJobLabelGenerated ≠ prowJobLabelVariant := by decide
  simp only [generateJobBase]
  by_cases h : info.Variant = ""
  · have h0 : ¬ info.Variant.length > 0 := fun hh => (string_length_pos_iff _).1 hh h
    simp only [h0, if_false, GoMap.get?, h]
    by_cases hk : k = ProwJobLabelGenerated
    · simp [hk]
    · have hk' : ¬ ProwJobLabelGenerated = k := fun hh => hk hh.symm
      simp [hk, hk']
  · have h0 : info.Variant.length > 0 := (string_length_pos_iff _).2 h
    simp only [h0, if_true, GoMap.set, hGV, if_false, GoMap.get?]
    by_cases hk : k = ProwJobLabelGenerated
    · simp [hk]
    · have hk' : ¬ ProwJobLabelGenerated = k := fun hh => hk hh.symm
      by_cases hv : k = prowJobLabelVariant
      · subst hv
        simp [hGV, hk, h]
      · have hv' : ¬ prowJobLabelVariant = k := fun hh => hv hh.symm
        simp [hk', hk, hv, hv']

theorem GoMap.mem_appendAt_nil {α : Type} (k : String) (xs : List α) (e : String × List α)
    (h : e ∈ GoMap.appendAt [] k xs) : e = (k, xs) := by
  unfold GoMap.appendAt at h
  split at h
  · simp at h
  · simpa [GoMap.set, GoMap.index, GoMap.get?] using h

theorem mem_expectedPresubmits (PromotesOfficialImages : ReleaseBuildConfiguration → Bool)
    (configSpec : ReleaseBuildConfiguration) (info : Info) (label : String) (job : Presubmit)
    (h : job ∈ expectedPresubmits PromotesOfficialImages configSpec info label) :
    ∃ name podSpec, job = generatePresubmitForTest name info label podSpec := by
  simp only [expectedPresubmits, List.mem_append, List.mem_map] at h
  rcases h with ⟨e, _, he⟩ | h
  · exact ⟨_, _, he.symm⟩
  · split at h
    · simp only [List.mem_singleton] at h
      exact ⟨_, _, h⟩
    · simp at h

theorem mem_expectedPostsubmits
    (configSpec : ReleaseBuildConfiguration) (info : Info) (label : String) (job : Postsubmit)
    (h : job ∈ expectedPostsubmits configSpec info label) :
    ∃ name podSpec, job = generatePostsubmitForTest name info label podSpec := by
  simp only [expectedPostsubmits] at h
  split at h
  · split at h
    · simp only [List.mem_singleton] at h
      exact ⟨_, _, h⟩
    · simp at h
  · simp at h

theorem GoMap.index_appendAt_nil {α : Type} (k : String) (xs : List α) :
    GoMap.index (GoMap.appendAt [] k xs) k = xs := by
  cases xs with
  | nil => simp [GoMap.appendAt, GoMap.index, GoMap.get?]
  | cons x t => simp [GoMap.appendAt, GoMap.index, GoMap.get?, GoMap.set]

theorem GoMap.keys_appendAt_nil {α : Type} (k : String) (xs : List α) (k2 : String)
    (h : k2 ∈ GoMap.keys (GoMap.appendAt [] k xs)) : k2 = k := by
  simp only [GoMap.keys, List.mem_map] at h
  obtain ⟨e, he, hk⟩ := h
  rw [GoMap.mem_appendAt_nil k xs e he] at hk
  exact hk.symm

theorem expectedPresubmits_names (PromotesOfficialImages : ReleaseBuildConfiguration → Bool)
    (configSpec : ReleaseBuildConfiguration) (info : Info) (label : String) :
    (expectedPresubmits PromotesOfficialImages configSpec info label).map (fun job => job.Name) =
      (configSpec.Tests.map fun test => jobNameSpec "pull" info test.As) ++
        if configSpec.Images = [] then [] else [jobNameSpec "pull" info "images"] := by
  simp only [expectedPresubmits, List.map_append, List.map_map]
  congr 1
  · apply List.map_congr_left
    intro t _
    exact generatePresubmitForTest_name _ _ _ _
  · cases himg : configSpec.Images with
    | nil => simp
    | cons a t => simp [generatePresubmitForTest_name]


/-! ## Pruning twice and the generate-write-prune pass -/

section PruneTwice
variable {J : Type} (base : J → JobBase) (setLabels : J → GoMap String → J)

theorem pruneList_append (a b : List J) :
    pruneList base setLabels (a ++ b) = pruneList base setLabels a ++ pruneList base setLabels b := by
  simp [pruneList]

theorem pruneList_cons_unlabelled (job : J) (rest : List J)
    (h : (base job).Labels.get? ProwJobLabelGenerated = none) :
    pruneList base setLabels (job :: rest) = job :: pruneList base setLabels rest := by
  simp [pruneList, isStale, isGenerated, h]

theorem pruneList_cons_stale (job : J) (rest : List J) (v : String)
    (h : (base job).Labels.get? ProwJobLabelGenerated = some v) (hv : v ≠ New) :
    pruneList base setLabels (job :: rest) = pruneList base setLabels rest := by
  simp [pruneList, isStale, h, hv]

theorem pruneList_cons_new (job : J) (rest : List J)
    (h : (base job).Labels.get? ProwJobLabelGenerated = some New) :
    pruneList base setLabels (job :: rest) =
      setLabels job ((base job).Labels.set ProwJobLabelGenerated Generated) ::
        pruneList base setLabels rest := by
  simp [pruneList, isStale, isGenerated, h]

theorem pruneList_twice_of_noNew (jobs : List J)
    (h : ∀ job ∈ jobs, (base job).Labels.get? ProwJobLabelGenerated ≠ some New) :
    pruneList base setLabels (pruneList base setLabels jobs) = pruneList base setLabels jobs := by
  induction jobs with
  | nil => rfl
  | cons job rest ih =>
    have ih' := ih (fun j hj => h j (List.mem_cons_of_mem _ hj))
    cases hl : (base job).Labels.get? ProwJobLabelGenerated with
    | none =>
      rw [pruneList_cons_unlabelled base setLabels job rest hl,
        pruneList_cons_unlabelled base setLabels job _ hl, ih']
    | some v =>
      have hv : v ≠ New := fun hh => h job (List.mem_cons_self _ _) (by rw [hl, hh])
      rw [pruneList_cons_stale base setLabels job rest v hl hv, ih']

theorem pruneList_twice_of_allNew
    (hset : ∀ job labels, (base (setLabels job labels)).Labels = labels) (jobs : List J)
    (h : ∀ job ∈ jobs, (base job).Labels.get? ProwJobLabelGenerated = some New) :
    pruneList base setLabels (pruneList base setLabels jobs) = [] := by
  induction jobs with
  | nil => rfl
  | cons job rest ih =>
    have ih' := ih (fun j hj => h j (List.mem_cons_of_mem _ hj))
    rw [pruneList_cons_new base setLabels job rest (h job (List.mem_cons_self _ _))]
    have hg : (base (setLabels job ((base job).Labels.set ProwJobLabelGenerated Generated))).Labels.get?
        ProwJobLabelGenerated = some Generated := by
      rw [hset, GoMap.get?_set_self]
    rw [pruneList_cons_stale base setLabels _ _ Generated hg (by decide), ih']

theorem pruneList_isEmpty_of_allNew (jobs : List J)
    (h : ∀ job ∈ jobs, (base job).Labels.get? ProwJobLabelGenerated = some New) :
    (pruneList base setLabels jobs).isEmpty = jobs.isEmpty := by
  cases jobs with
  | nil => rfl
  | cons job rest =>
    rw [pruneList_cons_new base setLabels job rest (h job (List.mem_cons_self _ _))]
    rfl

theorem pruneList_cycle
    (hset : ∀ job labels, (base (setLabels job labels)).Labels = labels) (old fresh : List J)
    (hold : ∀ job ∈ old, (base job).Labels.get? ProwJobLabelGenerated ≠ some New)
    (hfresh : ∀ job ∈ fresh, (base job).Labels.get? ProwJobLabelGenerated = some New) :
    pruneList base setLabels (pruneList base setLabels (old ++ fresh) ++ fresh) =
      pruneList base setLabels (old ++ fresh) := by
  rw [pruneList_append, pruneList_append, pruneList_append,
    pruneList_twice_of_noNew base setLabels old hold,
    pruneList_twice_of_allNew base setLabels hset fresh hfresh, List.append_nil]

theorem pruneEntries_twice (m : GoMap (List J))
    (h : ∀ entry ∈ m, ∀ job ∈ entry.2, (base job).Labels.get? ProwJobLabelGenerated ≠ some New) :
    pruneEntries (pruneList base setLabels) (pruneEntries (pruneList base setLabels) m) =
      pruneEntries (pruneList base setLabels) m := by
  induction m with
  | nil => rfl
  | cons e rest ih =>
    have ih' := ih (fun entry he => h entry (List.mem_cons_of_mem _ he))
    have hp := pruneList_twice_of_noNew base setLabels e.2 (h e (List.mem_cons_self _ _))
    unfold pruneEntries at ih' ⊢
    cases he : (pruneList base setLabels e.2).isEmpty with
    | true => simp only [List.filterMap_cons, he, if_true, ih']
    | false =>
      simp only [List.filterMap_cons, he, Bool.false_eq_true, if_false, hp, ih']

theorem GoMap.appendAt_cons_self {α : Type} (k : String) (v : List α) (rest : GoMap (List α))
    (xs : List α) :
    GoMap.appendAt ((k, v) :: rest) k xs = (k, v ++ xs) :: rest := by
  cases xs with
  | nil => simp [GoMap.appendAt]
  | cons x t => simp [GoMap.appendAt, GoMap.set, GoMap.index, GoMap.get?]

theorem GoMap.appendAt_cons_ne {α : Type} (k k2 : String) (v : List α) (rest : GoMap (List α))
    (xs : List α) (h : k2 ≠ k) :
    GoMap.appendAt ((k2, v) :: rest) k xs = (k2, v) :: GoMap.appendAt rest k xs := by
  cases xs with
  | nil => simp [GoMap.appendAt]
  | cons x t => simp [GoMap.appendAt, GoMap.set, GoMap.index, GoMap.get?, h]

theorem pruneEntries_cons (f : List J → List J) (e : String × List J) (rest : GoMap (List J)) :
    pruneEntries f (e :: rest) =
      if (f e.2).isEmpty then pruneEntries f rest else (e.1, f e.2) :: pruneEntries f rest := by
  unfold pruneEntries
  cases h : (f e.2).isEmpty <;> simp [List.filterMap_cons, h]

theorem pruneEntries_cycle
    (hset : ∀ job labels, (base (setLabels job labels)).Labels = labels)
    (k : String) (fresh : List J)
    (hfresh : ∀ job ∈ fresh, (base job).Labels.get? ProwJobLabelGenerated = some New)
    (m : GoMap (List J))
    (hm : ∀ entry ∈ m, ∀ job ∈ entry.2, (base job).Labels.get? ProwJobLabelGenerated ≠ some New) :
    pruneEntries (pruneList base setLabels)
        (GoMap.appendAt (pruneEntries (pruneList base setLabels) (GoMap.appendAt m k fresh)) k fresh) =
      pruneEntries (pruneList base setLabels) (GoMap.appendAt m k fresh) := by
  cases hf : fresh.isEmpty with
  | true =>
    have : fresh = [] := List.isEmpty_iff.1 hf
    subst this
    simp only [GoMap.appendAt_nil]
    exact pruneEntries_twice base setLabels m hm
  | false =>
    have hpf : (pruneList base setLabels fresh).isEmpty = false := by
      rw [pruneList_isEmpty_of_allNew base setLabels fresh hfresh, hf]
    induction m with
    | nil =>
      have h0 := pruneList_cycle base setLabels hset [] fresh (by simp) hfresh
      simp only [List.nil_append] at h0
      simp only [GoMap.appendAt, hf, Bool.false_eq_true, if_false, GoMap.set, GoMap.index,
        GoMap.get?, Option.getD_none, List.nil_append]
      simp only [pruneEntries_cons, hpf, Bool.false_eq_true, if_false]
      simp only [pruneEntries, List.filterMap_nil, GoMap.set, GoMap.get?, if_true,
        Option.getD_some, List.filterMap_cons, h0, hpf, Bool.false_eq_true, if_false]
    | cons e rest ih =>
      rcases e with ⟨k2, v⟩
      have hrest : ∀ entry ∈ rest, ∀ job ∈ entry.2,
          (base job).Labels.get? ProwJobLabelGenerated ≠ some New :=
        fun entry he => hm entry (List.mem_cons_of_mem _ he)
      have hv : ∀ job ∈ v, (base job).Labels.get? ProwJobLabelGenerated ≠ some New :=
        hm (k2, v) (List.mem_cons_self _ _)
      by_cases hk : k2 = k
      · subst hk
        have hne : (pruneList base setLabels (v ++ fresh)).isEmpty = false := by
          rw [pruneList_append]
          cases hpv : pruneList base setLabels v with
          | nil => simpa using hpf
          | cons a t => rfl
        rw [GoMap.appendAt_cons_self, pruneEntries_cons]
        simp only [hne, Bool.false_eq_true, if_false]
        rw [GoMap.appendAt_cons_self, pruneEntries_cons]
        simp only [pruneList_cycle base setLabels hset v fresh hv hfresh, hne,
          Bool.false_eq_true, if_false, pruneEntries_twice base setLabels rest hrest]
      · rw [GoMap.appendAt_cons_ne _ _ _ _ _ hk, pruneEntries_cons]
        cases hpv : (pruneList base setLabels v).isEmpty with
        | true =>
          simp only [if_true]
          exact ih hrest
        | false =>
          simp only [Bool.false_eq_true, if_false]
          rw [GoMap.appendAt_cons_ne _ _ _ _ _ hk, pruneEntries_cons]
          simp only [pruneList_twice_of_noNew base setLabels v hv, hpv, Bool.false_eq_true,
            if_false, ih hrest]

end PruneTwice

theorem GoMap.keys_set {α : Type} (m : GoMap α) (k : String) (v : α) :
    GoMap.keys (m.set k v) = if k ∈ GoMap.keys m then GoMap.keys m else GoMap.keys m ++ [k] := by
  induction m with
  | nil => simp [GoMap.set, GoMap.keys]
  | cons e rest ih =>
    rcases e with ⟨k2, v2⟩
    by_cases h : k2 = k
    · subst h
      simp [GoMap.set, GoMap.keys]
    · have h' : ¬ k = k2 := fun hh => h hh.symm
      simp only [GoMap.keys] at ih
      simp only [GoMap.set, h, if_false, GoMap.keys, List.map_cons, List.mem_cons, h', false_or,
        ih]
      split <;> simp

theorem GoMap.WF_set {α : Type} (m : GoMap α) (k : String) (v : α) (h : GoMap.WF m) :
    GoMap.WF (m.set k v) := by
  unfold GoMap.WF at h ⊢
  rw [GoMap.keys_set]
  split
  · exact h
  · rename_i hk
    rw [List.nodup_append]
    refine ⟨h, List.nodup_singleton k, ?_⟩
    intro a ha hb
    simp only [List.mem_singleton] at hb
    subst hb
    exact hk ha

theorem GoMap.WF_appendAt {α : Type} (m : GoMap (List α)) (k : String) (xs : List α)
    (h : GoMap.WF m) : GoMap.WF (GoMap.appendAt m k xs) := by
  unfold GoMap.appendAt
  split
  · exact h
  · exact GoMap.WF_set _ _ _ h

theorem pruneEntries_WF {J : Type} (f : List J → List J) (m : GoMap (List J)) (h : GoMap.WF m) :
    GoMap.WF (pruneEntries f m) := by
  unfold GoMap.WF at h ⊢
  refine List.Nodup.sublist ?_ h
  clear h
  unfold pruneEntries GoMap.keys
  induction m with
  | nil => simp
  | cons e rest ih =>
    cases he : (f e.2).isEmpty with
    | true =>
      simp only [List.filterMap_cons, he, if_true, List.map_cons]
      exact List.Sublist.cons _ ih
    | false =>
      simp only [List.filterMap_cons, he, Bool.false_eq_true, if_false, List.map_cons]
      exact List.Sublist.cons₂ _ ih

theorem pruneJobs_eq_pruneEntries {J : Type} (base : J → JobBase)
    (setLabels : J → GoMap String → J) (m : GoMap (List J)) (hwf : GoMap.WF m) :
    pruneJobs base setLabels m = pruneEntries (pruneList base setLabels) m :=
  pruneJobs_eq_filterMap base setLabels m hwf

theorem pruneEntries_appendAt_ne_nil {J : Type} (base : J → JobBase)
    (setLabels : J → GoMap String → J) (k : String) (fresh : List J)
    (hfresh : ∀ job ∈ fresh, (base job).Labels.get? ProwJobLabelGenerated = some New)
    (hne : fresh.isEmpty = false) (m : GoMap (List J)) :
    pruneEntries (pruneList base setLabels) (GoMap.appendAt m k fresh) ≠ [] := by
  have hpf : (pruneList base setLabels fresh).isEmpty = false := by
    rw [pruneList_isEmpty_of_allNew base setLabels fresh hfresh, hne]
  induction m with
  | nil =>
    simp only [GoMap.appendAt, hne, Bool.false_eq_true, if_false, GoMap.set, GoMap.index,
      GoMap.get?, Option.getD_none, List.nil_append, pruneEntries_cons, hpf]
    exact List.cons_ne_nil _ _
  | cons e rest ih =>
    rcases e with ⟨k2, v⟩
    by_cases hk : k2 = k
    · subst hk
      have hne2 : (pruneList base setLabels (v ++ fresh)).isEmpty = false := by
        rw [pruneList_append]
        cases hpv : pruneList base setLabels v with
        | nil => simpa using hpf
        | cons a t => rfl
      rw [GoMap.appendAt_cons_self, pruneEntries_cons]
      simp only [hne2, Bool.false_eq_true, if_false]
      exact List.cons_ne_nil _ _
    · rw [GoMap.appendAt_cons_ne _ _ _ _ _ hk, pruneEntries_cons]
      split
      · exact ih
      · exact List.cons_ne_nil _ _

theorem storeWrite_fold {α : Type} (k : String) (xs : List α) (m : GoMap (List α)) :
    (GoMap.appendAt [] k xs).foldl
      (fun jobs entry => jobs.set entry.1 (GoMap.index jobs entry.1 ++ entry.2)) m =
      GoMap.appendAt m k xs := by
  cases xs with
  | nil => simp [GoMap.appendAt]
  | cons x t => simp [GoMap.appendAt, GoMap.set, GoMap.index, GoMap.get?]

theorem expectedPresubmits_new (PromotesOfficialImages : ReleaseBuildConfiguration → Bool)
    (configSpec : ReleaseBuildConfiguration) (info : Info) :
    ∀ job ∈ expectedPresubmits PromotesOfficialImages configSpec info New,
      job.toJobBase.Labels.get? ProwJobLabelGenerated = some New := by
  intro job hjob
  obtain ⟨name, podSpec, hj⟩ := mem_expectedPresubmits _ _ _ _ _ hjob
  subst hj
  have := generateJobBase_labels
    (if info.Variant.length > 0 then info.Variant ++ "-" ++ name else name)
    presubmitPrefix info New podSpec ProwJobLabelGenerated
  simpa using this

theorem expectedPostsubmits_new
    (configSpec : ReleaseBuildConfiguration) (info : Info) :
    ∀ job ∈ expectedPostsubmits configSpec info New,
      job.toJobBase.Labels.get? ProwJobLabelGenerated = some New := by
  intro job hjob
  obtain ⟨name, podSpec, hj⟩ := mem_expectedPostsubmits _ _ _ _ hjob
  subst hj
  have := generateJobBase_labels
    (if info.Variant.length > 0 then info.Variant ++ "-" ++ name else name)
    postsubmitPrefix info New podSpec ProwJobLabelGenerated
  simpa using this

theorem prune_eq (jobConfig : JobConfig) (hpre : GoMap.WF jobConfig.Presubmits)
    (hpost : GoMap.WF jobConfig.Postsubmits) :
    prune jobConfig =
      { Presubmits :=
          pruneEntries (pruneList Presubmit.toJobBase Presubmit.setLabels) jobConfig.Presubmits
        Postsubmits :=
          pruneEntries (pruneList Postsubmit.toJobBase Postsubmit.setLabels) jobConfig.Postsubmits
        Periodics := jobConfig.Periodics } := by
  simp only [prune, pruneJobs_eq_pruneEntries _ _ _ hpre, pruneJobs_eq_pruneEntries _ _ _ hpost,
    JobConfig.AllPeriodics, List.nil_append]

theorem regenerate_eq (PromotesOfficialImages : ReleaseBuildConfiguration → Bool)
    (configSpec : ReleaseBuildConfiguration) (info : Info) (fileInfo : JobFileInfo)
    (file : Option JobConfig) (hinfo : fileInfo.JobType ≠ "periodics")
    (hpre : GoMap.WF (file.getD {}).Presubmits) (hpost : GoMap.WF (file.getD {}).Postsubmits) :
    regenerate PromotesOfficialImages configSpec info fileInfo file =
      Except.ok (passResult (info.Org ++ "/" ++ info.Repo)
        (expectedPresubmits PromotesOfficialImages configSpec info New)
        (expectedPostsubmits configSpec info New) (file.getD {})) := by
  simp only [regenerate, generateJobs_eq, bind, Except.bind, pure, Except.pure, storeWrite,
    storeWrite_fold, storePrune, pruneStaleJobsCallback, hinfo, if_false]
  rw [prune_eq _ (GoMap.WF_appendAt _ _ _ hpre) (GoMap.WF_appendAt _ _ _ hpost)]
  simp only [passResult]
  split_ifs <;> rfl

theorem passResult_def (k : String) (pre : List Presubmit) (post : List Postsubmit)
    (existing : JobConfig) :
    passResult k pre post existing =
      if (pruneEntries (pruneList Presubmit.toJobBase Presubmit.setLabels)
            (GoMap.appendAt existing.Presubmits k pre)).length = 0 ∧
          (pruneEntries (pruneList Postsubmit.toJobBase Postsubmit.setLabels)
            (GoMap.appendAt existing.Postsubmits k post)).length = 0 then none
      else some
        { Presubmits := pruneEntries (pruneList Presubmit.toJobBase Presubmit.setLabels)
            (GoMap.appendAt existing.Presubmits k pre)
          Postsubmits := pruneEntries (pruneList Postsubmit.toJobBase Postsubmit.setLabels)
            (GoMap.appendAt existing.Postsubmits k post)
          Periodics := existing.Periodics } := by
  simp only [passResult, Bool.and_eq_true, decide_eq_true_eq]

theorem passResult_idempotent (k : String) (pre : List Presubmit) (post : List Postsubmit)
    (hpre : ∀ job ∈ pre, job.toJobBase.Labels.get? ProwJobLabelGenerated = some New)
    (hpost : ∀ job ∈ post, job.toJobBase.Labels.get? ProwJobLabelGenerated = some New)
    (existing : JobConfig) (hnew : JobConfig.NoNewMarker existing) :
    passResult k pre post ((passResult k pre post existing).getD {}) =
      passResult k pre post existing := by
  by_cases hzero :
      (pruneEntries (pruneList Presubmit.toJobBase Presubmit.setLabels)
        (GoMap.appendAt existing.Presubmits k pre)).length = 0 ∧
      (pruneEntries (pruneList Postsubmit.toJobBase Postsubmit.setLabels)
        (GoMap.appendAt existing.Postsubmits k post)).length = 0
  · have h1 : passResult k pre post existing = none := by
      rw [passResult_def, if_pos hzero]
    have hpre0 : pre = [] := by
      cases hp : pre.isEmpty with
      | true => exact List.isEmpty_iff.1 hp
      | false =>
        exact absurd (List.length_eq_zero.1 hzero.1)
          (pruneEntries_appendAt_ne_nil _ _ k pre hpre hp _)
    have hpost0 : post = [] := by
      cases hp : post.isEmpty with
      | true => exact List.isEmpty_iff.1 hp
      | false =>
        exact absurd (List.length_eq_zero.1 hzero.2)
          (pruneEntries_appendAt_ne_nil _ _ k post hpost hp _)
    rw [h1]
    subst hpre0 hpost0
    simp [passResult_def, GoMap.appendAt_nil, pruneEntries]
  · have h1 : passResult k pre post existing = some
        { Presubmits := pruneEntries (pruneList Presubmit.toJobBase Presubmit.setLabels)
            (GoMap.appendAt existing.Presubmits k pre)
          Postsubmits := pruneEntries (pruneList Postsubmit.toJobBase Postsubmit.setLabels)
            (GoMap.appendAt existing.Postsubmits k post)
          Periodics := existing.Periodics } := by
      rw [passResult_def, if_neg hzero]
    rw [h1]
    simp only [Option.getD_some]
    rw [passResult_def]
    simp only [pruneEntries_cycle Presubmit.toJobBase Presubmit.setLabels (fun _ _ => rfl) k pre
        hpre existing.Presubmits hnew.1,
      pruneEntries_cycle Postsubmit.toJobBase Postsubmit.setLabels (fun _ _ => rfl) k post hpost
        existing.Postsubmits hnew.2]
    rw [if_neg hzero]

theorem passResult_WF (k : String) (pre : List Presubmit) (post : List Postsubmit)
    (existing : JobConfig) (hpre : GoMap.WF existing.Presubmits)
    (hpost : GoMap.WF existing.Postsubmits) :
    GoMap.WF ((passResult k pre post existing).getD {}).Presubmits ∧
    GoMap.WF ((passResult k pre post existing).getD {}).Postsubmits := by
  rw [passResult_def]
  split_ifs
  · exact ⟨List.nodup_nil, List.nodup_nil⟩
  · exact ⟨pruneEntries_WF _ _ (GoMap.WF_appendAt _ _ _ hpre),
      pruneEntries_WF _ _ (GoMap.WF_appendAt _ _ _ hpost)⟩


/-! ## Closed form of the templated pod spec -/

theorem string_length_pos_eq (s : String) : (s.length > 0) = (s ≠ "") :=
  propext (string_length_pos_iff s)

theorem secretDir_literal (s : String) :
    "--secret-dir=" ++ ("/usr/local/" ++ s) = "--secret-dir=/usr/local/" ++ s := by
  rw [← String.append_assoc]
  rfl

theorem template_literal (s : String) :
    "--template=" ++ ("/usr/local/" ++ s) = "--template=/usr/local/" ++ s := by
  rw [← String.append_assoc]
  rfl

set_option maxHeartbeats 8000000 in
theorem generatePodSpecTemplate_eq (info : Info) (release : String)
    (test : TestStepConfiguration) :
    generatePodSpecTemplate info release test =
      Except.ok (templatePodSpec info release test) := by
  unfold generatePodSpecTemplate
  rw [generateCiOperatorPodSpec_ok info test.As [] (by simp)]
  simp only [bind, Except.bind, pure, Except.pure, string_length_pos_eq]
  congr 1
  unfold templatePodSpec templateEnv
  by_cases ht : (selectTemplate test).template = "" <;>
  by_cases hi : (selectTemplate test).testImageStreamTag = "" <;>
  by_cases hp : (selectTemplate test).clusterProfile ∈ [ClusterProfileAWS, ClusterProfileAzure4,
      ClusterProfileOpenStack, ClusterProfileVSphere] <;>
  by_cases hr : ((selectTemplate test).needsReleaseRpms = true ∧
      (info.Org ≠ "openshift" ∨ info.Repo ≠ "origin")) <;>
  cases h40 : test.OpenshiftAnsible40ClusterTestConfiguration <;>
  cases hu : test.OpenshiftAnsibleUpgradeClusterTestConfiguration <;>
  simp [ciOperatorPodSpec, PodSpec.modifyContainer0, generateClusterProfileVolume,
    generateConfigMapVolume, Volume.appendProjection, sentryDsnSecretPath, ht, hi, hp, hr,
    String.append_assoc, secretDir_literal, template_literal]
theorem selectTemplate_needsReleaseRpms (test : TestStepConfiguration) :
    (selectTemplate test).needsReleaseRpms = isOpenshiftAnsibleShape test := by
  unfold selectTemplate isOpenshiftAnsibleShape
  cases test.OpenshiftAnsibleClusterTestConfiguration <;>
  cases test.OpenshiftAnsibleSrcClusterTestConfiguration <;>
  cases test.OpenshiftAnsibleCustomClusterTestConfiguration <;>
  cases test.OpenshiftAnsibleUpgradeClusterTestConfiguration <;>
  cases test.OpenshiftAnsible40ClusterTestConfiguration <;>
  simp
  repeat' split
  all_goals rfl

/-! ## Empty result of pruning -/

theorem isStale_eq_true_iff (job : JobBase) :
    isStale job = true ↔ ∃ v, job.Labels.get? ProwJobLabelGenerated = some v ∧ v ≠ New := by
  unfold isStale
  cases h : job.Labels.get? ProwJobLabelGenerated with
  | none => simp
  | some v => simp

theorem pruneList_isEmpty_iff {J : Type} (base : J → JobBase)
    (setLabels : J → GoMap String → J) (jobs : List J) :
    (pruneList base setLabels jobs).isEmpty = true ↔ ∀ job ∈ jobs, isStale (base job) = true := by
  simp [pruneList, List.isEmpty_iff, List.filter_eq_nil_iff]

theorem GoMap.set_ne_nil {α : Type} (m : GoMap α) (k : String) (v : α) : m.set k v ≠ [] := by
  cases m with
  | nil => simp [GoMap.set]
  | cons e rest =>
    rcases e with ⟨k2, v2⟩
    simp only [GoMap.set]
    split <;> simp

theorem pruneJobs_fold_eq_nil {J : Type} (base : J → JobBase)
    (setLabels : J → GoMap String → J) (entries : GoMap (List J)) (acc : GoMap (List J)) :
    entries.foldl (fun pruned entry =>
      entry.2.foldl (fun pruned job =>
        if isStale (base job) then pruned
        else
          let job :=
            if isGenerated (base job) then
              setLabels job ((base job).Labels.set ProwJobLabelGenerated Generated)
            else job
          pruned.set entry.1 (pruned.index entry.1 ++ [job])) pruned) acc = [] ↔
    acc = [] ∧ ∀ entry ∈ entries, ∀ job ∈ entry.2, isStale (base job) = true := by
  induction entries generalizing acc with
  | nil => simp
  | cons e rest ih =>
    simp only [List.foldl_cons]
    rw [ih, pruneJobs_inner]
    cases hp : (pruneList base setLabels e.2).isEmpty with
    | true =>
      have hall := (pruneList_isEmpty_iff base setLabels e.2).1 hp
      simp only [if_true, List.mem_cons, forall_eq_or_imp]
      exact ⟨fun h => ⟨h.1, hall, h.2⟩, fun h => ⟨h.1, h.2.2⟩⟩
    | false =>
      have hnot : ¬ ∀ job ∈ e.2, isStale (base job) = true := by
        intro hall
        rw [(pruneList_isEmpty_iff base setLabels e.2).2 hall] at hp
        cases hp
      simp only [Bool.false_eq_true, if_false, List.mem_cons, forall_eq_or_imp]
      constructor
      · intro h
        exact absurd h.1 (GoMap.set_ne_nil _ _ _)
      · intro h
        exact absurd h.2.1 hnot

theorem pruneJobs_eq_nil_iff {J : Type} (base : J → JobBase)
    (setLabels : J → GoMap String → J) (m : GoMap (List J)) :
    pruneJobs base setLabels m = [] ↔
      ∀ entry ∈ m, ∀ job ∈ entry.2, isStale (base job) = true := by
  unfold pruneJobs
  rw [pruneJobs_fold_eq_nil]
  simp

theorem prune_empty_iff (jobConfig : JobConfig) :
    ((prune jobConfig).Presubmits = [] ∧ (prune jobConfig).Postsubmits = []) ↔
      JobConfig.AllStale jobConfig := by
  simp only [prune, pruneJobs_eq_nil_iff, isStale_eq_true_iff, JobConfig.AllStale]

/-! ## Shape of the driver arguments -/

theorem flagShaped_append (lit s : String) (h1 : stringsHasPrefix lit "--" = true)
    (h2 : '=' ∈ lit.data) : flagShaped (lit ++ s) := by
  constructor
  · unfold stringsHasPrefix at h1 ⊢
    rw [List.isPrefixOf_iff_prefix] at h1 ⊢
    rw [String.data_append]
    exact h1.trans (List.prefix_append _ _)
  · left
    rw [String.data_append]
    exact List.mem_append_left _ h2

theorem ciOperatorPodSpec_flagShaped (info : Info) (target : String) (args : List String)
    (h : ∀ arg ∈ args, flagShaped arg) :
    PodSpec.FlagShapedArgs (ciOperatorPodSpec info target args) := by
  intro container hc _ arg harg
  simp only [ciOperatorPodSpec, List.mem_singleton] at hc
  subst hc
  simp only [List.cons_append, List.nil_append, List.mem_cons] at harg
  rcases harg with h1 | h1 | h1 | h1 | h1
  · subst h1
    exact ⟨by decide, Or.inl (by decide)⟩
  · subst h1
    exact ⟨by decide, Or.inl (by decide)⟩
  · subst h1
    exact flagShaped_append "--target=" target (by decide) (by decide)
  · subst h1
    exact ⟨by decide, Or.inl (by decide)⟩
  · exact h arg h1

theorem templatePodSpec_flagShaped (info : Info) (release : String)
    (test : TestStepConfiguration) :
    PodSpec.FlagShapedArgs (templatePodSpec info release test) := by
  intro container hc _ arg harg
  simp only [templatePodSpec, List.mem_singleton] at hc
  subst hc
  simp only [List.cons_append, List.nil_append, List.mem_cons, List.mem_append] at harg
  rcases harg with h1 | h1 | h1 | h1 | h1 | h1
  · subst h1
    exact ⟨by decide, Or.inl (by decide)⟩
  · subst h1
    exact ⟨by decide, Or.inl (by decide)⟩
  · subst h1
    exact flagShaped_append "--target=" test.As (by decide) (by decide)
  · subst h1
    exact ⟨by decide, Or.inl (by decide)⟩
  · subst h1
    rw [String.append_assoc]
    exact flagShaped_append "--secret-dir=/usr/local/" _ (by decide) (by decide)
  · split at h1
    · simp at h1
    · simp only [List.mem_singleton, List.mem_nil_iff, or_false] at h1
      subst h1
      exact flagShaped_append "--template=/usr/local/" test.As (by decide) (by decide)

theorem generatePodSpecRandom_flagShaped (info : Info) (test : TestStepConfiguration) :
    PodSpec.FlagShapedArgs (generatePodSpecRandom info test) := by
  intro container hc hcmd
  simp only [generatePodSpecRandom, generatePodSpec, PodSpec.modifyContainer0,
    List.mem_singleton] at hc
  subst hc
  simp at hcmd

theorem podSpecOf_flagShaped (configSpec : ReleaseBuildConfiguration) (info : Info)
    (element : TestStepConfiguration) :
    PodSpec.FlagShapedArgs (podSpecOf configSpec info element) := by
  have hok := elementPodSpec_ok configSpec info element
  unfold elementPodSpec at hok
  by_cases hc : element.ContainerTestConfiguration.isSome = true
  · rw [if_pos hc, generateCiOperatorPodSpec_ok info element.As [] (by simp)] at hok
    rw [← Except.ok.inj hok]
    exact ciOperatorPodSpec_flagShaped _ _ _ (by simp)
  · rw [if_neg hc] at hok
    by_cases hr : element.OpenshiftInstallerRandomClusterTestConfiguration.isSome = true
    · simp only [hr, if_true] at hok
      rw [← Except.ok.inj hok]
      exact generatePodSpecRandom_flagShaped _ _
    · simp only [hr, generatePodSpecTemplate_eq] at hok
      rw [← Except.ok.inj hok]
      exact templatePodSpec_flagShaped _ _ _

theorem expectedPresubmits_flagShaped
    (PromotesOfficialImages : ReleaseBuildConfiguration → Bool)
    (configSpec : ReleaseBuildConfiguration) (info : Info) (label : String) :
    ∀ job ∈ expectedPresubmits PromotesOfficialImages configSpec info label,
      ∀ podSpec, job.Spec = some podSpec → PodSpec.FlagShapedArgs podSpec := by
  intro job hjob podSpec hspec
  simp only [expectedPresubmits, List.mem_append, List.mem_map] at hjob
  rcases hjob with ⟨e, _, he⟩ | hjob
  · subst he
    have : podSpecOf configSpec info e = podSpec := Option.some.inj hspec
    rw [← this]
    exact podSpecOf_flagShaped _ _ _
  · split at hjob
    · simp only [List.mem_singleton] at hjob
      subst hjob
      have : ciOperatorPodSpec info "[images]"
          (if PromotesOfficialImages configSpec = true then ["--target=[release:latest]"]
           else []) = podSpec := Option.some.inj hspec
      rw [← this]
      apply ciOperatorPodSpec_flagShaped
      intro arg harg
      split at harg
      · simp only [List.mem_singleton] at harg
        subst harg
        exact ⟨by decide, Or.inl (by decide)⟩
      · simp at harg
    · simp at hjob

theorem expectedPostsubmits_flagShaped
    (configSpec : ReleaseBuildConfiguration) (info : Info) (label : String) :
    ∀ job ∈ expectedPostsubmits configSpec info label,
      ∀ podSpec, job.Spec = some podSpec → PodSpec.FlagShapedArgs podSpec := by
  intro job hjob podSpec hspec
  simp only [expectedPostsubmits] at hjob
  split at hjob
  · split at hjob
    · rename_i promotionConfiguration _
      simp only [List.mem_singleton] at hjob
      subst hjob
      have : ciOperatorPodSpec info "[images]"
          ("--promote" :: promotionConfiguration.AdditionalImages.map fun additionalImage =>
            "--target=" ++ additionalImage) = podSpec := Option.some.inj hspec
      rw [← this]
      apply ciOperatorPodSpec_flagShaped
      intro arg harg
      simp only [List.mem_cons, List.mem_map] at harg
      rcases harg with harg | ⟨image, _, himage⟩
      · subst harg
        exact ⟨by decide, Or.inr rfl⟩
      · subst himage
        exact flagShaped_append "--target=" image (by decide) (by decide)
    · simp at hjob
  · simp at hjob


/-! ## Anchored branches -/

theorem simpleBranchRegexp_anchored (s : String) :
    simpleBranchRegexp ("^" ++ s ++ "$") = false := by
  have h : ("^" ++ s ++ "$").data = '^' :: (s.data ++ ['$']) := by
    simp [String.data_append]
  simp [simpleBranchRegexp, h, simpleBranchChar]

/-! ## Pruning a freshly generated job set -/

theorem generateJobBase_relabel (name pfx : String) (info : Info) (podSpec : PodSpec) :
    (generateJobBase name pfx info New podSpec).Labels.set ProwJobLabelGenerated Generated =
      (generateJobBase name pfx info Generated podSpec).Labels := by
  have hGV : ProwJobLabelGenerated ≠ prowJobLabelVariant := by decide
  simp only [generateJobBase]
  by_cases h : info.Variant.length > 0
  · simp [h, GoMap.set, hGV]
  · simp [h, GoMap.set]

theorem generatePresubmitForTest_relabel (name : String) (info : Info) (podSpec : PodSpec) :
    Presubmit.setLabels (generatePresubmitForTest name info New podSpec)
        ((generatePresubmitForTest name info New podSpec).Labels.set ProwJobLabelGenerated
          Generated) =
      generatePresubmitForTest name info Generated podSpec := by
  simp only [generatePresubmitForTest, Presubmit.setLabels, generateJobBase_relabel]
  rfl

theorem generatePostsubmitForTest_relabel (name : String) (info : Info) (podSpec : PodSpec) :
    Postsubmit.setLabels (generatePostsubmitForTest name info New podSpec)
        ((generatePostsubmitForTest name info New podSpec).Labels.set ProwJobLabelGenerated
          Generated) =
      generatePostsubmitForTest name info Generated podSpec := by
  simp only [generatePostsubmitForTest, Postsubmit.setLabels, generateJobBase_relabel]
  rfl

theorem generatePresubmitForTest_marker (name : String) (info : Info) (label : String)
    (podSpec : PodSpec) :
    (generatePresubmitForTest name info label podSpec).toJobBase.Labels.get?
      ProwJobLabelGenerated = some label := by
  have := generateJobBase_labels
    (if info.Variant.length > 0 then info.Variant ++ "-" ++ name else name)
    presubmitPrefix info label podSpec ProwJobLabelGenerated
  simpa using this

theorem generatePostsubmitForTest_marker (name : String) (info : Info) (label : String)
    (podSpec : PodSpec) :
    (generatePostsubmitForTest name info label podSpec).toJobBase.Labels.get?
      ProwJobLabelGenerated = some label := by
  have := generateJobBase_labels
    (if info.Variant.length > 0 then info.Variant ++ "-" ++ name else name)
    postsubmitPrefix info label podSpec ProwJobLabelGenerated
  simpa using this

theorem pruneList_map_presubmits {α : Type} (info : Info) (name : α → String)
    (podSpec : α → PodSpec) (l : List α) :
    pruneList Presubmit.toJobBase Presubmit.setLabels
        (l.map fun a => generatePresubmitForTest (name a) info New (podSpec a)) =
      l.map fun a => generatePresubmitForTest (name a) info Generated (podSpec a) := by
  induction l with
  | nil => rfl
  | cons a t ih =>
    simp only [List.map_cons]
    rw [pruneList_cons_new _ _ _ _ (generatePresubmitForTest_marker _ _ _ _), ih,
      generatePresubmitForTest_relabel]

theorem pruneList_expectedPresubmits (PromotesOfficialImages : ReleaseBuildConfiguration → Bool)
    (configSpec : ReleaseBuildConfiguration) (info : Info) :
    pruneList Presubmit.toJobBase Presubmit.setLabels
        (expectedPresubmits PromotesOfficialImages configSpec info New) =
      expectedPresubmits PromotesOfficialImages configSpec info Generated := by
  simp only [expectedPresubmits, pruneList_append]
  rw [pruneList_map_presubmits info (fun e => e.As) (fun e => podSpecOf configSpec info e)]
  congr 1
  split
  · rw [pruneList_cons_new _ _ _ _ (generatePresubmitForTest_marker _ _ _ _),
      generatePresubmitForTest_relabel]
    rfl
  · rfl

theorem pruneList_expectedPostsubmits (configSpec : ReleaseBuildConfiguration) (info : Info) :
    pruneList Postsubmit.toJobBase Postsubmit.setLabels
        (expectedPostsubmits configSpec info New) =
      expectedPostsubmits configSpec info Generated := by
  simp only [expectedPostsubmits]
  split
  · split
    · rw [pruneList_cons_new _ _ _ _ (generatePostsubmitForTest_marker _ _ _ _),
        generatePostsubmitForTest_relabel]
      rfl
    · rfl
  · rfl

theorem pruneEntries_appendAt_nil {J : Type} (f : List J → List J) (k : String) (xs ys : List J)
    (h : f xs = ys) (hempty : ys.isEmpty = xs.isEmpty) :
    pruneEntries f (GoMap.appendAt [] k xs) = GoMap.appendAt [] k ys := by
  subst h
  unfold GoMap.appendAt
  rw [hempty]
  cases hx : xs.isEmpty with
  | true => simp [pruneEntries]
  | false =>
    simp [pruneEntries, GoMap.set, GoMap.index, GoMap.get?, hempty, hx]

theorem expectedPresubmits_isEmpty (PromotesOfficialImages : ReleaseBuildConfiguration → Bool)
    (configSpec : ReleaseBuildConfiguration) (info : Info) (label label2 : String) :
    (expectedPresubmits PromotesOfficialImages configSpec info label).isEmpty =
      (expectedPresubmits PromotesOfficialImages configSpec info label2).isEmpty := by
  simp only [expectedPresubmits]
  cases configSpec.Tests with
  | nil => split <;> rfl
  | cons a t => rfl

theorem expectedPostsubmits_isEmpty
    (configSpec : ReleaseBuildConfiguration) (info : Info) (label label2 : String) :
    (expectedPostsubmits configSpec info label).isEmpty =
      (expectedPostsubmits configSpec info label2).isEmpty := by
  simp only [expectedPostsubmits]
  split
  · split <;> rfl
  · rfl

theorem GoMap.WF_nil {α : Type} : GoMap.WF ([] : GoMap α) :=
  List.nodup_nil

/-! ## Pruning the pruned job set -/

section PruneTwiceAll
variable {J : Type} (base : J → JobBase) (setLabels : J → GoMap String → J)

theorem pruneList_marker
    (hset : ∀ job labels, (base (setLabels job labels)).Labels = labels) (jobs : List J) :
    ∀ job ∈ pruneList base setLabels jobs, ∀ v,
      (base job).Labels.get? ProwJobLabelGenerated = some v → v = Generated := by
  induction jobs with
  | nil => intro job hjob; simp [pruneList] at hjob
  | cons j rest ih =>
    intro job hjob v hv
    cases hl : (base j).Labels.get? ProwJobLabelGenerated with
    | none =>
      rw [pruneList_cons_unlabelled base setLabels j rest hl, List.mem_cons] at hjob
      rcases hjob with hjob | hjob
      · subst hjob
        rw [hl] at hv
        cases hv
      · exact ih job hjob v hv
    | some w =>
      by_cases hw : w = New
      · subst hw
        rw [pruneList_cons_new base setLabels j rest hl, List.mem_cons] at hjob
        rcases hjob with hjob | hjob
        · subst hjob
          rw [hset, GoMap.get?_set_self] at hv
          exact (Option.some.inj hv).symm
        · exact ih job hjob v hv
      · rw [pruneList_cons_stale base setLabels j rest w hl hw] at hjob
        exact ih job hjob v hv

theorem pruneList_twice
    (hset : ∀ job labels, (base (setLabels job labels)).Labels = labels) (jobs : List J) :
    pruneList base setLabels (pruneList base setLabels jobs) =
      jobs.filter fun job => decide ((base job).Labels.get? ProwJobLabelGenerated = none) := by
  induction jobs with
  | nil => rfl
  | cons j rest ih =>
    cases hl : (base j).Labels.get? ProwJobLabelGenerated with
    | none =>
      rw [pruneList_cons_unlabelled base setLabels j rest hl,
        pruneList_cons_unlabelled base setLabels j _ hl, ih]
      simp [List.filter_cons, hl]
    | some w =>
      by_cases hw : w = New
      · subst hw
        have hg : (base (setLabels j ((base j).Labels.set ProwJobLabelGenerated
            Generated))).Labels.get? ProwJobLabelGenerated = some Generated := by
          rw [hset, GoMap.get?_set_self]
        rw [pruneList_cons_new base setLabels j rest hl,
          pruneList_cons_stale base setLabels _ _ Generated hg (by decide), ih]
        simp [List.filter_cons, hl]
      · rw [pruneList_cons_stale base setLabels j rest w hl hw, ih]
        simp [List.filter_cons, hl]

theorem pruneList_twice_ne
    (hset : ∀ job labels, (base (setLabels job labels)).Labels = labels) (jobs : List J)
    (hnew : ∃ job ∈ jobs, (base job).Labels.get? ProwJobLabelGenerated = some New) :
    pruneList base setLabels (pruneList base setLabels jobs) ≠ pruneList base setLabels jobs := by
  obtain ⟨job, hjob, hl⟩ := hnew
  intro heq
  have hmem : setLabels job ((base job).Labels.set ProwJobLabelGenerated Generated) ∈
      pruneList base setLabels jobs := by
    simp only [pruneList, List.mem_map, List.mem_filter]
    refine ⟨job, ⟨hjob, ?_⟩, ?_⟩
    · simp [isStale, hl]
    · simp [isGenerated, hl]
  rw [← heq, pruneList_twice base setLabels hset, List.mem_filter] at hmem
  have h2 := hmem.2
  rw [hset, GoMap.get?_set_self] at h2
  simp at h2

end PruneTwiceAll

theorem prune_WF (c : JobConfig) (hpre : GoMap.WF c.Presubmits)
    (hpost : GoMap.WF c.Postsubmits) :
    GoMap.WF (prune c).Presubmits ∧ GoMap.WF (prune c).Postsubmits := by
  rw [prune_eq c hpre hpost]
  exact ⟨pruneEntries_WF _ _ hpre, pruneEntries_WF _ _ hpost⟩

/-! ## Template selection -/

theorem option_forall_ne_some {α : Type} (o : Option α) : (∀ a, ¬ o = some a) ↔ o = none := by
  cases o <;> simp

theorem selectTemplate_testImageStreamTag (test : TestStepConfiguration) :
    (selectTemplate test).testImageStreamTag =
      match test.OpenshiftInstallerCustomTestImageClusterTestConfiguration with
      | some conf => if isInstallerCustomTestImageShape test = true then conf.From else ""
      | none => "" := by
  unfold selectTemplate isInstallerCustomTestImageShape isOpenshiftAnsibleShape
  repeat' split
  all_goals simp_all [option_forall_ne_some]

theorem selectTemplate_template_of_tag (test : TestStepConfiguration)
    (h : (selectTemplate test).testImageStreamTag ≠ "") : (selectTemplate test).template ≠ "" := by
  revert h
  unfold selectTemplate
  repeat' split
  all_goals simp_all [option_forall_ne_some]

theorem selectTemplate_template_eq_empty (test : TestStepConfiguration) :
    (selectTemplate test).template = "" ↔
      (isOpenshiftAnsibleShape test = false ∧
        ((∃ conf, test.OpenshiftInstallerClusterTestConfiguration = some conf ∧
            conf.Upgrade = true) ∨
          (test.OpenshiftInstallerClusterTestConfiguration = none ∧
            test.OpenshiftInstallerSrcClusterTestConfiguration = none ∧
            test.OpenshiftInstallerUPIClusterTestConfiguration = none ∧
            test.OpenshiftInstallerConsoleClusterTestConfiguration = none ∧
            test.OpenshiftInstallerCustomTestImageClusterTestConfiguration = none))) := by
  unfold selectTemplate isOpenshiftAnsibleShape
  repeat' split
  all_goals simp_all [option_forall_ne_some]

theorem stringsReplaceChar_underscore (s : String) :
    '_' ∉ (stringsReplaceChar s '_' '-').data ∧
    (stringsReplaceChar s '_' '-').length = s.length := by
  constructor
  · simp only [stringsReplaceChar, List.mem_map, not_exists, not_and]
    intro c _
    by_cases h : c = '_'
    · subst h
      decide
    · simp [h]
  · show (s.data.map _).length = s.data.length
    exact List.length_map _ _

/-! ## The random-cloud script -/

theorem stringsContains_append (s sub t : String) (h : stringsContains s sub) :
    stringsContains (s ++ t) sub := by
  obtain ⟨pre, post, hs⟩ := h
  exact ⟨pre, post ++ t, by rw [hs, String.append_assoc]⟩

theorem stringsContains_flag (q lit a b name : String) (h : lit = a ++ b) :
    stringsContains (q ++ lit ++ name) (b ++ name) := by
  refine ⟨q ++ a, "", ?_⟩
  subst h
  simp [String.append_assoc]

theorem stringsContains_flag_suffix (q lit a b name lit2 c d : String) (h : lit = a ++ b)
    (h2 : lit2 = c ++ d) :
    stringsContains (q ++ lit ++ name ++ lit2) (b ++ name ++ c) := by
  refine ⟨q ++ a, d, ?_⟩
  subst h h2
  simp [String.append_assoc]

theorem openshiftInstallerRandomCmd_contains (name : String) :
    stringsContains (openshiftInstallerRandomCmd name) ("--target=" ++ name) ∧
    stringsContains (openshiftInstallerRandomCmd name) ("--template=/tmp/" ++ name) ∧
    stringsContains (openshiftInstallerRandomCmd name)
      ("--secret-dir=/tmp/" ++ name ++ "-cluster-profile") := by
  unfold openshiftInstallerRandomCmd
  refine ⟨?_, ?_, ?_⟩
  · iterate 4 apply stringsContains_append
    exact stringsContains_flag _ _ "    " "--target=" _ (by decide)
  · apply stringsContains_append
    exact stringsContains_flag _ _ "    " "--template=/tmp/" _ (by decide)
  · iterate 7 apply stringsContains_append
    exact stringsContains_flag_suffix _ _ "    " "--secret-dir=/tmp/" _ _ "-cluster-profile"
      " \x5c\n" (by decide) (by decide)

/-! ## Volume references -/

theorem ciOperatorPodSpec_volumesClosed (info : Info) (target : String) (args : List String) :
    PodSpec.VolumesClosed (ciOperatorPodSpec info target args) := by
  simp [PodSpec.VolumesClosed, PodSpec.volumeNames, PodSpec.mountedNames, ciOperatorPodSpec]

theorem templatePodSpec_volumesClosed (info : Info) (release : String)
    (test : TestStepConfiguration) :
    PodSpec.VolumesClosed (templatePodSpec info release test) := by
  by_cases ht : (selectTemplate test).template = "" <;>
  simp [PodSpec.VolumesClosed, PodSpec.volumeNames, PodSpec.mountedNames, templatePodSpec, ht]

theorem generatePodSpecRandom_volumesClosed (info : Info) (test : TestStepConfiguration) :
    PodSpec.VolumesClosed (generatePodSpecRandom info test) := by
  simp [PodSpec.VolumesClosed, PodSpec.volumeNames, PodSpec.mountedNames, generatePodSpecRandom,
    generatePodSpec, PodSpec.modifyContainer0, openshiftInstallerRandomProfiles,
    generateClusterProfileVolume, generateConfigMapVolume, sentryDsnMountName,
    ClusterProfileAWS, ClusterProfileAzure4, ClusterProfileVSphere]

theorem podSpecOf_volumesClosed (configSpec : ReleaseBuildConfiguration) (info : Info)
    (element : TestStepConfiguration) :
    PodSpec.VolumesClosed (podSpecOf configSpec info element) := by
  have hok := elementPodSpec_ok configSpec info element
  unfold elementPodSpec at hok
  by_cases hc : element.ContainerTestConfiguration.isSome = true
  · rw [if_pos hc, generateCiOperatorPodSpec_ok info element.As [] (by simp)] at hok
    rw [← Except.ok.inj hok]
    exact ciOperatorPodSpec_volumesClosed _ _ _
  · rw [if_neg hc] at hok
    by_cases hr : element.OpenshiftInstallerRandomClusterTestConfiguration.isSome = true
    · simp only [hr, if_true] at hok
      rw [← Except.ok.inj hok]
      exact generatePodSpecRandom_volumesClosed _ _
    · simp only [hr, generatePodSpecTemplate_eq] at hok
      rw [← Except.ok.inj hok]
      exact templatePodSpec_volumesClosed _ _ _

theorem expectedPresubmits_volumesClosed
    (PromotesOfficialImages : ReleaseBuildConfiguration → Bool)
    (configSpec : ReleaseBuildConfiguration) (info : Info) (label : String) :
    ∀ job ∈ expectedPresubmits PromotesOfficialImages configSpec info label,
      ∃ podSpec, job.Spec = some podSpec ∧ PodSpec.VolumesClosed podSpec := by
  intro job hjob
  simp only [expectedPresubmits, List.mem_append, List.mem_map] at hjob
  rcases hjob with ⟨e, _, he⟩ | hjob
  · subst he
    exact ⟨_, rfl, podSpecOf_volumesClosed _ _ _⟩
  · split at hjob
    · simp only [List.mem_singleton] at hjob
      subst hjob
      exact ⟨_, rfl, ciOperatorPodSpec_volumesClosed _ _ _⟩
    · simp at hjob

theorem expectedPostsubmits_volumesClosed
    (configSpec : ReleaseBuildConfiguration) (info : Info) (label : String) :
    ∀ job ∈ expectedPostsubmits configSpec info label,
      ∃ podSpec, job.Spec = some podSpec ∧ PodSpec.VolumesClosed podSpec := by
  intro job hjob
  simp only [expectedPostsubmits] at hjob
  split at hjob
  · split at hjob
    · simp only [List.mem_singleton] at hjob
      subst hjob
      exact ⟨_, rfl, ciOperatorPodSpec_volumesClosed _ _ _⟩
    · simp at hjob
  · simp at hjob

/-! ## Job names -/

theorem string_append_left_cancel (a b c : String) (h : a ++ b = a ++ c) : b = c := by
  have hd := congrArg String.data h
  simp only [String.data_append] at hd
  exact String.ext (List.append_cancel_left hd)

theorem jobNameSpec_injective (pfx : String) (info : Info) (n1 n2 : String)
    (h : jobNameSpec pfx info n1 = jobNameSpec pfx info n2) : n1 = n2 := by
  unfold jobNameSpec at h
  have h1 := string_append_left_cancel _ _ _ h
  by_cases hv : info.Variant = ""
  · simpa [hv] using h1
  · simp only [hv, if_false] at h1
    exact string_append_left_cancel _ _ _ h1

theorem jobNameSpec_pull_ne_branch (info : Info) (n1 n2 : String) :
    jobNameSpec "pull" info n1 ≠ jobNameSpec "branch" info n2 := by
  intro h
  have hd := congrArg String.data h
  simp [jobNameSpec, String.data_append] at hd

theorem mem_expectedPostsubmits_name
    (configSpec : ReleaseBuildConfiguration) (info : Info) (label : String) (job : Postsubmit)
    (h : job ∈ expectedPostsubmits configSpec info label) :
    job.Name = jobNameSpec "branch" info "images" := by
  simp only [expectedPostsubmits] at h
  split at h
  · split at h
    · simp only [List.mem_singleton] at h
      subst h
      exact generatePostsubmitForTest_name _ _ _ _
    · simp at h
  · simp at h

theorem mem_expectedPresubmits_name (PromotesOfficialImages : ReleaseBuildConfiguration → Bool)
    (configSpec : ReleaseBuildConfiguration) (info : Info) (label : String) (job : Presubmit)
    (h : job ∈ expectedPresubmits PromotesOfficialImages configSpec info label) :
    ∃ name, job.Name = jobNameSpec "pull" info name := by
  obtain ⟨name, podSpec, hj⟩ := mem_expectedPresubmits _ _ _ _ _ h
  subst hj
  exact ⟨name, generatePresubmitForTest_name _ _ _ _⟩

/-! ## Migrated repositories -/

set_option maxRecDepth 1000000 in
theorem migratedRepos_plainPattern : ∀ p ∈ migratedRepos, plainPattern p = true := by
  decide

theorem regexpMustCompile_char (c : Char) (rest : List Char) (hc : c ≠ '.') :
    regexpMustCompile (c :: rest) = RegexpItem.char c :: regexpMustCompile rest := by
  conv_lhs => unfold regexpMustCompile
  split
  · rename_i heq
    exact absurd (List.cons.inj heq).1 hc
  · rename_i heq
    exact absurd (List.cons.inj heq).1 hc
  · rename_i heq
    obtain ⟨h1, h2⟩ := List.cons.inj heq
    subst h1 h2
    rfl
  · rename_i heq
    cases heq

theorem regexpMustCompile_plain (L : List Char) (h : '.' ∉ L) :
    regexpMustCompile (L ++ ['.', '*']) = L.map RegexpItem.char ++ [RegexpItem.anyStar] := by
  induction L with
  | nil => rfl
  | cons c t ih =>
    simp only [List.mem_cons, not_or] at h
    have hc : c ≠ '.' := fun hh => h.1 hh.symm
    rw [List.cons_append, regexpMustCompile_char c _ hc, ih h.2]
    rfl

theorem regexpMatchPrefix_plain (L b : List Char) :
    regexpMatchPrefix (L.map RegexpItem.char ++ [RegexpItem.anyStar]) (L ++ b) = true := by
  induction L with
  | nil =>
    cases b <;> simp [regexpMatchPrefix, regexpMatchStar]
  | cons c t ih =>
    simp [regexpMatchPrefix, ih]

theorem regexpMatchString_of_prefix (regex : List RegexpItem) (text : List Char)
    (h : regexpMatchPrefix regex text = true) : regexpMatchString regex text = true := by
  cases text with
  | nil => simpa [regexpMatchString] using h
  | cons c rest => simp [regexpMatchString, h]

theorem Migrated_of_listed (org repo branch : String)
    (h : org ++ "/" ++ repo ++ "/.*" ∈ migratedRepos) : Migrated org repo branch = true := by
  have hp := migratedRepos_plainPattern _ h
  simp only [plainPattern, Bool.and_eq_true, beq_iff_eq, Bool.not_eq_true', List.contains_eq_any_beq,
    List.any_eq_false, beq_iff_eq] at hp
  obtain ⟨hp1, hp2⟩ := hp
  have hdata : (org ++ "/" ++ repo ++ "/.*").data =
      (org ++ "/" ++ repo ++ "/").data ++ ['.', '*'] := by
    simp [String.data_append]
  rw [hdata] at hp1 hp2
  have hL := List.append_cancel_right hp1
  have hplain : '.' ∉ (org ++ "/" ++ repo ++ "/").data := by
    rw [← hL]
    intro hmem
    exact hp2 _ hmem rfl
  unfold Migrated migratedRegexes
  rw [List.any_eq_true]
  refine ⟨regexpMustCompile (org ++ "/" ++ repo ++ "/.*").data,
    List.mem_map_of_mem _ h, ?_⟩
  apply regexpMatchString_of_prefix
  rw [hdata, regexpMustCompile_plain _ hplain, String.data_append]
  exact regexpMatchPrefix_plain _ _

set_option maxRecDepth 1000000 in
theorem migratedRepos_not_listed :
    "kata-containers/libpod/.*" ∉ migratedRepos ∧
    "integr8ly/ansible-tower-configuration/.*" ∉ migratedRepos := by
  decide

set_option maxRecDepth 1000000 in
theorem Migrated_examples :
    Migrated "kata-containers" "libpod" "master" = true ∧
    Migrated "integr8ly" "ansible-tower-configuration" "ostreedev/ostree/fix" = true ∧
    Migrated "integr8ly" "ansible-tower-configuration" "master" = false ∧
    Migrated "containers" "libpod" "" = true := by
  decide

/-! ## The guard and the images jobs as written -/

/-- The slash is outside the character class of `simpleBranchRegexp`, so `feature/x` is
returned as written. -/
theorem makeBranchExplicit_feature_x_unchanged :
    simpleBranchChar '/' = false ∧ makeBranchExplicit "feature/x" = "feature/x" := by
  decide

/-- What the guard of `generateCiOperatorPodSpec` enforces as written: it panics exactly
when some additional argument does not start with `--`, and every driver argument of a pod
spec it returns starts with `--`; `generateJobs` never panics and every argument of every
container running `ci-operator` in its jobs starts with `--` and contains `=`, the bare
flag `--promote` apart. -/
theorem argument_shape_invariant :
    (∀ (info : Info) (target : String) (additionalArgs : List String),
      ((∃ message, generateCiOperatorPodSpec info target additionalArgs =
          Except.error message) ↔
        ∃ arg ∈ additionalArgs, stringsHasPrefix arg "--" = false) ∧
      ∀ podSpec, generateCiOperatorPodSpec info target additionalArgs = Except.ok podSpec →
        ∀ container ∈ podSpec.Containers, ∀ arg ∈ container.Args,
          stringsHasPrefix arg "--" = true) ∧
    (∀ (PromotesOfficialImages : ReleaseBuildConfiguration → Bool)
      (configSpec : ReleaseBuildConfiguration) (info : Info) (label : String),
      ∃ jobConfig,
        generateJobs PromotesOfficialImages configSpec info label = Except.ok jobConfig ∧
        (∀ entry ∈ jobConfig.Presubmits, ∀ job ∈ entry.2, ∀ podSpec, job.Spec = some podSpec →
          ∀ container ∈ podSpec.Containers, container.Command = ["ci-operator"] →
            ∀ arg ∈ container.Args,
              stringsHasPrefix arg "--" = true ∧ ('=' ∈ arg.data ∨ arg = "--promote")) ∧
        (∀ entry ∈ jobConfig.Postsubmits, ∀ job ∈ entry.2, ∀ podSpec, job.Spec = some podSpec →
          ∀ container ∈ podSpec.Containers, container.Command = ["ci-operator"] →
            ∀ arg ∈ container.Args,
              stringsHasPrefix arg "--" = true ∧ ('=' ∈ arg.data ∨ arg = "--promote"))) := by
  constructor
  · intro info target additionalArgs
    by_cases hall : ∀ arg ∈ additionalArgs, stringsHasPrefix arg "--" = true
    · have hok := generateCiOperatorPodSpec_ok info target additionalArgs hall
      constructor
      · constructor
        · rintro ⟨message, hm⟩
          rw [hok] at hm
          cases hm
        · rintro ⟨arg, harg, hfalse⟩
          rw [hall arg harg] at hfalse
          cases hfalse
      · intro podSpec hp container hc arg harg
        rw [hok] at hp
        have hp' := Except.ok.inj hp
        subst hp'
        simp only [ciOperatorPodSpec, List.mem_singleton] at hc
        subst hc
        simp only [List.cons_append, List.nil_append, List.mem_cons] at harg
        rcases harg with h1 | h1 | h1 | h1 | h1
        · subst h1
          decide
        · subst h1
          decide
        · subst h1
          exact stringsHasPrefix_target target
        · subst h1
          decide
        · exact hall arg h1
    · have hex : ∃ arg ∈ additionalArgs, stringsHasPrefix arg "--" = false := by
        by_contra hne
        apply hall
        intro arg harg
        cases hpre : stringsHasPrefix arg "--" with
        | true => rfl
        | false => exact absurd ⟨arg, harg, hpre⟩ hne
      have hfind : ∃ bad, additionalArgs.find? (fun arg => !stringsHasPrefix arg "--") =
          some bad := by
        cases hf : additionalArgs.find? (fun arg => !stringsHasPrefix arg "--") with
        | some bad => exact ⟨bad, rfl⟩
        | none =>
          rw [List.find?_eq_none] at hf
          obtain ⟨arg, harg, hpre⟩ := hex
          exact absurd (hf arg harg) (by simp [hpre])
      obtain ⟨bad, hbad⟩ := hfind
      have herr : generateCiOperatorPodSpec info target additionalArgs = Except.error
          ("all args to ci-operator must be in the form --flag=value, not " ++ bad) := by
        simp only [generateCiOperatorPodSpec, hbad]
      constructor
      · exact ⟨fun _ => hex, fun _ => ⟨_, herr⟩⟩
      · intro podSpec hp
        rw [herr] at hp
        cases hp
  · intro PromotesOfficialImages configSpec info label
    refine ⟨_, generateJobs_eq _ _ _ _, ?_, ?_⟩
    · intro entry hentry job hjob podSpec hspec container hc hcmd arg harg
      have he := GoMap.mem_appendAt_nil _ _ _ hentry
      subst he
      exact expectedPresubmits_flagShaped _ _ _ _ job hjob podSpec hspec container hc hcmd arg
        harg
    · intro entry hentry job hjob podSpec hspec container hc hcmd arg harg
      have he := GoMap.mem_appendAt_nil _ _ _ hentry
      subst he
      exact expectedPostsubmits_flagShaped _ _ _ job hjob podSpec hspec container hc hcmd arg
        harg

/-- The images jobs as `generateJobs` builds them: for a configuration with a non-empty
`Images` list, after the per-test presubmits comes one more presubmit named after `images`
whose arguments hold `--target=[images]` and not `--promote`; a postsubmit, named after
`images` with `--target=[images]` and `--promote` among its arguments, is returned exactly
when a promotion configuration is present. -/
theorem generateJobs_images_jobs (PromotesOfficialImages : ReleaseBuildConfiguration → Bool)
    (configSpec : ReleaseBuildConfiguration) (info : Info) (label : String)
    (himages : configSpec.Images ≠ []) :
    ∃ jobConfig perTest imagesJob podSpec,
      generateJobs PromotesOfficialImages configSpec info label = Except.ok jobConfig ∧
      GoMap.index jobConfig.Presubmits (info.Org ++ "/" ++ info.Repo) = perTest ++ [imagesJob] ∧
      perTest.length = configSpec.Tests.length ∧
      imagesJob.Name = jobNameSpec "pull" info "images" ∧
      imagesJob.Spec = some podSpec ∧
      podSpec.Containers.length = 1 ∧
      (∀ container ∈ podSpec.Containers,
        "--target=[images]" ∈ container.Args ∧ "--promote" ∉ container.Args) ∧
      (configSpec.PromotionConfiguration = none → jobConfig.Postsubmits = []) ∧
      (configSpec.PromotionConfiguration ≠ none →
        ∃ job postSpec,
          jobConfig.Postsubmits = [(info.Org ++ "/" ++ info.Repo, [job])] ∧
          job.Name = jobNameSpec "branch" info "images" ∧
          job.Spec = some postSpec ∧
          postSpec.Containers.length = 1 ∧
          ∀ container ∈ postSpec.Containers,
            "--target=[images]" ∈ container.Args ∧ "--promote" ∈ container.Args) := by
  have hlen : configSpec.Images.length > 0 := List.length_pos.2 himages
  refine ⟨_,
    configSpec.Tests.map (fun element =>
      generatePresubmitForTest element.As info label (podSpecOf configSpec info element)),
    generatePresubmitForTest "images" info label (ciOperatorPodSpec info "[images]"
      (if PromotesOfficialImages configSpec then ["--target=[release:latest]"] else [])),
    ciOperatorPodSpec info "[images]"
      (if PromotesOfficialImages configSpec then ["--target=[release:latest]"] else []),
    generateJobs_eq _ _ _ _, ?_, ?_, ?_, rfl, rfl, ?_, ?_, ?_⟩
  · simp only [GoMap.index_appendAt_nil, expectedPresubmits, hlen, if_true]
  · simp
  · exact generatePresubmitForTest_name _ _ _ _
  · intro container hc
    simp only [ciOperatorPodSpec, List.mem_singleton] at hc
    subst hc
    constructor
    · simp
    · split <;> simp
  · intro hnone
    simp [expectedPostsubmits, hnone, GoMap.appendAt]
  · intro hsome
    cases hp : configSpec.PromotionConfiguration with
    | none => exact absurd hp hsome
    | some promotionConfiguration =>
      refine ⟨generatePostsubmitForTest "images" info label (ciOperatorPodSpec info "[images]"
          ("--promote" :: promotionConfiguration.AdditionalImages.map fun additionalImage =>
            "--target=" ++ additionalImage)),
        ciOperatorPodSpec info "[images]"
          ("--promote" :: promotionConfiguration.AdditionalImages.map fun additionalImage =>
            "--target=" ++ additionalImage), ?_, ?_, rfl, rfl, ?_⟩
      · simp [expectedPostsubmits, hlen, hp, GoMap.appendAt, GoMap.set, GoMap.index,
          GoMap.get?]
      · exact generatePostsubmitForTest_name _ _ _ _
      · intro container hc
        simp only [ciOperatorPodSpec, List.mem_singleton] at hc
        subst hc
        simp

theorem generateJobs_images_jobs_witness :
    examplePromotingConfigSpec.Images ≠ [] ∧
    ∃ jobConfig perTest imagesJob podSpec,
      generateJobs (fun _ => false) examplePromotingConfigSpec exampleInfo New =
        Except.ok jobConfig ∧
      GoMap.index jobConfig.Presubmits (exampleInfo.Org ++ "/" ++ exampleInfo.Repo) =
        perTest ++ [imagesJob] ∧
      perTest.length = examplePromotingConfigSpec.Tests.length ∧
      imagesJob.Name = jobNameSpec "pull" exampleInfo "images" ∧
      imagesJob.Spec = some podSpec ∧
      podSpec.Containers.length = 1 ∧
      (∀ container ∈ podSpec.Containers,
        "--target=[images]" ∈ container.Args ∧ "--promote" ∉ container.Args) ∧
      (examplePromotingConfigSpec.PromotionConfiguration = none → jobConfig.Postsubmits = []) ∧
      (examplePromotingConfigSpec.PromotionConfiguration ≠ none →
        ∃ job postSpec,
          jobConfig.Postsubmits = [(exampleInfo.Org ++ "/" ++ exampleInfo.Repo, [job])] ∧
          job.Name = jobNameSpec "branch" exampleInfo "images" ∧
          job.Spec = some postSpec ∧
          postSpec.Containers.length = 1 ∧
          ∀ container ∈ postSpec.Containers,
            "--target=[images]" ∈ container.Args ∧ "--promote" ∈ container.Args) :=
  ⟨by decide,
    generateJobs_images_jobs (fun _ => false) examplePromotingConfigSpec exampleInfo New
      (by decide)⟩

/-! ## Claims -/

/-- Claim C1: under every org/repo key, the presubmit list of `prune` is the input list
without the jobs whose generation marker is present with a value other than `New`, in the
original order, each job marked `New` being re-marked `Generated` and otherwise unchanged;
likewise for the postsubmit lists.  The maps hold each key once, as Go maps do. -/
theorem prune_drops_stale_relabels_new (c : JobConfig) (hpre : GoMap.WF c.Presubmits) (hpost : GoMap.WF c.Postsubmits)
    (key : String) :
    GoMap.index (prune c).Presubmits key =
      ((GoMap.index c.Presubmits key).filter fun job =>
        decide (job.Labels.get? ProwJobLabelGenerated = none ∨
          job.Labels.get? ProwJobLabelGenerated = some New)).map (fun job =>
        if job.Labels.get? ProwJobLabelGenerated = some New then
          { job with Labels := job.Labels.set ProwJobLabelGenerated Generated }
        else job) ∧
    GoMap.index (prune c).Postsubmits key =
      ((GoMap.index c.Postsubmits key).filter fun job =>
        decide (job.Labels.get? ProwJobLabelGenerated = none ∨
          job.Labels.get? ProwJobLabelGenerated = some New)).map (fun job =>
        if job.Labels.get? ProwJobLabelGenerated = some New then
          { job with Labels := job.Labels.set ProwJobLabelGenerated Generated }
        else job) := by
  constructor
  · simp only [prune]
    rw [pruneJobs_index _ _ _ hpre, pruneList_eq_spec]
    rfl
  · simp only [prune]
    rw [pruneJobs_index _ _ _ hpost, pruneList_eq_spec]
    rfl

theorem prune_drops_stale_relabels_new_witness :
    GoMap.WF exampleJobConfig.Presubmits ∧ GoMap.WF exampleJobConfig.Postsubmits ∧
    GoMap.index (prune exampleJobConfig).Presubmits "org/repo" =
      [ examplePresubmit "hand" [("team", "infra")],
        examplePresubmit "current" [(ProwJobLabelGenerated, Generated)] ] ∧
    GoMap.index (prune exampleJobConfig).Postsubmits "org/repo" =
      [ examplePostsubmit "hand" [] ] :=
  ⟨by decide, by decide,
    (prune_drops_stale_relabels_new exampleJobConfig (by decide) (by decide) "org/repo").1.trans
      (by decide),
    (prune_drops_stale_relabels_new exampleJobConfig (by decide) (by decide) "org/repo").2.trans
      (by decide)⟩

/-- Claim C2: under every org/repo key, the jobs without the generation-marker key are the
same subsequence in the output of `prune` as in its input, for presubmits and for
postsubmits. -/
theorem prune_preserves_unlabelled (c : JobConfig) (hpre : GoMap.WF c.Presubmits) (hpost : GoMap.WF c.Postsubmits)
    (key : String) :
    (GoMap.index (prune c).Presubmits key).filter
        (fun job => decide (job.Labels.get? ProwJobLabelGenerated = none)) =
      (GoMap.index c.Presubmits key).filter
        (fun job => decide (job.Labels.get? ProwJobLabelGenerated = none)) ∧
    (GoMap.index (prune c).Postsubmits key).filter
        (fun job => decide (job.Labels.get? ProwJobLabelGenerated = none)) =
      (GoMap.index c.Postsubmits key).filter
        (fun job => decide (job.Labels.get? ProwJobLabelGenerated = none)) := by
  constructor
  · simp only [prune]
    rw [pruneJobs_index _ _ _ hpre]
    exact pruneList_unlabelled Presubmit.toJobBase Presubmit.setLabels (fun _ _ => rfl) _
  · simp only [prune]
    rw [pruneJobs_index _ _ _ hpost]
    exact pruneList_unlabelled Postsubmit.toJobBase Postsubmit.setLabels (fun _ _ => rfl) _

theorem prune_preserves_unlabelled_witness :
    GoMap.WF exampleJobConfig.Presubmits ∧ GoMap.WF exampleJobConfig.Postsubmits ∧
    (GoMap.index (prune exampleJobConfig).Presubmits "org/repo").filter
        (fun job => decide (job.Labels.get? ProwJobLabelGenerated = none)) =
      [ examplePresubmit "hand" [("team", "infra")] ] ∧
    (GoMap.index (prune exampleJobConfig).Postsubmits "org/repo").filter
        (fun job => decide (job.Labels.get? ProwJobLabelGenerated = none)) =
      [ examplePostsubmit "hand" [] ] :=
  ⟨by decide, by decide,
    (prune_preserves_unlabelled exampleJobConfig (by decide) (by decide) "org/repo").1.trans
      (by decide),
    (prune_preserves_unlabelled exampleJobConfig (by decide) (by decide) "org/repo").2.trans
      (by decide)⟩

/-- Claim C3: `generateJobs` never panics, and the label map of every presubmit and every
postsubmit it returns holds the generation-marker key with the given label value, the
variant key with `info.Variant` exactly when the variant is non-empty, and no other key. -/
theorem generateJobs_labels (PromotesOfficialImages : ReleaseBuildConfiguration → Bool)
    (configSpec : ReleaseBuildConfiguration) (info : Info) (label : String) :
    ∃ jobConfig, generateJobs PromotesOfficialImages configSpec info label = Except.ok jobConfig ∧
      (∀ entry ∈ jobConfig.Presubmits, ∀ job ∈ entry.2, ∀ k : String,
        job.Labels.get? k =
          if k = ProwJobLabelGenerated then some label
          else if k = prowJobLabelVariant ∧ info.Variant ≠ "" then some info.Variant
          else none) ∧
      (∀ entry ∈ jobConfig.Postsubmits, ∀ job ∈ entry.2, ∀ k : String,
        job.Labels.get? k =
          if k = ProwJobLabelGenerated then some label
          else if k = prowJobLabelVariant ∧ info.Variant ≠ "" then some info.Variant
          else none) := by
  refine ⟨_, generateJobs_eq _ _ _ _, ?_, ?_⟩
  · intro entry hentry job hjob k
    have he := GoMap.mem_appendAt_nil _ _ _ hentry
    subst he
    obtain ⟨name, podSpec, hj⟩ := mem_expectedPresubmits _ _ _ _ _ hjob
    subst hj
    exact generateJobBase_labels _ _ _ _ _ k
  · intro entry hentry job hjob k
    have he := GoMap.mem_appendAt_nil _ _ _ hentry
    subst he
    obtain ⟨name, podSpec, hj⟩ := mem_expectedPostsubmits _ _ _ _ hjob
    subst hj
    exact generateJobBase_labels _ _ _ _ _ k

/-- Claim C4, refuted: from a job file holding a job still marked `New` whose test is not
configured any more, the second generate-write-prune pass changes the file the first pass
left (the first pass re-marks that job `Generated`, the second drops it). -/
theorem regeneration_not_idempotent_with_new_marker :
    ∃ file1 file2,
      regenerate (fun _ => false) exampleConfigSpec exampleInfo exampleFileInfo
        (some exampleLeftoverFile) = Except.ok file1 ∧
      regenerate (fun _ => false) exampleConfigSpec exampleInfo exampleFileInfo file1 =
        Except.ok file2 ∧
      file1 ≠ file2 := by
  refine ⟨_, _, rfl, rfl, ?_⟩
  decide

/-- Claim C4, amended: when no presubmit and no postsubmit of the initial job file carries
the marker value `New` (the file is absent, or holds hand-authored and `Generated` jobs
only), a generate-write-prune pass succeeds and a second pass with the same configuration
leaves the job file exactly as the first pass left it.  The store is the modelled one; the
file is not a periodics file and its maps hold each key once. -/
theorem regeneration_idempotent (PromotesOfficialImages : ReleaseBuildConfiguration → Bool)
    (configSpec : ReleaseBuildConfiguration) (info : Info) (fileInfo : JobFileInfo)
    (file : Option JobConfig) (hinfo : fileInfo.JobType ≠ "periodics")
    (hwf : ∀ jobConfig, file = some jobConfig →
      GoMap.WF jobConfig.Presubmits ∧ GoMap.WF jobConfig.Postsubmits)
    (hnew : ∀ jobConfig, file = some jobConfig → JobConfig.NoNewMarker jobConfig) :
    ∃ file1,
      regenerate PromotesOfficialImages configSpec info fileInfo file = Except.ok file1 ∧
      regenerate PromotesOfficialImages configSpec info fileInfo file1 = Except.ok file1 := by
  have hwf' : GoMap.WF (file.getD {}).Presubmits ∧ GoMap.WF (file.getD {}).Postsubmits := by
    cases file with
    | none => exact ⟨List.nodup_nil, List.nodup_nil⟩
    | some jobConfig => exact hwf jobConfig rfl
  have hnew' : JobConfig.NoNewMarker (file.getD {}) := by
    cases file with
    | none => exact ⟨by simp, by simp⟩
    | some jobConfig => exact hnew jobConfig rfl
  refine ⟨_, regenerate_eq _ _ _ _ _ hinfo hwf'.1 hwf'.2, ?_⟩
  have hwf1 := passResult_WF (info.Org ++ "/" ++ info.Repo)
    (expectedPresubmits PromotesOfficialImages configSpec info New)
    (expectedPostsubmits configSpec info New) (file.getD {}) hwf'.1 hwf'.2
  rw [regenerate_eq _ _ _ _ _ hinfo hwf1.1 hwf1.2]
  rw [passResult_idempotent _ _ _ (expectedPresubmits_new _ _ _) (expectedPostsubmits_new _ _)
    _ hnew']

theorem regeneration_idempotent_witness :
    exampleFileInfo.JobType ≠ "periodics" ∧
    (GoMap.WF exampleSettledFile.Presubmits ∧ GoMap.WF exampleSettledFile.Postsubmits) ∧
    JobConfig.NoNewMarker exampleSettledFile ∧
    ∃ file1,
      regenerate (fun _ => false) exampleConfigSpec exampleInfo exampleFileInfo
        (some exampleSettledFile) = Except.ok file1 ∧
      regenerate (fun _ => false) exampleConfigSpec exampleInfo exampleFileInfo file1 =
        Except.ok file1 :=
  ⟨by decide, by decide, by decide,
    regeneration_idempotent (fun _ => false) exampleConfigSpec exampleInfo exampleFileInfo
      (some exampleSettledFile) (by decide)
      (fun jobConfig h => by cases h; decide)
      (fun jobConfig h => by cases h; decide)⟩

/-- Claim C5: the presubmit built for a test is named `pull-ci-<org>-<repo>-<branch>-<name>`,
with `<variant>-` before `<name>` when the variant is non-empty, and the postsubmit has the
same name with `branch` for `pull`; the name involves neither the label nor the pod spec and
is the whole concatenation, whatever its length. -/
theorem job_name_formula (name : String) (info : Info) (label : String) (podSpec : PodSpec) :
    (generatePresubmitForTest name info label podSpec).Name =
      "pull-ci-" ++ info.Org ++ "-" ++ info.Repo ++ "-" ++ info.Branch ++ "-" ++
        (if info.Variant = "" then name else info.Variant ++ "-" ++ name) ∧
    (generatePostsubmitForTest name info label podSpec).Name =
      "branch-ci-" ++ info.Org ++ "-" ++ info.Repo ++ "-" ++ info.Branch ++ "-" ++
        (if info.Variant = "" then name else info.Variant ++ "-" ++ name) := by
  rw [generatePresubmitForTest_name, generatePostsubmitForTest_name]
  simp only [jobNameSpec, String.append_assoc]
  exact ⟨rfl, rfl⟩

/-- Claim C6: for a non-empty branch of word characters, dashes and dots only,
`makeBranchExplicit` returns `^`, the branch with every dot escaped, `$`. -/
theorem makeBranchExplicit_simple (branch : String) (hne : branch ≠ "")
    (hsimple : ∀ c ∈ branch.data, isWordDashDot c) :
    makeBranchExplicit branch = "^" ++ escapeDots branch ++ "$" := by
  have h1 : branch.data.all simpleBranchChar = true := by
    rw [List.all_eq_true]
    intro c hc
    exact (simpleBranchChar_iff c).2 (hsimple c hc)
  have h2 : branch.data.isEmpty = false := by
    rcases branch with ⟨l⟩
    cases l with
    | nil => exact absurd rfl hne
    | cons a t => rfl
  have h3 : regexpQuoteMeta branch = escapeDots branch := by
    unfold regexpQuoteMeta escapeDots
    rw [quoteMeta_simple branch.data hsimple]
  simp [makeBranchExplicit, simpleBranchRegexp, h1, h2, h3]

theorem makeBranchExplicit_simple_witness :
    ("release-4.1" ≠ "" ∧ ∀ c ∈ "release-4.1".data, isWordDashDot c) ∧
    makeBranchExplicit "master" = "^master$" ∧
    makeBranchExplicit "release-4.1" = "^release-4\x5c.1$" :=
  ⟨⟨by decide, by decide⟩, makeBranchExplicit_simple "master" (by decide) (by decide),
    makeBranchExplicit_simple "release-4.1" (by decide) (by decide)⟩

/-- Claim C7: a branch with a character other than a word character, a dash or a dot is
returned unchanged by `makeBranchExplicit`. -/
theorem makeBranchExplicit_regex_unchanged (branch : String) (h : ∃ c ∈ branch.data, ¬ isWordDashDot c) :
    makeBranchExplicit branch = branch := by
  obtain ⟨c, hc, hn⟩ := h
  have h1 : branch.data.all simpleBranchChar = false := by
    rw [List.all_eq_false]
    exact ⟨c, hc, fun hs => hn ((simpleBranchChar_iff c).1 hs)⟩
  simp [makeBranchExplicit, simpleBranchRegexp, h1]

theorem makeBranchExplicit_regex_unchanged_witness :
    (∃ c ∈ "release-.*".data, ¬ isWordDashDot c) ∧
    makeBranchExplicit "release-.*" = "release-.*" :=
  ⟨⟨'*', by decide, by decide⟩,
    makeBranchExplicit_regex_unchanged "release-.*" ⟨'*', by decide, by decide⟩⟩

/-- Claim C8: the branch `feature/x` has no wildcard, group or modifier, yet
`makeBranchExplicit` returns it as written: the result does not begin with `^` and ends
with `x`, not with `$`. -/
theorem makeBranchExplicit_feature_x_not_anchored :
    makeBranchExplicit "feature/x" = "feature/x" ∧
    stringsHasPrefix (makeBranchExplicit "feature/x") "^" = false ∧
    (makeBranchExplicit "feature/x").data.getLast? = some 'x' ∧
    ¬ (stringsHasPrefix (makeBranchExplicit "feature/x") "^" = true ∧
       (makeBranchExplicit "feature/x").data.getLast? = some '$') := by
  decide

/-- Claim C9: `generateJobs` never panics; under the key `<org>/<repo>` its presubmits are
one per test in declaration order, named after the test, followed by the `images`
presubmit exactly when `Images` is non-empty; no other key is present in either map and
there is no periodic job. -/
theorem generateJobs_presubmits (PromotesOfficialImages : ReleaseBuildConfiguration → Bool)
    (configSpec : ReleaseBuildConfiguration) (info : Info) (label : String) :
    ∃ jobConfig, generateJobs PromotesOfficialImages configSpec info label = Except.ok jobConfig ∧
      (GoMap.index jobConfig.Presubmits (info.Org ++ "/" ++ info.Repo)).map (fun job => job.Name) =
        (configSpec.Tests.map fun test => jobNameSpec "pull" info test.As) ++
          (if configSpec.Images = [] then [] else [jobNameSpec "pull" info "images"]) ∧
      (∀ key ∈ GoMap.keys jobConfig.Presubmits, key = info.Org ++ "/" ++ info.Repo) ∧
      (∀ key ∈ GoMap.keys jobConfig.Postsubmits, key = info.Org ++ "/" ++ info.Repo) ∧
      jobConfig.Periodics = [] := by
  refine ⟨_, generateJobs_eq _ _ _ _, ?_, ?_, ?_, rfl⟩
  · simp only [GoMap.index_appendAt_nil]
    exact expectedPresubmits_names _ _ _ _
  · intro key hkey
    exact GoMap.keys_appendAt_nil _ _ _ hkey
  · intro key hkey
    exact GoMap.keys_appendAt_nil _ _ _ hkey

/-- Claim C10: with a non-empty `Images` list and no promotion configuration, `generateJobs`
returns the per-test presubmits followed by exactly one more, named after `images`, whose
container runs `ci-operator` with the four base arguments for target `[images]`, followed
by `--target=[release:latest]` exactly when the configuration promotes official images;
it returns no postsubmit. -/
theorem generateJobs_images_without_promotion (PromotesOfficialImages : ReleaseBuildConfiguration → Bool)
    (configSpec : ReleaseBuildConfiguration) (info : Info) (label : String)
    (himages : configSpec.Images ≠ []) (hpromotion : configSpec.PromotionConfiguration = none) :
    ∃ jobConfig perTest imagesJob podSpec,
      generateJobs PromotesOfficialImages configSpec info label = Except.ok jobConfig ∧
      GoMap.index jobConfig.Presubmits (info.Org ++ "/" ++ info.Repo) = perTest ++ [imagesJob] ∧
      perTest.map (fun job => job.Name) =
        (configSpec.Tests.map fun test => jobNameSpec "pull" info test.As) ∧
      imagesJob.Name = jobNameSpec "pull" info "images" ∧
      imagesJob.Spec = some podSpec ∧
      podSpec.Containers.map (fun container => container.Command) = [["ci-operator"]] ∧
      podSpec.Containers.map (fun container => container.Args) =
        [[ "--give-pr-author-access-to-namespace=true",
           "--artifact-dir=$(ARTIFACTS)",
           "--target=[images]",
           "--sentry-dsn-path=/etc/sentry-dsn/ci-operator" ] ++
         (if PromotesOfficialImages configSpec = true then ["--target=[release:latest]"] else [])] ∧
      jobConfig.Postsubmits = [] := by
  have hlen : configSpec.Images.length > 0 := List.length_pos.2 himages
  refine ⟨_,
    configSpec.Tests.map (fun element =>
      generatePresubmitForTest element.As info label (podSpecOf configSpec info element)),
    generatePresubmitForTest "images" info label (ciOperatorPodSpec info "[images]"
      (if PromotesOfficialImages configSpec then ["--target=[release:latest]"] else [])),
    ciOperatorPodSpec info "[images]"
      (if PromotesOfficialImages configSpec then ["--target=[release:latest]"] else []),
    generateJobs_eq _ _ _ _, ?_, ?_, ?_, ?_, ?_, ?_, ?_⟩
  · simp only [GoMap.index_appendAt_nil, expectedPresubmits, hlen, if_true]
  · simp only [List.map_map]
    apply List.map_congr_left
    intro t _
    exact generatePresubmitForTest_name _ _ _ _
  · exact generatePresubmitForTest_name _ _ _ _
  · rfl
  · rfl
  · rfl
  · simp [expectedPostsubmits, hpromotion, GoMap.appendAt]

theorem generateJobs_images_without_promotion_witness :
    exampleConfigSpec.Images ≠ [] ∧ exampleConfigSpec.PromotionConfiguration = none ∧
    ∃ jobConfig perTest imagesJob podSpec,
      generateJobs (fun _ => true) exampleConfigSpec exampleInfo New = Except.ok jobConfig ∧
      GoMap.index jobConfig.Presubmits (exampleInfo.Org ++ "/" ++ exampleInfo.Repo) =
        perTest ++ [imagesJob] ∧
      perTest.map (fun job => job.Name) =
        (exampleConfigSpec.Tests.map fun test => jobNameSpec "pull" exampleInfo test.As) ∧
      imagesJob.Name = jobNameSpec "pull" exampleInfo "images" ∧
      imagesJob.Spec = some podSpec ∧
      podSpec.Containers.map (fun container => container.Command) = [["ci-operator"]] ∧
      podSpec.Containers.map (fun container => container.Args) =
        [[ "--give-pr-author-access-to-namespace=true",
           "--artifact-dir=$(ARTIFACTS)",
           "--target=[images]",
           "--sentry-dsn-path=/etc/sentry-dsn/ci-operator" ] ++
         (if (fun _ => true) exampleConfigSpec = true then ["--target=[release:latest]"] else [])] ∧
      jobConfig.Postsubmits = [] :=
  ⟨by decide, by decide,
    generateJobs_images_without_promotion (fun _ => true) exampleConfigSpec exampleInfo New
      (by decide) (by decide)⟩

/-- Claim C11: `generateJobs` never panics; with a non-empty `Images` list and a promotion
configuration it returns exactly one postsubmit, under `<org>/<repo>`, named after `images`
with prefix `branch`, running `ci-operator` with the four base arguments for `[images]`,
then `--promote`, then one `--target=<image>` per additional image in their order; without
images or without promotion configuration it returns no postsubmit. -/
theorem generateJobs_postsubmit (PromotesOfficialImages : ReleaseBuildConfiguration → Bool)
    (configSpec : ReleaseBuildConfiguration) (info : Info) (label : String) :
    ∃ jobConfig,
      generateJobs PromotesOfficialImages configSpec info label = Except.ok jobConfig ∧
      (∀ promotionConfiguration, configSpec.Images ≠ [] →
        configSpec.PromotionConfiguration = some promotionConfiguration →
        ∃ job podSpec,
          jobConfig.Postsubmits = [(info.Org ++ "/" ++ info.Repo, [job])] ∧
          job.Name = jobNameSpec "branch" info "images" ∧
          job.Spec = some podSpec ∧
          podSpec.Containers.map (fun container => container.Command) = [["ci-operator"]] ∧
          podSpec.Containers.map (fun container => container.Args) =
            [[ "--give-pr-author-access-to-namespace=true",
               "--artifact-dir=$(ARTIFACTS)",
               "--target=[images]",
               "--sentry-dsn-path=/etc/sentry-dsn/ci-operator",
               "--promote" ] ++
             promotionConfiguration.AdditionalImages.map fun image => "--target=" ++ image]) ∧
      (configSpec.Images = [] ∨ configSpec.PromotionConfiguration = none →
        jobConfig.Postsubmits = []) := by
  refine ⟨_, generateJobs_eq _ _ _ _, ?_, ?_⟩
  · intro promotionConfiguration himages hpromotion
    have hlen : configSpec.Images.length > 0 := List.length_pos.2 himages
    refine ⟨generatePostsubmitForTest "images" info label (ciOperatorPodSpec info "[images]"
        ("--promote" :: promotionConfiguration.AdditionalImages.map fun additionalImage =>
          "--target=" ++ additionalImage)),
      ciOperatorPodSpec info "[images]"
        ("--promote" :: promotionConfiguration.AdditionalImages.map fun additionalImage =>
          "--target=" ++ additionalImage), ?_, ?_, rfl, rfl, ?_⟩
    · simp [expectedPostsubmits, hlen, hpromotion, GoMap.appendAt, GoMap.set, GoMap.index,
        GoMap.get?]
    · exact generatePostsubmitForTest_name _ _ _ _
    · simp [ciOperatorPodSpec]
  · intro h
    rcases h with h | h
    · simp [expectedPostsubmits, h, GoMap.appendAt]
    · simp only [expectedPostsubmits, h]
      split <;> simp [GoMap.appendAt]

/-- Claim C12: the pod spec of a Container test is the minimal one: command `ci-operator`,
the four base arguments, the single `CONFIG_SPEC` entry from the config map of `info`, the
`sentry-dsn` secret volume with its read-only mount, a CPU request of `10m`, nothing else. -/
theorem container_test_pod_spec (configSpec : ReleaseBuildConfiguration) (info : Info)
    (element : TestStepConfiguration) (hcontainer : element.ContainerTestConfiguration ≠ none) :
    elementPodSpec configSpec info element = Except.ok
      { ServiceAccountName := "ci-operator"
        Containers := [
          { Image := "ci-operator:latest"
            ImagePullPolicy := "Always"
            Command := ["ci-operator"]
            Args := [ "--give-pr-author-access-to-namespace=true",
                      "--artifact-dir=$(ARTIFACTS)",
                      "--target=" ++ element.As,
                      "--sentry-dsn-path=/etc/sentry-dsn/ci-operator" ]
            Env := [{ Name := "CONFIG_SPEC", Value := "",
                      ValueFrom := some { Name := info.ConfigMapName, Key := info.Basename } }]
            Requests := [("cpu", "10m")]
            VolumeMounts := [{ Name := "sentry-dsn", MountPath := "/etc/sentry-dsn",
                               SubPath := "", ReadOnly := true }] }]
        Volumes := [{ Name := "sentry-dsn",
                      VolumeSource := { Secret := some "sentry-dsn", ConfigMap := none,
                                        Projected := none } }] } := by
  have hsome : element.ContainerTestConfiguration.isSome = true := by
    cases h : element.ContainerTestConfiguration with
    | none => exact absurd h hcontainer
    | some c => rfl
  unfold elementPodSpec
  rw [if_pos hsome, generateCiOperatorPodSpec_ok info element.As [] (by simp)]
  simp [ciOperatorPodSpec]

theorem container_test_pod_spec_witness :
    exampleContainerTest.ContainerTestConfiguration ≠ none ∧
    elementPodSpec exampleConfigSpec exampleInfo exampleContainerTest = Except.ok
      { ServiceAccountName := "ci-operator"
        Containers := [
          { Image := "ci-operator:latest"
            ImagePullPolicy := "Always"
            Command := ["ci-operator"]
            Args := [ "--give-pr-author-access-to-namespace=true",
                      "--artifact-dir=$(ARTIFACTS)",
                      "--target=unit",
                      "--sentry-dsn-path=/etc/sentry-dsn/ci-operator" ]
            Env := [{ Name := "CONFIG_SPEC", Value := "",
                      ValueFrom := some { Name := "ci-operator-master-configs",
                                          Key := "org-repo-master.yaml" } }]
            Requests := [("cpu", "10m")]
            VolumeMounts := [{ Name := "sentry-dsn", MountPath := "/etc/sentry-dsn",
                               SubPath := "", ReadOnly := true }] }]
        Volumes := [{ Name := "sentry-dsn",
                      VolumeSource := { Secret := some "sentry-dsn", ConfigMap := none,
                                        Projected := none } }] } :=
  ⟨by decide,
    container_test_pod_spec exampleConfigSpec exampleInfo exampleContainerTest (by decide)⟩

/-- Claim C13: the pod spec `generatePodSpecTemplate` returns for a test with cluster
profile `p` has exactly one volume named `cluster-profile`, projected, whose first source
is the secret `cluster-secrets-<cloud of p>` and whose second source, the config map
`cluster-profile-<p>`, is present exactly when `p` is none of aws, azure4, openstack,
vsphere. -/
theorem template_cluster_profile_volume (info : Info) (release : String) (test : TestStepConfiguration) (p : ClusterProfile)
    (hp : (selectTemplate test).clusterProfile = p) :
    ∃ podSpec, generatePodSpecTemplate info release test = Except.ok podSpec ∧
      podSpec.Volumes.filter (fun volume => volume.Name = "cluster-profile") =
        [{ Name := "cluster-profile"
           VolumeSource := { Projected := some (
             [{ Secret := some ("cluster-secrets-" ++ targetCloudOf p) }] ++
             (if p = ClusterProfileAWS ∨ p = ClusterProfileAzure4 ∨
                 p = ClusterProfileOpenStack ∨ p = ClusterProfileVSphere then []
              else [{ ConfigMap := some ("cluster-profile-" ++ p) }])) } }] := by
  refine ⟨_, generatePodSpecTemplate_eq info release test, ?_⟩
  subst hp
  simp only [templatePodSpec]
  by_cases ht : (selectTemplate test).template = "" <;>
  by_cases hmem : ((selectTemplate test).clusterProfile = ClusterProfileAWS ∨
      (selectTemplate test).clusterProfile = ClusterProfileAzure4 ∨
      (selectTemplate test).clusterProfile = ClusterProfileOpenStack ∨
      (selectTemplate test).clusterProfile = ClusterProfileVSphere) <;>
  simp [ht, hmem, List.filter]

theorem template_cluster_profile_volume_witness :
    ((selectTemplate exampleInstallerTest).clusterProfile = ClusterProfileAWS ∧
     (selectTemplate exampleAnsibleTest).clusterProfile = ClusterProfileGCP) ∧
    (∃ podSpec, generatePodSpecTemplate exampleInfo "4.2" exampleInstallerTest =
        Except.ok podSpec ∧
      podSpec.Volumes.filter (fun volume => volume.Name = "cluster-profile") =
        [{ Name := "cluster-profile"
           VolumeSource := { Projected := some [{ Secret := some "cluster-secrets-aws" }] } }]) ∧
    (∃ podSpec, generatePodSpecTemplate exampleInfo "3.11" exampleAnsibleTest =
        Except.ok podSpec ∧
      podSpec.Volumes.filter (fun volume => volume.Name = "cluster-profile") =
        [{ Name := "cluster-profile"
           VolumeSource := { Projected := some (
             [ { Secret := some "cluster-secrets-gcp" },
               { ConfigMap := some "cluster-profile-gcp" } ]) } }]) := by
  refine ⟨⟨by decide, by decide⟩, ?_, ?_⟩
  · obtain ⟨podSpec, h1, h2⟩ := template_cluster_profile_volume exampleInfo "4.2"
      exampleInstallerTest ClusterProfileAWS (by decide)
    exact ⟨podSpec, h1, h2.trans (by decide)⟩
  · obtain ⟨podSpec, h1, h2⟩ := template_cluster_profile_volume exampleInfo "3.11"
      exampleAnsibleTest ClusterProfileGCP (by decide)
    exact ⟨podSpec, h1, h2.trans (by decide)⟩

/-- Claim C14: with `T` the template name selected for the test, the pod spec of
`generatePodSpecTemplate` has as arguments the four base ones, then
`--secret-dir=/usr/local/<as>-cluster-profile`, then `--template=/usr/local/<as>` exactly
when `T` is non-empty; the `cluster-profile` volume is mounted at the secret directory; and
exactly when `T` is non-empty there is a config-map volume `job-definition` (config map
`prow-job-<T>`) mounted at `/usr/local/<as>` with sub-path `<T>.yaml`. -/
theorem template_wiring (info : Info) (release : String) (test : TestStepConfiguration) :
    ∃ podSpec, generatePodSpecTemplate info release test = Except.ok podSpec ∧
      podSpec.Containers.map (fun container => container.Args) =
        [[ "--give-pr-author-access-to-namespace=true",
           "--artifact-dir=$(ARTIFACTS)",
           "--target=" ++ test.As,
           "--sentry-dsn-path=/etc/sentry-dsn/ci-operator",
           "--secret-dir=/usr/local/" ++ test.As ++ "-cluster-profile" ] ++
         (if (selectTemplate test).template = "" then []
          else ["--template=/usr/local/" ++ test.As])] ∧
      podSpec.Containers.map (fun container => container.VolumeMounts) =
        [[ { Name := "sentry-dsn", MountPath := "/etc/sentry-dsn", ReadOnly := true },
           { Name := "cluster-profile",
             MountPath := "/usr/local/" ++ test.As ++ "-cluster-profile" } ] ++
         (if (selectTemplate test).template = "" then []
          else [{ Name := "job-definition", MountPath := "/usr/local/" ++ test.As,
                  SubPath := (selectTemplate test).template ++ ".yaml" }])] ∧
      podSpec.Volumes.filter (fun volume => volume.Name = "job-definition") =
        (if (selectTemplate test).template = "" then []
         else [{ Name := "job-definition"
                 VolumeSource :=
                   { ConfigMap := some ("prow-job-" ++ (selectTemplate test).template) } }]) := by
  refine ⟨_, generatePodSpecTemplate_eq info release test, rfl, rfl, ?_⟩
  simp only [templatePodSpec]
  by_cases ht : (selectTemplate test).template = "" <;> simp [ht, List.filter]

/-- Claim C15: the environment built by `generatePodSpecTemplate` holds
`RPM_REPO_OPENSHIFT_ORIGIN` exactly when the test has an openshift-ansible shape and
(org, repo) is not (openshift, origin); its value is
`https://rpms.svc.ci.openshift.org/openshift-<r>/` when the release `r` starts with
`origin-v` and `https://rpms.svc.ci.openshift.org/openshift-origin-v<r>/` otherwise. -/
theorem template_rpm_repo (info : Info) (release : String) (test : TestStepConfiguration) :
    ∃ podSpec, generatePodSpecTemplate info release test = Except.ok podSpec ∧
      podSpec.Containers.map (fun container =>
          container.Env.filter fun env => env.Name = "RPM_REPO_OPENSHIFT_ORIGIN") =
        [if isOpenshiftAnsibleShape test = true ∧
            ¬ (info.Org = "openshift" ∧ info.Repo = "origin") then
          [{ Name := "RPM_REPO_OPENSHIFT_ORIGIN"
             Value :=
               if stringsHasPrefix release "origin-v" = true then
                 "https://rpms.svc.ci.openshift.org/openshift-" ++ release ++ "/"
               else "https://rpms.svc.ci.openshift.org/openshift-origin-v" ++ release ++ "/" }]
         else []] := by
  refine ⟨_, generatePodSpecTemplate_eq info release test, ?_⟩
  simp only [templatePodSpec, templateEnv, List.map_cons, List.map_nil,
    selectTemplate_needsReleaseRpms]
  by_cases ht : (selectTemplate test).template = "" <;>
  by_cases hi : (selectTemplate test).testImageStreamTag = "" <;>
  by_cases hr : isOpenshiftAnsibleShape test = true <;>
  by_cases ho1 : info.Org = "openshift" <;>
  by_cases ho2 : info.Repo = "origin" <;>
  cases h40 : test.OpenshiftAnsible40ClusterTestConfiguration <;>
  cases hu : test.OpenshiftAnsibleUpgradeClusterTestConfiguration <;>
  simp [ht, hi, hr, ho1, ho2, List.filter]

/-- Claim C16, refuted: for the previous version `origin-v3.10`, which starts with
`origin-v`, the value of `PREVIOUS_RPM_REPO` is not
`https://rpms.svc.ci.openshift.org/openshift-origin-v3.10/`. -/
theorem previous_rpm_repo_ignores_origin_prefix :
    stringsHasPrefix "origin-v3.10" "origin-v" = true ∧
    ∃ podSpec,
      generatePodSpecTemplate exampleInfo "3.11" examplePrefixedUpgradeTest =
        Except.ok podSpec ∧
      podSpec.Containers.map (fun container =>
          (container.Env.filter fun env => env.Name = "PREVIOUS_RPM_REPO").map
            fun env => env.Value) ≠
        [["https://rpms.svc.ci.openshift.org/openshift-" ++ "origin-v3.10" ++ "/"]] := by
  refine ⟨by decide, _, rfl, ?_⟩
  decide

/-- Claim C16, amended: for an upgrade-shape test with previous version `v` the environment
holds exactly one `PREVIOUS_RPM_REPO`, with value
`https://rpms.svc.ci.openshift.org/openshift-origin-v<v>/` whatever `v` starts with. -/
theorem previous_rpm_repo_value (info : Info) (release : String) (test : TestStepConfiguration)
    (conf : OpenshiftAnsibleUpgradeClusterTestConfiguration)
    (hupgrade : test.OpenshiftAnsibleUpgradeClusterTestConfiguration = some conf) :
    ∃ podSpec, generatePodSpecTemplate info release test = Except.ok podSpec ∧
      podSpec.Containers.map (fun container =>
          container.Env.filter fun env => env.Name = "PREVIOUS_RPM_REPO") =
        [[{ Name := "PREVIOUS_RPM_REPO"
            Value := "https://rpms.svc.ci.openshift.org/openshift-origin-v" ++
              conf.PreviousVersion ++ "/" }]] := by
  refine ⟨_, generatePodSpecTemplate_eq info release test, ?_⟩
  simp only [templatePodSpec, templateEnv, List.map_cons, List.map_nil, hupgrade]
  by_cases ht : (selectTemplate test).template = "" <;>
  by_cases hi : (selectTemplate test).testImageStreamTag = "" <;>
  by_cases hr : ((selectTemplate test).needsReleaseRpms = true ∧
      (info.Org ≠ "openshift" ∨ info.Repo ≠ "origin")) <;>
  cases h40 : test.OpenshiftAnsible40ClusterTestConfiguration <;>
  simp [ht, hi, hr, List.filter]

theorem previous_rpm_repo_value_witness :
    examplePrefixedUpgradeTest.OpenshiftAnsibleUpgradeClusterTestConfiguration =
      some { ClusterProfile := "gcp", PreviousVersion := "origin-v3.10",
             PreviousRPMDeps := "https://example.test/deps" } ∧
    ∃ podSpec, generatePodSpecTemplate exampleInfo "3.11" examplePrefixedUpgradeTest =
        Except.ok podSpec ∧
      podSpec.Containers.map (fun container =>
          container.Env.filter fun env => env.Name = "PREVIOUS_RPM_REPO") =
        [[{ Name := "PREVIOUS_RPM_REPO"
            Value := "https://rpms.svc.ci.openshift.org/openshift-origin-vorigin-v3.10/" }]] := by
  refine ⟨rfl, ?_⟩
  obtain ⟨podSpec, h1, h2⟩ := previous_rpm_repo_value exampleInfo "3.11"
    examplePrefixedUpgradeTest _ rfl
  exact ⟨podSpec, h1, h2.trans (by decide)⟩

/-- Claim C17: `generateCiOperatorPodSpec` does not panic on the additional argument
`--promote`, which contains no `=`, and returns it among the driver arguments; the images
postsubmit of `generateJobs`, a job running `ci-operator`, carries it. -/
theorem bare_flag_accepted :
    (∃ podSpec,
      generateCiOperatorPodSpec exampleInfo "[images]" ["--promote"] = Except.ok podSpec ∧
      ∃ container ∈ podSpec.Containers, ∃ arg ∈ container.Args, '=' ∉ arg.data) ∧
    (∃ jobConfig,
      generateJobs (fun _ => false) examplePromotingConfigSpec exampleInfo New =
        Except.ok jobConfig ∧
      ∃ entry ∈ jobConfig.Postsubmits, ∃ job ∈ entry.2, ∃ podSpec, job.Spec = some podSpec ∧
        ∃ container ∈ podSpec.Containers, ∃ arg ∈ container.Args, '=' ∉ arg.data) := by
  refine ⟨⟨_, rfl, ?_⟩, ⟨_, rfl, ?_⟩⟩
  · decide
  · refine ⟨_, List.mem_cons_self _ _, _, List.mem_cons_self _ _, _, rfl, ?_⟩
    decide

/-- Claim C18: the cloud of each listed cluster profile, the empty cloud of the unset
profile and of every profile not listed, for which `generatePodSpecTemplate` still returns
a pod spec, whose profile volume has the secret source `cluster-secrets-`. -/
theorem target_cloud_table :
    (targetCloudOf ClusterProfileAWS = "aws" ∧
     targetCloudOf ClusterProfileAWSAtomic = "aws" ∧
     targetCloudOf ClusterProfileAWSCentos = "aws" ∧
     targetCloudOf ClusterProfileAWSCentos40 = "aws" ∧
     targetCloudOf ClusterProfileAWSGluster = "aws" ∧
     targetCloudOf ClusterProfileAzure4 = "azure4" ∧
     targetCloudOf ClusterProfileGCP = "gcp" ∧
     targetCloudOf ClusterProfileGCP40 = "gcp" ∧
     targetCloudOf ClusterProfileGCPHA = "gcp" ∧
     targetCloudOf ClusterProfileGCPCRIO = "gcp" ∧
     targetCloudOf ClusterProfileGCPLogging = "gcp" ∧
     targetCloudOf ClusterProfileGCPLoggingJournald = "gcp" ∧
     targetCloudOf ClusterProfileGCPLoggingJSONFile = "gcp" ∧
     targetCloudOf ClusterProfileGCPLoggingCRIO = "gcp" ∧
     targetCloudOf ClusterProfileOpenStack = "openstack" ∧
     targetCloudOf ClusterProfileVSphere = "vsphere") ∧
    targetCloudOf "" = "" ∧
    (∀ p : ClusterProfile,
      p ∉ [ClusterProfileAWS, ClusterProfileAWSAtomic, ClusterProfileAWSCentos,
        ClusterProfileAWSCentos40, ClusterProfileAWSGluster, ClusterProfileAzure4,
        ClusterProfileGCP, ClusterProfileGCP40, ClusterProfileGCPHA, ClusterProfileGCPCRIO,
        ClusterProfileGCPLogging, ClusterProfileGCPLoggingJournald,
        ClusterProfileGCPLoggingJSONFile, ClusterProfileGCPLoggingCRIO,
        ClusterProfileOpenStack, ClusterProfileVSphere] →
      targetCloudOf p = "" ∧
      ∀ (info : Info) (release : String) (test : TestStepConfiguration),
        (selectTemplate test).clusterProfile = p →
        ∃ podSpec, generatePodSpecTemplate info release test = Except.ok podSpec ∧
          podSpec.Volumes.filter (fun volume => volume.Name = "cluster-profile") =
            [{ Name := "cluster-profile"
               VolumeSource := { Projected := some (
                 [ { Secret := some "cluster-secrets-" },
                   { ConfigMap := some ("cluster-profile-" ++ p) } ]) } }]) := by
  refine ⟨by decide, by decide, ?_⟩
  intro p hp
  simp only [List.mem_cons, List.mem_singleton, List.mem_nil_iff, or_false, not_or] at hp
  obtain ⟨h1, h2, h3, h4, h5, h6, h7, h8, h9, h10, h11, h12, h13, h14, h15, h16⟩ := hp
  have hcloud : targetCloudOf p = "" := by
    simp [targetCloudOf, h1, h2, h3, h4, h5, h6, h7, h8, h9, h10, h11, h12, h13, h14, h15, h16]
  refine ⟨hcloud, ?_⟩
  intro info release test hsel
  refine ⟨_, generatePodSpecTemplate_eq info release test, ?_⟩
  simp only [templatePodSpec, hsel, hcloud]
  by_cases ht : (selectTemplate test).template = "" <;>
  simp [ht, h1, h6, h15, h16, List.filter]

/-- Claim C19: for a job file that is not a periodics file, the pruned config has no
presubmit and no postsubmit exactly when every presubmit and postsubmit of the file carries
the marker with a value other than `New`; in that case the callback of `pruneStaleJobs`
removes the file and returns the error of the removal unless it says the file does not
exist; otherwise it writes the pruned config to the same file and returns the error of the
write. -/
theorem pruneStaleJobs_file_outcome (perform : FileOp → Option OSError) (jobConfig : JobConfig) (info : JobFileInfo)
    (hinfo : info.JobType ≠ "periodics") :
    (((prune jobConfig).Presubmits.length = 0 ∧ (prune jobConfig).Postsubmits.length = 0) ↔
      JobConfig.AllStale jobConfig) ∧
    (JobConfig.AllStale jobConfig →
      pruneStaleJobsCallback jobConfig info = some (FileOp.remove info.Filename) ∧
      pruneStaleJobsCallbackError perform jobConfig info =
        match perform (FileOp.remove info.Filename) with
        | some err => if err.IsNotExist = true then none else some err
        | none => none) ∧
    (¬ JobConfig.AllStale jobConfig →
      pruneStaleJobsCallback jobConfig info =
        some (FileOp.write info.Filename (prune jobConfig)) ∧
      pruneStaleJobsCallbackError perform jobConfig info =
        perform (FileOp.write info.Filename (prune jobConfig))) := by
  have hiff : ((prune jobConfig).Presubmits.length = 0 ∧
      (prune jobConfig).Postsubmits.length = 0) ↔ JobConfig.AllStale jobConfig := by
    rw [List.length_eq_zero, List.length_eq_zero]
    exact prune_empty_iff jobConfig
  refine ⟨hiff, ?_, ?_⟩
  · intro hall
    have hz := hiff.2 hall
    constructor
    · simp [pruneStaleJobsCallback, hinfo, hz.1, hz.2]
    · simp only [pruneStaleJobsCallbackError, hinfo, if_false, hz.1, hz.2, decide_True,
        Bool.and_self, if_true]
      cases perform (FileOp.remove info.Filename) with
      | none => rfl
      | some err => cases h : err.IsNotExist <;> simp [h]
  · intro hnot
    have hz : ¬ ((prune jobConfig).Presubmits.length = 0 ∧
        (prune jobConfig).Postsubmits.length = 0) := fun h => hnot (hiff.1 h)
    have hb : (decide ((prune jobConfig).Presubmits.length = 0) &&
        decide ((prune jobConfig).Postsubmits.length = 0)) = false := by
      cases hc : (decide ((prune jobConfig).Presubmits.length = 0) &&
        decide ((prune jobConfig).Postsubmits.length = 0)) with
      | false => rfl
      | true =>
        simp only [Bool.and_eq_true, decide_eq_true_eq] at hc
        exact absurd hc hz
    constructor
    · simp only [pruneStaleJobsCallback, hinfo, if_false, hb, Bool.false_eq_true]
    · simp only [pruneStaleJobsCallbackError, hinfo, if_false, hb, Bool.false_eq_true]
      cases perform (FileOp.write info.Filename (prune jobConfig)) <;> rfl

theorem pruneStaleJobs_file_outcome_witness :
    exampleFileInfo.JobType ≠ "periodics" ∧
    (((prune exampleJobConfig).Presubmits.length = 0 ∧
        (prune exampleJobConfig).Postsubmits.length = 0) ↔
      JobConfig.AllStale exampleJobConfig) ∧
    (JobConfig.AllStale exampleJobConfig →
      pruneStaleJobsCallback exampleJobConfig exampleFileInfo =
        some (FileOp.remove exampleFileInfo.Filename) ∧
      pruneStaleJobsCallbackError (fun _ => some exampleNotExist) exampleJobConfig
          exampleFileInfo =
        match (fun _ => some exampleNotExist) (FileOp.remove exampleFileInfo.Filename) with
        | some err => if err.IsNotExist = true then none else some err
        | none => none) ∧
    (¬ JobConfig.AllStale exampleJobConfig →
      pruneStaleJobsCallback exampleJobConfig exampleFileInfo =
        some (FileOp.write exampleFileInfo.Filename (prune exampleJobConfig)) ∧
      pruneStaleJobsCallbackError (fun _ => some exampleNotExist) exampleJobConfig
          exampleFileInfo =
        (fun _ => some exampleNotExist)
          (FileOp.write exampleFileInfo.Filename (prune exampleJobConfig))) :=
  ⟨by decide,
    pruneStaleJobs_file_outcome (fun _ => some exampleNotExist) exampleJobConfig
      exampleFileInfo (by decide)⟩

/-- Claim C20: the presubmit built for a test always runs, matches exactly the branch
`info.Branch` as written, and reports under `ci/prow/<name>` with the variant-prefixed
name; the postsubmit matches exactly `makeBranchExplicit info.Branch`. -/
theorem presubmit_postsubmit_fields (name : String) (info : Info) (label : String) (podSpec : PodSpec) :
    (generatePresubmitForTest name info label podSpec).AlwaysRun = true ∧
    (generatePresubmitForTest name info label podSpec).Brancher.Branches = [info.Branch] ∧
    (generatePresubmitForTest name info label podSpec).Reporter.Context =
      "ci/prow/" ++ (if info.Variant = "" then name else info.Variant ++ "-" ++ name) ∧
    (generatePostsubmitForTest name info label podSpec).Brancher.Branches =
      [makeBranchExplicit info.Branch] := by
  refine ⟨rfl, rfl, ?_, rfl⟩
  simp only [generatePresubmitForTest]
  by_cases h : info.Variant = ""
  · simp [h]
  · simp [h, (string_length_pos_iff _).2 h]

/-- Claim C21: the periodic jobs of the output of `prune` are the periodic jobs of the
input, the same list in the same order with every job unchanged, whatever labels they carry. -/
theorem prune_copies_periodics (c : JobConfig) : (prune c).Periodics = c.Periodics := by
  simp [prune, JobConfig.AllPeriodics]

/-- Claim C22: for a configuration with a test, a non-empty `Images` list and no promotion
configuration, `generateJobs` returns the presubmit of the test and the `images` presubmit
and no postsubmit at all. -/
theorem images_postsubmit_needs_promotion :
    exampleConfigSpec.Images ≠ [] ∧
    ∃ jobConfig,
      generateJobs (fun _ => false) exampleConfigSpec exampleInfo New = Except.ok jobConfig ∧
      (GoMap.index jobConfig.Presubmits "org/repo").map (fun job => job.Name) =
        ["pull-ci-org-repo-master-unit", "pull-ci-org-repo-master-images"] ∧
      jobConfig.Postsubmits = [] := by
  refine ⟨by decide, _, rfl, ?_, ?_⟩ <;> decide

/-- Claim C23, refuted: for a test of the installer UPI shape and for one of the installer
custom-test-image shape the selected template name is not empty, and the pod spec has the
`job-definition` volume, the `--template` argument and the `CLUSTER_TYPE`, `JOB_NAME_SAFE`
and `TEST_COMMAND` environment entries. -/
theorem upi_and_custom_test_image_templated :
    (selectTemplate exampleUPITest).template ≠ "" ∧
    (selectTemplate exampleCustomTestImageTest).template ≠ "" ∧
    (∃ podSpec, generatePodSpecTemplate exampleInfo "4.2" exampleUPITest = Except.ok podSpec ∧
      podSpec.Volumes.map (fun volume => volume.Name) =
        ["sentry-dsn", "job-definition", "cluster-profile"] ∧
      podSpec.Containers.map (fun container => container.Args) =
        [[ "--give-pr-author-access-to-namespace=true",
           "--artifact-dir=$(ARTIFACTS)",
           "--target=e2e-upi",
           "--sentry-dsn-path=/etc/sentry-dsn/ci-operator",
           "--secret-dir=/usr/local/e2e-upi-cluster-profile",
           "--template=/usr/local/e2e-upi" ]] ∧
      podSpec.Containers.map (fun container => container.Env.map fun env => env.Name) =
        [["CONFIG_SPEC", "CLUSTER_TYPE", "JOB_NAME_SAFE", "TEST_COMMAND"]]) ∧
    (∃ podSpec, generatePodSpecTemplate exampleInfo "4.2" exampleCustomTestImageTest =
        Except.ok podSpec ∧
      podSpec.Volumes.map (fun volume => volume.Name) =
        ["sentry-dsn", "job-definition", "cluster-profile"] ∧
      podSpec.Containers.map (fun container => container.Args) =
        [[ "--give-pr-author-access-to-namespace=true",
           "--artifact-dir=$(ARTIFACTS)",
           "--target=e2e-custom",
           "--sentry-dsn-path=/etc/sentry-dsn/ci-operator",
           "--secret-dir=/usr/local/e2e-custom-cluster-profile",
           "--template=/usr/local/e2e-custom" ]] ∧
      podSpec.Containers.map (fun container => container.Env.map fun env => env.Name) =
        [["CONFIG_SPEC", "CLUSTER_TYPE", "JOB_NAME_SAFE", "TEST_COMMAND",
          "TEST_IMAGESTREAM_TAG"]]) := by
  refine ⟨by decide, by decide, ⟨_, rfl, ?_, ?_, ?_⟩, ⟨_, rfl, ?_, ?_, ?_⟩⟩ <;> decide

/-- Claim C23, amended: a test of the installer UPI shape is templated with
`cluster-launch-installer-upi-e2e` and a test of the installer custom-test-image shape with
`cluster-launch-installer-custom-test-image`: the pod spec has the `job-definition`
config-map volume mounted at `/usr/local/<as>`, the `--template` argument and the
`CLUSTER_TYPE`, `JOB_NAME_SAFE` and `TEST_COMMAND` environment entries (then
`TEST_IMAGESTREAM_TAG` when the source tag is non-empty).  The installer src and console
shapes and the installer e2e shape without the upgrade flag are templated too; the installer
e2e shape with the upgrade flag has the empty template name. -/
theorem installer_shapes_template (info : Info) (release name commands : String)
    (upi src console : ClusterTestConfiguration)
    (custom : OpenshiftInstallerCustomTestImageClusterTestConfiguration)
    (p : ClusterProfile) :
    (∃ podSpec,
      generatePodSpecTemplate info release
        { As := name, Commands := commands,
          OpenshiftInstallerUPIClusterTestConfiguration := some upi } = Except.ok podSpec ∧
      podSpec.Volumes.filter (fun volume => volume.Name = "job-definition") =
        [{ Name := "job-definition"
           VolumeSource := { ConfigMap := some "prow-job-cluster-launch-installer-upi-e2e" } }] ∧
      podSpec.Containers.map (fun container => container.VolumeMounts) =
        [[ { Name := "sentry-dsn", MountPath := "/etc/sentry-dsn", ReadOnly := true },
           { Name := "cluster-profile", MountPath := "/usr/local/" ++ name ++ "-cluster-profile" },
           { Name := "job-definition", MountPath := "/usr/local/" ++ name,
             SubPath := "cluster-launch-installer-upi-e2e.yaml" } ]] ∧
      podSpec.Containers.map (fun container => container.Args) =
        [[ "--give-pr-author-access-to-namespace=true",
           "--artifact-dir=$(ARTIFACTS)",
           "--target=" ++ name,
           "--sentry-dsn-path=/etc/sentry-dsn/ci-operator",
           "--secret-dir=/usr/local/" ++ name ++ "-cluster-profile",
           "--template=/usr/local/" ++ name ]] ∧
      podSpec.Containers.map (fun container => container.Env) =
        [[ { Name := "CONFIG_SPEC",
             ValueFrom := some { Name := info.ConfigMapName, Key := info.Basename } },
           { Name := "CLUSTER_TYPE", Value := targetCloudOf upi.ClusterProfile },
           { Name := "JOB_NAME_SAFE", Value := stringsReplaceChar name '_' '-' },
           { Name := "TEST_COMMAND", Value := commands } ]]) ∧
    (∃ podSpec,
      generatePodSpecTemplate info release
        { As := name, Commands := commands,
          OpenshiftInstallerCustomTestImageClusterTestConfiguration := some custom } =
        Except.ok podSpec ∧
      podSpec.Volumes.filter (fun volume => volume.Name = "job-definition") =
        [{ Name := "job-definition"
           VolumeSource :=
            { ConfigMap := some "prow-job-cluster-launch-installer-custom-test-image" } }] ∧
      podSpec.Containers.map (fun container => container.VolumeMounts) =
        [[ { Name := "sentry-dsn", MountPath := "/etc/sentry-dsn", ReadOnly := true },
           { Name := "cluster-profile", MountPath := "/usr/local/" ++ name ++ "-cluster-profile" },
           { Name := "job-definition", MountPath := "/usr/local/" ++ name,
             SubPath := "cluster-launch-installer-custom-test-image.yaml" } ]] ∧
      podSpec.Containers.map (fun container => container.Args) =
        [[ "--give-pr-author-access-to-namespace=true",
           "--artifact-dir=$(ARTIFACTS)",
           "--target=" ++ name,
           "--sentry-dsn-path=/etc/sentry-dsn/ci-operator",
           "--secret-dir=/usr/local/" ++ name ++ "-cluster-profile",
           "--template=/usr/local/" ++ name ]] ∧
      podSpec.Containers.map (fun container => container.Env) =
        [[ { Name := "CONFIG_SPEC",
             ValueFrom := some { Name := info.ConfigMapName, Key := info.Basename } },
           { Name := "CLUSTER_TYPE", Value := targetCloudOf custom.ClusterProfile },
           { Name := "JOB_NAME_SAFE", Value := stringsReplaceChar name '_' '-' },
           { Name := "TEST_COMMAND", Value := commands } ] ++
         (if custom.From = "" then []
          else [{ Name := "TEST_IMAGESTREAM_TAG", Value := custom.From }])]) ∧
    (selectTemplate { As := name, Commands := commands,
                      OpenshiftInstallerSrcClusterTestConfiguration := some src }).template =
      "cluster-launch-installer-src" ∧
    (selectTemplate { As := name, Commands := commands,
                      OpenshiftInstallerConsoleClusterTestConfiguration :=
                        some console }).template =
      "cluster-launch-installer-console" ∧
    (selectTemplate { As := name, Commands := commands,
                      OpenshiftInstallerClusterTestConfiguration :=
                        some { ClusterProfile := p, Upgrade := false } }).template =
      "cluster-launch-installer-e2e" ∧
    (selectTemplate { As := name, Commands := commands,
                      OpenshiftInstallerClusterTestConfiguration :=
                        some { ClusterProfile := p, Upgrade := true } }).template = "" := by
  refine ⟨⟨_, generatePodSpecTemplate_eq _ _ _, ?_, ?_, ?_, ?_⟩,
    ⟨_, generatePodSpecTemplate_eq _ _ _, ?_, ?_, ?_, ?_⟩, rfl, rfl, rfl, rfl⟩
  · simp [templatePodSpec, selectTemplate, List.filter]
  · simp [templatePodSpec, selectTemplate]
  · simp [templatePodSpec, selectTemplate]
  · simp [templatePodSpec, templateEnv, selectTemplate]
  · simp [templatePodSpec, selectTemplate, List.filter]
  · simp [templatePodSpec, selectTemplate]
  · simp [templatePodSpec, selectTemplate]
  · by_cases h : custom.From = "" <;> simp [templatePodSpec, templateEnv, selectTemplate, h]

/-- Claim C24: the environment `generatePodSpecTemplate` builds is `CONFIG_SPEC`, then
`CLUSTER_TYPE` (the target cloud), `JOB_NAME_SAFE` (the test name with `-` for every `_`)
and `TEST_COMMAND` (the commands) exactly when a template name was selected, then
`TEST_IMAGESTREAM_TAG` exactly when the test is of the custom-test-image shape with a
non-empty source tag, then entries with other names; the `JOB_NAME_SAFE` value has no
underscore and the length of the test name. -/
theorem template_environment (info : Info) (release : String) (test : TestStepConfiguration) :
    ∃ podSpec rest,
      generatePodSpecTemplate info release test = Except.ok podSpec ∧
      podSpec.Containers.map (fun container => container.Env) =
        [[{ Name := "CONFIG_SPEC",
            ValueFrom := some { Name := info.ConfigMapName, Key := info.Basename } }] ++
         (if (selectTemplate test).template = "" then []
          else
            [ { Name := "CLUSTER_TYPE",
                Value := targetCloudOf (selectTemplate test).clusterProfile },
              { Name := "JOB_NAME_SAFE", Value := stringsReplaceChar test.As '_' '-' },
              { Name := "TEST_COMMAND", Value := test.Commands } ]) ++
         (match test.OpenshiftInstallerCustomTestImageClusterTestConfiguration with
          | some conf =>
            if isInstallerCustomTestImageShape test = true ∧ conf.From ≠ "" then
              [{ Name := "TEST_IMAGESTREAM_TAG", Value := conf.From }]
            else []
          | none => []) ++
         rest] ∧
      (∀ env ∈ rest, env.Name ∉ ["CONFIG_SPEC", "CLUSTER_TYPE", "JOB_NAME_SAFE", "TEST_COMMAND",
        "TEST_IMAGESTREAM_TAG"]) ∧
      '_' ∉ (stringsReplaceChar test.As '_' '-').data ∧
      (stringsReplaceChar test.As '_' '-').length = test.As.length := by
  refine ⟨_,
    (if (selectTemplate test).needsReleaseRpms = true ∧
        (info.Org ≠ "openshift" ∨ info.Repo ≠ "origin") then
      [{ Name := "RPM_REPO_OPENSHIFT_ORIGIN",
         Value :=
          if stringsHasPrefix release "origin-v" then
            "https://rpms.svc.ci.openshift.org/openshift-" ++ release ++ "/"
          else "https://rpms.svc.ci.openshift.org/openshift-origin-v" ++ release ++ "/" }]
     else []) ++
    (if test.OpenshiftAnsible40ClusterTestConfiguration.isSome then
      [{ Name := "RPM_REPO_CRIO_DIR", Value := release ++ "-rhel-7" }]
     else []) ++
    (match test.OpenshiftAnsibleUpgradeClusterTestConfiguration with
     | some conf =>
       [ { Name := "PREVIOUS_ANSIBLE_VERSION", Value := conf.PreviousVersion },
         { Name := "PREVIOUS_IMAGE_ANSIBLE",
           Value := "docker.io/openshift/origin-ansible:v" ++ conf.PreviousVersion },
         { Name := "PREVIOUS_RPM_DEPENDENCIES_REPO", Value := conf.PreviousRPMDeps },
         { Name := "PREVIOUS_RPM_REPO",
           Value := "https://rpms.svc.ci.openshift.org/openshift-origin-v" ++
             conf.PreviousVersion ++ "/" } ]
     | none => []),
    generatePodSpecTemplate_eq info release test, ?_, ?_,
    (stringsReplaceChar_underscore test.As).1, (stringsReplaceChar_underscore test.As).2⟩
  · have htag := selectTemplate_testImageStreamTag test
    have htpl := selectTemplate_template_of_tag test
    simp only [templatePodSpec, templateEnv, List.map_cons, List.map_nil]
    cases hu : test.OpenshiftAnsibleUpgradeClusterTestConfiguration <;>
    by_cases ht : (selectTemplate test).template = "" <;>
    cases hc : test.OpenshiftInstallerCustomTestImageClusterTestConfiguration <;>
    by_cases hs : isInstallerCustomTestImageShape test = true <;>
    simp_all
  · intro env henv
    simp only [List.mem_append] at henv
    rcases henv with (henv | henv) | henv
    · split at henv
      · simp only [List.mem_singleton] at henv
        subst henv
        simp
      · simp at henv
    · split at henv
      · simp only [List.mem_singleton] at henv
        subst henv
        simp
      · simp at henv
    · split at henv
      · simp only [List.mem_cons, List.mem_singleton, List.mem_nil_iff, or_false] at henv
        rcases henv with h | h | h | h <;> (subst h; simp)
      · simp at henv

/-- Claim C25: for an installer e2e test with the upgrade flag set the pod spec is the base
one with the volumes `sentry-dsn` and `cluster-profile`, the four base arguments followed by
`--secret-dir=/usr/local/<as>-cluster-profile`, the `cluster-profile` volume mounted at that
path, and the single environment entry `CONFIG_SPEC`; among the shapes
`generatePodSpecTemplate` dispatches on, the selected template name is empty for this one
only (and for a test with none of the installer and openshift-ansible shape fields). -/
theorem installer_upgrade_pod_spec :
    (∀ (info : Info) (release name commands : String) (p : ClusterProfile),
      generatePodSpecTemplate info release
        { As := name, Commands := commands,
          OpenshiftInstallerClusterTestConfiguration :=
            some { ClusterProfile := p, Upgrade := true } } = Except.ok
        { ServiceAccountName := "ci-operator"
          Containers := [
            { Image := "ci-operator:latest"
              ImagePullPolicy := "Always"
              Command := ["ci-operator"]
              Args := [ "--give-pr-author-access-to-namespace=true",
                        "--artifact-dir=$(ARTIFACTS)",
                        "--target=" ++ name,
                        "--sentry-dsn-path=/etc/sentry-dsn/ci-operator",
                        "--secret-dir=/usr/local/" ++ name ++ "-cluster-profile" ]
              Env := [{ Name := "CONFIG_SPEC", Value := "",
                        ValueFrom := some { Name := info.ConfigMapName, Key := info.Basename } }]
              Requests := [("cpu", "10m")]
              VolumeMounts :=
                [ { Name := "sentry-dsn", MountPath := "/etc/sentry-dsn", ReadOnly := true },
                  { Name := "cluster-profile",
                    MountPath := "/usr/local/" ++ name ++ "-cluster-profile" } ] }]
          Volumes :=
            [ { Name := "sentry-dsn", VolumeSource := { Secret := some "sentry-dsn" } },
              { Name := "cluster-profile"
                VolumeSource := { Projected := some (
                  [{ Secret := some ("cluster-secrets-" ++ targetCloudOf p) }] ++
                  (if p = ClusterProfileAWS ∨ p = ClusterProfileAzure4 ∨
                      p = ClusterProfileOpenStack ∨ p = ClusterProfileVSphere then []
                   else [{ ConfigMap := some ("cluster-profile-" ++ p) }])) } } ] }) ∧
    (∀ test : TestStepConfiguration,
      (selectTemplate test).template = "" ↔
        (isOpenshiftAnsibleShape test = false ∧
          ((∃ conf, test.OpenshiftInstallerClusterTestConfiguration = some conf ∧
              conf.Upgrade = true) ∨
            (test.OpenshiftInstallerClusterTestConfiguration = none ∧
              test.OpenshiftInstallerSrcClusterTestConfiguration = none ∧
              test.OpenshiftInstallerUPIClusterTestConfiguration = none ∧
              test.OpenshiftInstallerConsoleClusterTestConfiguration = none ∧
              test.OpenshiftInstallerCustomTestImageClusterTestConfiguration = none)))) := by
  refine ⟨?_, selectTemplate_template_eq_empty⟩
  intro info release name commands p
  rw [generatePodSpecTemplate_eq]
  by_cases hp : (p = ClusterProfileAWS ∨ p = ClusterProfileAzure4 ∨
      p = ClusterProfileOpenStack ∨ p = ClusterProfileVSphere) <;>
  simp [templatePodSpec, templateEnv, selectTemplate, hp]

/-- Claim C26: the pod spec of a random-cloud installer test runs `bash -c <script>` with
the fixed script for the test name, which contains `--target=<as>`, `--template=/tmp/<as>`
and `--secret-dir=/tmp/<as>-cluster-profile`; its volumes are `sentry-dsn`, the projected
secret volumes `cluster-profile-<p>` from `cluster-secrets-<p>` for aws, azure4, vsphere,
the `job-definition` volume projecting the two installer template config maps, and the
`e2e-targets` config-map volume; the profile volumes are mounted at
`/usr/local/cluster-profiles/<p>`, `e2e-targets` at `/usr/local/e2e-targets`,
`job-definition` at `/usr/local/job-definition`; the environment is `CONFIG_SPEC`,
`JOB_NAME_SAFE`, `TEST_COMMAND`. -/
theorem random_cloud_pod_spec (configSpec : ReleaseBuildConfiguration) (info : Info)
    (element : TestStepConfiguration)
    (hrandom : element.OpenshiftInstallerRandomClusterTestConfiguration ≠ none)
    (hcontainer : element.ContainerTestConfiguration = none) :
    elementPodSpec configSpec info element = Except.ok
      { ServiceAccountName := "ci-operator"
        Containers := [
          { Image := "ci-operator:latest"
            ImagePullPolicy := "Always"
            Command := ["bash"]
            Args := ["-c", openshiftInstallerRandomCmd element.As]
            Env :=
              [ { Name := "CONFIG_SPEC", Value := "",
                  ValueFrom := some { Name := info.ConfigMapName, Key := info.Basename } },
                { Name := "JOB_NAME_SAFE", Value := stringsReplaceChar element.As '_' '-' },
                { Name := "TEST_COMMAND", Value := element.Commands } ]
            Requests := [("cpu", "10m")]
            VolumeMounts :=
              [ { Name := "sentry-dsn", MountPath := "/etc/sentry-dsn", ReadOnly := true },
                { Name := "cluster-profile-aws", MountPath := "/usr/local/cluster-profiles/aws" },
                { Name := "cluster-profile-azure4",
                  MountPath := "/usr/local/cluster-profiles/azure4" },
                { Name := "cluster-profile-vsphere",
                  MountPath := "/usr/local/cluster-profiles/vsphere" },
                { Name := "e2e-targets", MountPath := "/usr/local/e2e-targets",
                  SubPath := "e2e-targets" },
                { Name := "job-definition", MountPath := "/usr/local/job-definition" } ] }]
        Volumes :=
          [ { Name := "sentry-dsn", VolumeSource := { Secret := some "sentry-dsn" } },
            { Name := "cluster-profile-aws"
              VolumeSource := { Projected := some [{ Secret := some "cluster-secrets-aws" }] } },
            { Name := "cluster-profile-azure4"
              VolumeSource := { Projected := some [{ Secret := some "cluster-secrets-azure4" }] } },
            { Name := "cluster-profile-vsphere"
              VolumeSource := { Projected := some [{ Secret := some "cluster-secrets-vsphere" }] } },
            { Name := "job-definition"
              VolumeSource := { Projected := some (
                [ { ConfigMap := some "prow-job-cluster-launch-installer-e2e" },
                  { ConfigMap := some "prow-job-cluster-launch-installer-upi-e2e" } ]) } },
            { Name := "e2e-targets", VolumeSource := { ConfigMap := some "e2e-targets" } } ] } ∧
    stringsContains (openshiftInstallerRandomCmd element.As) ("--target=" ++ element.As) ∧
    stringsContains (openshiftInstallerRandomCmd element.As) ("--template=/tmp/" ++ element.As) ∧
    stringsContains (openshiftInstallerRandomCmd element.As)
      ("--secret-dir=/tmp/" ++ element.As ++ "-cluster-profile") := by
  refine ⟨?_, openshiftInstallerRandomCmd_contains element.As⟩
  have hsome : element.OpenshiftInstallerRandomClusterTestConfiguration.isSome = true := by
    cases h : element.OpenshiftInstallerRandomClusterTestConfiguration with
    | none => exact absurd h hrandom
    | some c => rfl
  unfold elementPodSpec
  simp only [hcontainer, hsome, Option.isSome_none, Bool.false_eq_true, if_false, if_true]
  rfl

theorem random_cloud_pod_spec_witness :
    exampleRandomTest.OpenshiftInstallerRandomClusterTestConfiguration ≠ none ∧
    exampleRandomTest.ContainerTestConfiguration = none ∧
    (∃ podSpec, elementPodSpec exampleConfigSpec exampleInfo exampleRandomTest =
        Except.ok podSpec ∧
      podSpec.Containers.map (fun container => container.Command) = [["bash"]] ∧
      podSpec.Containers.map (fun container => container.Args) =
        [["-c", openshiftInstallerRandomCmd "e2e-random"]] ∧
      podSpec.Volumes.map (fun volume => volume.Name) =
        [ "sentry-dsn", "cluster-profile-aws", "cluster-profile-azure4",
          "cluster-profile-vsphere", "job-definition", "e2e-targets" ] ∧
      podSpec.Containers.map (fun container => container.Env.map fun env => env.Name) =
        [["CONFIG_SPEC", "JOB_NAME_SAFE", "TEST_COMMAND"]]) ∧
    stringsContains (openshiftInstallerRandomCmd exampleRandomTest.As)
      ("--target=" ++ exampleRandomTest.As) :=
  ⟨by decide, by decide,
    ⟨_, (random_cloud_pod_spec exampleConfigSpec exampleInfo exampleRandomTest (by decide)
      (by decide)).1, rfl, rfl, rfl, rfl⟩,
    (random_cloud_pod_spec exampleConfigSpec exampleInfo exampleRandomTest (by decide)
      (by decide)).2.1⟩

/-- Claim C27: `generateJobs` never panics, and pruning the job set it generates with the
label `New` gives the job set it generates with the label `Generated`: the same
presubmits and postsubmits in the same order, and no periodic job. -/
theorem prune_of_fresh_jobs (PromotesOfficialImages : ReleaseBuildConfiguration → Bool)
    (configSpec : ReleaseBuildConfiguration) (info : Info) :
    ∃ fresh settled,
      generateJobs PromotesOfficialImages configSpec info New = Except.ok fresh ∧
      generateJobs PromotesOfficialImages configSpec info Generated = Except.ok settled ∧
      prune fresh = settled := by
  refine ⟨_, _, generateJobs_eq _ _ _ _, generateJobs_eq _ _ _ _, ?_⟩
  rw [prune_eq _ (GoMap.WF_appendAt _ _ _ GoMap.WF_nil) (GoMap.WF_appendAt _ _ _ GoMap.WF_nil)]
  simp only
  rw [pruneEntries_appendAt_nil _ _ _ _ (pruneList_expectedPresubmits _ _ _)
      (expectedPresubmits_isEmpty _ _ _ _ _),
    pruneEntries_appendAt_nil _ _ _ _ (pruneList_expectedPostsubmits _ _)
      (expectedPostsubmits_isEmpty _ _ _ _)]

/-- Claim C28: `makeBranchExplicit` applied twice gives what it gives applied once, for
every branch, the empty one included; the result for a simple branch is no longer simple. -/
theorem makeBranchExplicit_idempotent (b : String) :
    makeBranchExplicit (makeBranchExplicit b) = makeBranchExplicit b ∧
    (simpleBranchRegexp b = true → simpleBranchRegexp (makeBranchExplicit b) = false) := by
  by_cases h : simpleBranchRegexp b = true
  · have h1 : makeBranchExplicit b = "^" ++ regexpQuoteMeta b ++ "$" := by
      simp [makeBranchExplicit, h]
    rw [h1]
    refine ⟨?_, fun _ => simpleBranchRegexp_anchored _⟩
    simp [makeBranchExplicit, simpleBranchRegexp_anchored]
  · have h1 : makeBranchExplicit b = b := by
      simp [makeBranchExplicit, h]
    rw [h1]
    exact ⟨h1, fun hh => absurd hh h⟩

/-- Claim C29: under every org/repo key, a presubmit or postsubmit of the output of `prune`
that carries the generation marker carries the value `Generated`; the second `prune` keeps
exactly the jobs of the input without the marker key, in their order; and whenever the
input holds a presubmit marked `New`, pruning twice differs from pruning once.  The maps
hold each key once, as Go maps do. -/
theorem prune_twice (c : JobConfig) (hpre : GoMap.WF c.Presubmits)
    (hpost : GoMap.WF c.Postsubmits) (key : String) :
    (∀ job ∈ GoMap.index (prune c).Presubmits key, ∀ v,
      job.Labels.get? ProwJobLabelGenerated = some v → v = Generated) ∧
    (∀ job ∈ GoMap.index (prune c).Postsubmits key, ∀ v,
      job.Labels.get? ProwJobLabelGenerated = some v → v = Generated) ∧
    GoMap.index (prune (prune c)).Presubmits key =
      (GoMap.index c.Presubmits key).filter
        (fun job => decide (job.Labels.get? ProwJobLabelGenerated = none)) ∧
    GoMap.index (prune (prune c)).Postsubmits key =
      (GoMap.index c.Postsubmits key).filter
        (fun job => decide (job.Labels.get? ProwJobLabelGenerated = none)) ∧
    ((∃ job ∈ GoMap.index c.Presubmits key,
        job.Labels.get? ProwJobLabelGenerated = some New) →
      prune (prune c) ≠ prune c) := by
  have hwf := prune_WF c hpre hpost
  have h1 : GoMap.index (prune c).Presubmits key =
      pruneList Presubmit.toJobBase Presubmit.setLabels (GoMap.index c.Presubmits key) := by
    simp only [prune]
    exact pruneJobs_index _ _ _ hpre key
  have h2 : GoMap.index (prune c).Postsubmits key =
      pruneList Postsubmit.toJobBase Postsubmit.setLabels (GoMap.index c.Postsubmits key) := by
    simp only [prune]
    exact pruneJobs_index _ _ _ hpost key
  have h3 : GoMap.index (prune (prune c)).Presubmits key =
      pruneList Presubmit.toJobBase Presubmit.setLabels
        (GoMap.index (prune c).Presubmits key) := by
    conv_lhs => simp only [prune]
    exact pruneJobs_index _ _ _ hwf.1 key
  have h4 : GoMap.index (prune (prune c)).Postsubmits key =
      pruneList Postsubmit.toJobBase Postsubmit.setLabels
        (GoMap.index (prune c).Postsubmits key) := by
    conv_lhs => simp only [prune]
    exact pruneJobs_index _ _ _ hwf.2 key
  refine ⟨?_, ?_, ?_, ?_, ?_⟩
  · rw [h1]
    exact pruneList_marker Presubmit.toJobBase Presubmit.setLabels (fun _ _ => rfl) _
  · rw [h2]
    exact pruneList_marker Postsubmit.toJobBase Postsubmit.setLabels (fun _ _ => rfl) _
  · rw [h3, h1]
    exact pruneList_twice Presubmit.toJobBase Presubmit.setLabels (fun _ _ => rfl) _
  · rw [h4, h2]
    exact pruneList_twice Postsubmit.toJobBase Postsubmit.setLabels (fun _ _ => rfl) _
  · intro hnew heq
    have := congrArg (fun jc : JobConfig => GoMap.index jc.Presubmits key) heq
    simp only at this
    rw [h3, h1] at this
    exact pruneList_twice_ne Presubmit.toJobBase Presubmit.setLabels (fun _ _ => rfl) _ hnew this

theorem prune_twice_witness :
    GoMap.WF exampleJobConfig.Presubmits ∧ GoMap.WF exampleJobConfig.Postsubmits ∧
    GoMap.index (prune exampleJobConfig).Presubmits "org/repo" =
      [ examplePresubmit "hand" [("team", "infra")],
        examplePresubmit "current" [(ProwJobLabelGenerated, Generated)] ] ∧
    GoMap.index (prune (prune exampleJobConfig)).Presubmits "org/repo" =
      [ examplePresubmit "hand" [("team", "infra")] ] ∧
    GoMap.index (prune (prune exampleJobConfig)).Postsubmits "org/repo" =
      [ examplePostsubmit "hand" [] ] ∧
    prune (prune exampleJobConfig) ≠ prune exampleJobConfig :=
  ⟨by decide, by decide, by decide,
    (prune_twice exampleJobConfig (by decide) (by decide) "org/repo").2.2.1.trans (by decide),
    (prune_twice exampleJobConfig (by decide) (by decide) "org/repo").2.2.2.1.trans (by decide),
    (prune_twice exampleJobConfig (by decide) (by decide) "org/repo").2.2.2.2
      ⟨examplePresubmit "current" [(ProwJobLabelGenerated, New)], by decide, by decide⟩⟩

/-- Claim C30: the pod spec built for a test of any shape, and the pod spec of every
presubmit and postsubmit `generateJobs` returns (the `images` jobs included), mounts only
volumes it declares, declares only volumes it mounts, and declares no volume name twice. -/
theorem pod_spec_volumes_closed :
    (∀ (configSpec : ReleaseBuildConfiguration) (info : Info) (element : TestStepConfiguration),
      ∃ podSpec, elementPodSpec configSpec info element = Except.ok podSpec ∧
        (∀ name ∈ podSpec.mountedNames, name ∈ podSpec.volumeNames) ∧
        (∀ name ∈ podSpec.volumeNames, name ∈ podSpec.mountedNames) ∧
        podSpec.volumeNames.Nodup) ∧
    (∀ (PromotesOfficialImages : ReleaseBuildConfiguration → Bool)
      (configSpec : ReleaseBuildConfiguration) (info : Info) (label : String),
      ∃ jobConfig,
        generateJobs PromotesOfficialImages configSpec info label = Except.ok jobConfig ∧
        (∀ entry ∈ jobConfig.Presubmits, ∀ job ∈ entry.2,
          ∃ podSpec, job.Spec = some podSpec ∧
            (∀ name ∈ podSpec.mountedNames, name ∈ podSpec.volumeNames) ∧
            (∀ name ∈ podSpec.volumeNames, name ∈ podSpec.mountedNames) ∧
            podSpec.volumeNames.Nodup) ∧
        (∀ entry ∈ jobConfig.Postsubmits, ∀ job ∈ entry.2,
          ∃ podSpec, job.Spec = some podSpec ∧
            (∀ name ∈ podSpec.mountedNames, name ∈ podSpec.volumeNames) ∧
            (∀ name ∈ podSpec.volumeNames, name ∈ podSpec.mountedNames) ∧
            podSpec.volumeNames.Nodup)) := by
  constructor
  · intro configSpec info element
    exact ⟨_, elementPodSpec_ok _ _ _, podSpecOf_volumesClosed _ _ _⟩
  · intro PromotesOfficialImages configSpec info label
    refine ⟨_, generateJobs_eq _ _ _ _, ?_, ?_⟩
    · intro entry hentry job hjob
      have he := GoMap.mem_appendAt_nil _ _ _ hentry
      subst he
      exact expectedPresubmits_volumesClosed _ _ _ _ job hjob
    · intro entry hentry job hjob
      have he := GoMap.mem_appendAt_nil _ _ _ hentry
      subst he
      exact expectedPostsubmits_volumesClosed _ _ _ job hjob

/-- Claim C31: for a fixed info and prefix the job name determines the test name; when the
tests of a configuration have pairwise distinct names, none of them `images`, the
presubmits `generateJobs` returns have pairwise distinct job names, and no presubmit has
the name of a postsubmit. -/
theorem job_names_distinct (PromotesOfficialImages : ReleaseBuildConfiguration → Bool)
    (configSpec : ReleaseBuildConfiguration) (info : Info) (label : String)
    (hdistinct : (configSpec.Tests.map fun test => test.As).Nodup)
    (himages : ∀ test ∈ configSpec.Tests, test.As ≠ "images") :
    (∀ (pfx n1 n2 : String), jobNameSpec pfx info n1 = jobNameSpec pfx info n2 → n1 = n2) ∧
    ∃ jobConfig,
      generateJobs PromotesOfficialImages configSpec info label = Except.ok jobConfig ∧
      ((GoMap.index jobConfig.Presubmits (info.Org ++ "/" ++ info.Repo)).map
        fun job => job.Name).Nodup ∧
      (∀ entry ∈ jobConfig.Presubmits, ∀ presubmit ∈ entry.2,
        ∀ entry2 ∈ jobConfig.Postsubmits, ∀ postsubmit ∈ entry2.2,
          presubmit.Name ≠ postsubmit.Name) := by
  refine ⟨fun pfx n1 n2 h => jobNameSpec_injective pfx info n1 n2 h, _,
    generateJobs_eq _ _ _ _, ?_, ?_⟩
  · simp only [GoMap.index_appendAt_nil, expectedPresubmits_names]
    have hinj : Function.Injective (jobNameSpec "pull" info) :=
      fun n1 n2 h => jobNameSpec_injective "pull" info n1 n2 h
    have hmap : (configSpec.Tests.map fun test => jobNameSpec "pull" info test.As) =
        (configSpec.Tests.map fun test => test.As).map (jobNameSpec "pull" info) := by
      simp [List.map_map, Function.comp_def]
    rw [hmap, List.nodup_append]
    refine ⟨hdistinct.map hinj, ?_, ?_⟩
    · split
      · exact List.nodup_nil
      · exact List.nodup_singleton _
    · intro a ha hb
      split at hb
      · simp at hb
      · simp only [List.mem_singleton] at hb
        subst hb
        simp only [List.mem_map] at ha
        obtain ⟨n, ⟨test, htest, hn⟩, heq⟩ := ha
        subst hn
        exact himages test htest (hinj heq)
  · intro entry hentry presubmit hpre entry2 hentry2 postsubmit hpost
    have he := GoMap.mem_appendAt_nil _ _ _ hentry
    have he2 := GoMap.mem_appendAt_nil _ _ _ hentry2
    subst he he2
    obtain ⟨name, hname⟩ := mem_expectedPresubmits_name _ _ _ _ _ hpre
    rw [hname, mem_expectedPostsubmits_name _ _ _ _ hpost]
    exact jobNameSpec_pull_ne_branch _ _ _

theorem job_names_distinct_witness :
    (exampleFullConfigSpec.Tests.map fun test => test.As).Nodup ∧
    (∀ test ∈ exampleFullConfigSpec.Tests, test.As ≠ "images") ∧
    (∀ (pfx n1 n2 : String),
      jobNameSpec pfx exampleInfo n1 = jobNameSpec pfx exampleInfo n2 → n1 = n2) ∧
    ∃ jobConfig,
      generateJobs (fun _ => false) exampleFullConfigSpec exampleInfo New =
        Except.ok jobConfig ∧
      ((GoMap.index jobConfig.Presubmits (exampleInfo.Org ++ "/" ++ exampleInfo.Repo)).map
        fun job => job.Name).Nodup ∧
      (∀ entry ∈ jobConfig.Presubmits, ∀ presubmit ∈ entry.2,
        ∀ entry2 ∈ jobConfig.Postsubmits, ∀ postsubmit ∈ entry2.2,
          presubmit.Name ≠ postsubmit.Name) :=
  ⟨by decide, by decide,
    job_names_distinct (fun _ => false) exampleFullConfigSpec exampleInfo New (by decide)
      (by decide)⟩

/-- Claim C32: `Migrated` is true for every listed repository on every branch; it is also
true for `kata-containers/libpod`, which is not listed, because the listed pattern
`containers/libpod/.*` is not tied to the start of `<org>/<repo>/<branch>`, and for the
commented-out `integr8ly/ansible-tower-configuration` on a branch that holds a listed
`<org>/<repo>/`; on the branch `master` that repository is not migrated. -/
theorem migrated_not_only_listed :
    (∀ org repo branch : String,
      org ++ "/" ++ repo ++ "/.*" ∈ migratedRepos → Migrated org repo branch = true) ∧
    "kata-containers/libpod/.*" ∉ migratedRepos ∧
    Migrated "kata-containers" "libpod" "master" = true ∧
    "integr8ly/ansible-tower-configuration/.*" ∉ migratedRepos ∧
    Migrated "integr8ly" "ansible-tower-configuration" "ostreedev/ostree/fix" = true ∧
    Migrated "integr8ly" "ansible-tower-configuration" "master" = false :=
  ⟨Migrated_of_listed, migratedRepos_not_listed.1, Migrated_examples.1,
    migratedRepos_not_listed.2, Migrated_examples.2.1, Migrated_examples.2.2.1⟩

end Prowgen
